import Mathlib

/-!
# DynamO: event-driven molecular dynamics

A shallow embedding of the dynamics kernel (`CLNewton`, `NewtonL.cpp`), the
hard-sphere interaction (`hardsphere.cpp`), the single-slot particle event
list (`singleeventPEL.hpp`) and the scheduler (`scheduler.cpp`).

Numbers: the source computes in `double` (`Iflt`).  The dynamics kernel is
embedded over an arbitrary linearly ordered field `K` (exact arithmetic); the
square root is a parameter `sqrt : K → K`, instantiated with `Real.sqrt` where
a statement is about real arithmetic.  Event times of the scheduler are values
of `Dbl K`, which adds `+∞` (`HUGE_VAL`), `-∞` and NaN to `K`.  The divisions
of the cell exit times and of the well impulse are embedded with their result
in `double` for a zero divisor: NaN or an infinity in `Dbl K`, or no record
where the source writes velocities that are not numbers.  Elsewhere quotients
are field quotients.  The event
counters of the scheduler are natural numbers, without the wrap-around at
`2^64`; the `size_t` arithmetic of the cell lists and of the warning counter
is taken modulo `2^64`.
-/

namespace DynamO

/-! ## Event times -/

/-- The values a `double` event time can take: a number, `+∞` (`HUGE_VAL`),
`-∞` or NaN.  Arithmetic on numbers is exact. -/
inductive Dbl (K : Type) where
  | fin (x : K)
  | pinf
  | ninf
  | nan
deriving DecidableEq, Repr

namespace Dbl

variable {K : Type} [LinearOrderedField K]

/-- The constant `HUGE_VAL`. -/
def HUGE_VAL : Dbl K := pinf

/-- The test `std::isfinite`. -/
def isfinite : Dbl K → Bool
  | fin _ => true
  | _ => false

/-- The test `std::isnan`. -/
def isnan : Dbl K → Bool
  | nan => true
  | _ => false

/-- Addition of doubles. -/
def add : Dbl K → Dbl K → Dbl K
  | fin a, fin b => fin (a + b)
  | nan, _ => nan
  | _, nan => nan
  | pinf, ninf => nan
  | ninf, pinf => nan
  | pinf, _ => pinf
  | _, pinf => pinf
  | ninf, _ => ninf
  | _, ninf => ninf

/-- Negation of doubles. -/
def neg : Dbl K → Dbl K
  | fin a => fin (-a)
  | pinf => ninf
  | ninf => pinf
  | nan => nan

/-- Subtraction of doubles. -/
def sub (a b : Dbl K) : Dbl K := add a (neg b)

/-- The comparison `a < b` of doubles; false as soon as one side is NaN. -/
def lt : Dbl K → Dbl K → Bool
  | nan, _ => false
  | _, nan => false
  | fin a, fin b => decide (a < b)
  | _, ninf => false
  | ninf, _ => true
  | pinf, _ => false
  | fin _, pinf => true

/-- The comparison `a > b` of doubles. -/
def gt (a b : Dbl K) : Bool := lt b a

/-- The comparison `a <= b` of doubles; false as soon as one side is NaN. -/
def le : Dbl K → Dbl K → Bool
  | nan, _ => false
  | _, nan => false
  | fin a, fin b => decide (a ≤ b)
  | ninf, _ => true
  | _, pinf => true
  | _, ninf => false
  | pinf, _ => false

/-- The function `std::min(a, b)` on doubles: `b` when `b < a`, else `a`. -/
def min (a b : Dbl K) : Dbl K := if b.lt a then b else a

end Dbl

/-! ## Vectors and particles -/

/-- Three-component vector, `CVector<>` with `NDIM = 3`. -/
@[ext]
structure Vector (K : Type) where
  x : K
  y : K
  z : K
deriving DecidableEq, Repr

namespace Vector

variable {K : Type} [Field K]

/-- Componentwise sum, `operator+`. -/
def add (a b : Vector K) : Vector K := ⟨a.x + b.x, a.y + b.y, a.z + b.z⟩

/-- Componentwise difference, `operator-`. -/
def sub (a b : Vector K) : Vector K := ⟨a.x - b.x, a.y - b.y, a.z - b.z⟩

/-- Vector times scalar, `operator*(CVector, Iflt)`. -/
def smul (a : Vector K) (c : K) : Vector K := ⟨a.x * c, a.y * c, a.z * c⟩

/-- Vector divided by scalar, `operator/(CVector, Iflt)`. -/
def sdiv (a : Vector K) (c : K) : Vector K := ⟨a.x / c, a.y / c, a.z / c⟩

/-- Dot product, `operator%`. -/
def dot (a b : Vector K) : K := a.x * b.x + a.y * b.y + a.z * b.z

/-- Squared length, `CVector::square()`. -/
def square (a : Vector K) : K := a.dot a

end Vector

/-- The state of a particle the dynamics reads and writes (`CParticle`):
position, velocity, identifier and peculiar time. -/
structure CParticle (K : Type) where
  pos : Vector K
  vel : Vector K
  ID : Nat
  pecTime : K
deriving DecidableEq, Repr

/-- Event kinds (`EEventType`). -/
inductive EEventType where
  | NONE | INTERACTION | GLOBAL | LOCAL | SYSTEM | VIRTUAL | RECALCULATE
  | CELL | WALL | CORE | BOUNCE | WELL_KEUP | WELL_KEDOWN
  | NBHOOD_IN | NBHOOD_OUT | SLEEP | WAKEUP | GAUSSIAN
deriving DecidableEq, Repr

/-- Pair data handed to the root finders (`CPDData`): separation, relative
velocity, their dot product and squared lengths, and the computed time. -/
structure CPDData (K : Type) where
  rij : Vector K
  vij : Vector K
  rvdot : K
  r2 : K
  v2 : K
  dt : Dbl K
deriving DecidableEq, Repr

/-- Pair event record returned by the impulses (`C2ParticleData`); the
per-particle energy bookkeeping written by `calcDeltaKE` for the output
plugins is not part of the embedding. -/
structure C2ParticleData (K : Type) where
  rij : Vector K
  vijold : Vector K
  rvdot : K
  dP : Vector K
  type : EEventType
deriving DecidableEq, Repr

/-- The boundary condition `Sim->Dynamics.BCs()`: `setPBC(rij, vij)` wraps a
separation and a relative velocity in place.  The class is not part of the
sources at hand, so the wrap is a parameter of every function calling it. -/
abbrev BC (K : Type) := Vector K → Vector K → Vector K × Vector K

/-- The rectangular / plain periodic wrap seen from inside the primary image:
nothing moves. -/
def BC.none {K : Type} : BC K := fun r v => (r, v)

namespace CLNewton

variable {K : Type} [LinearOrderedField K]

/-- `CLNewton::SphereSphereInRoot(dat, d2)`: returns the flag and the pair
datum with `dt` written when the flag is true. -/
def SphereSphereInRoot (sqrt : K → K) (dat : CPDData K) (d2 : K) : Bool × CPDData K :=
  if dat.rvdot < 0 then
    let arg := dat.rvdot * dat.rvdot - dat.v2 * (dat.r2 - d2)
    if arg > 0 then
      (true, { dat with dt := Dbl.fin ((d2 - dat.r2) / (dat.rvdot - sqrt arg)) })
    else
      (false, dat)
  else
    (false, dat)

/-- `CLNewton::SphereSphereOutRoot(dat, d2)`: always true, with `dt` written.
Where the source divides by `v2 = 0` the quotient of the embedding is that of
the field. -/
def SphereSphereOutRoot (sqrt : K → K) (dat : CPDData K) (d2 : K) : Bool × CPDData K :=
  (true, { dat with
    dt := Dbl.fin
      ((sqrt (dat.rvdot * dat.rvdot - dat.v2 * (dat.r2 - d2)) - dat.rvdot) / dat.v2) })

/-- `CLNewton::sphereOverlap(dat, d2)`. -/
def sphereOverlap (dat : CPDData K) (d2 : K) : Bool := decide (dat.r2 - d2 < 0)

/-- `CLNewton::streamParticle(particle, dt)`. -/
def streamParticle (particle : CParticle K) (dt : K) : CParticle K :=
  { particle with pos := particle.pos.add (particle.vel.smul dt) }

/-- Modelled from the spec: `updateParticle` of the base class `CLiouvillean`
(§4.1 "advances p from p.peculiar_time to the current system time using
ballistic integration, then sets p.peculiar_time ← system_time"). -/
def updateParticle (systemTime : K) (p : CParticle K) : CParticle K :=
  { streamParticle p (systemTime - p.pecTime) with pecTime := systemTime }

/-- Modelled from the spec: the `C2ParticleData` constructor, which records
`rij = r_1 - r_2` and `vijold = v_1 - v_2` of the two particles. -/
def C2ParticleData.mk0 (p1 p2 : CParticle K) (eType : EEventType) : C2ParticleData K :=
  { rij := p1.pos.sub p2.pos, vijold := p1.vel.sub p2.vel, rvdot := 0,
    dP := ⟨0, 0, 0⟩, type := eType }

/-- `CLNewton::SmoothSpheresColl(event, e, d2, eType)`.  The two particles of
the event and their species masses are passed explicitly; the result is the
event record and the two particles afterwards. -/
def SmoothSpheresColl (bc : BC K) (systemTime : K) (p1 p2 : CParticle K)
    (p1Mass p2Mass e : K) (_d2 : K) (eType : EEventType) :
    C2ParticleData K × CParticle K × CParticle K :=
  let p1 := updateParticle systemTime p1
  let p2 := updateParticle systemTime p2
  let retVal := C2ParticleData.mk0 p1 p2 eType
  let w := bc retVal.rij retVal.vijold
  let retVal := { retVal with rij := w.1, vijold := w.2 }
  let mu := p1Mass * p2Mass / (p1Mass + p2Mass)
  let retVal := { retVal with rvdot := retVal.rij.dot retVal.vijold }
  let retVal := { retVal with
    dP := retVal.rij.smul ((1 + e) * mu * retVal.rvdot / retVal.rij.square) }
  (retVal,
   { p1 with vel := p1.vel.sub (retVal.dP.sdiv p1Mass) },
   { p2 with vel := p2.vel.add (retVal.dP.sdiv p2Mass) })

/-- `CLNewton::DSMCSpheresRun(p1, p2, e, pdat)`. -/
def DSMCSpheresRun (systemTime : K) (p1 p2 : CParticle K) (p1Mass p2Mass e : K)
    (pdat : CPDData K) : C2ParticleData K × CParticle K × CParticle K :=
  let p1 := updateParticle systemTime p1
  let p2 := updateParticle systemTime p2
  let retVal := C2ParticleData.mk0 p1 p2 EEventType.CORE
  let retVal := { retVal with rij := pdat.rij, rvdot := pdat.rvdot }
  let mu := p1Mass * p2Mass / (p1Mass + p2Mass)
  let retVal := { retVal with
    dP := retVal.rij.smul ((1 + e) * mu * retVal.rvdot / retVal.rij.square) }
  (retVal,
   { p1 with vel := p1.vel.sub (retVal.dP.sdiv p1Mass) },
   { p2 with vel := p2.vel.add (retVal.dP.sdiv p2Mass) })

/-- `CLNewton::SphereWellEvent(event, deltaKE, d2)` for the positive masses of
two species.  The first component is the type written with `event.setType`
and `retVal.setType`.  The second is the returned record and the two particles
afterwards when the impulse is a number, and `none` when the divisor
`sqrt(sqrtArg) - rvdot` or `rvdot + sqrt(sqrtArg)` of the impulse is zero: the
quotient is then NaN (`0/0`) or infinite, and the source writes a `dP` and two
velocities that are not numbers (its `DYNAMO_DEBUG` build throws "A nan dp has
ocurred").  In the BOUNCE branch the divisor `R2` is not zero, because a zero
separation gives `sqrtArg = 0`.  The potential-energy bookkeeping (`setDeltaU`)
for the output plugins is not part of the embedding. -/
def SphereWellEvent (sqrt : K → K) (bc : BC K) (systemTime : K) (p1 p2 : CParticle K)
    (p1Mass p2Mass deltaKE : K) (_d2 : K) (eType : EEventType) :
    EEventType × Option (C2ParticleData K × CParticle K × CParticle K) :=
  let p1 := updateParticle systemTime p1
  let p2 := updateParticle systemTime p2
  let retVal := C2ParticleData.mk0 p1 p2 eType
  let w := bc retVal.rij retVal.vijold
  let retVal := { retVal with rij := w.1, vijold := w.2 }
  let retVal := { retVal with rvdot := retVal.rij.dot retVal.vijold }
  let mu := p1Mass * p2Mass / (p1Mass + p2Mass)
  let R2 := retVal.rij.square
  let sqrtArg := retVal.rvdot * retVal.rvdot + 2 * R2 * deltaKE / mu
  if deltaKE < 0 ∧ sqrtArg < 0 then
    let retVal := { retVal with
      type := EEventType.BOUNCE
      dP := (((retVal.rij.smul 2).smul mu).smul retVal.rvdot).sdiv R2 }
    (EEventType.BOUNCE, some (retVal,
      { p1 with vel := p1.vel.sub (retVal.dP.sdiv p1Mass) },
      { p2 with vel := p2.vel.add (retVal.dP.sdiv p2Mass) }))
  else
    let retVal :=
      if deltaKE < 0 then { retVal with type := EEventType.WELL_KEDOWN }
      else { retVal with type := EEventType.WELL_KEUP }
    if retVal.rvdot < 0 then
      if sqrt sqrtArg - retVal.rvdot = 0 then (retVal.type, none)
      else
        let retVal := { retVal with
          dP := retVal.rij.smul (2 * deltaKE / (sqrt sqrtArg - retVal.rvdot)) }
        (retVal.type, some (retVal,
          { p1 with vel := p1.vel.sub (retVal.dP.sdiv p1Mass) },
          { p2 with vel := p2.vel.add (retVal.dP.sdiv p2Mass) }))
    else
      if retVal.rvdot + sqrt sqrtArg = 0 then (retVal.type, none)
      else
        let retVal := { retVal with
          dP := retVal.rij.smul (-2 * deltaKE / (retVal.rvdot + sqrt sqrtArg)) }
        (retVal.type, some (retVal,
          { p1 with vel := p1.vel.sub (retVal.dP.sdiv p1Mass) },
          { p2 with vel := p2.vel.add (retVal.dP.sdiv p2Mass) }))

/-- The running sums of one of the first two loops of
`CLNewton::multibdyCollision`: mass, mass-weighted velocity and position of a
structure. -/
structure StructSum (K : Type) where
  structmass : K
  COMVel : Vector K
  COMPos : Vector K
deriving DecidableEq, Repr

/-- The body of the first two loops of `CLNewton::multibdyCollision` (lines
324-350): update the particle `ID` and add it to the sums.  An `ID` outside
the particle list (undefined behaviour in the source) adds nothing. -/
def multibdyGather (systemTime : K) (mass : Nat → K)
    (st : List (CParticle K) × StructSum K) (ID : Nat) : List (CParticle K) × StructSum K :=
  let l := st.1.modify (updateParticle systemTime) ID
  match l[ID]? with
  | none => (l, st.2)
  | some p =>
    (l, { structmass := st.2.structmass + mass ID
          COMVel := st.2.COMVel.add (p.vel.smul (mass ID))
          COMPos := st.2.COMPos.add (p.pos.smul (mass ID)) })

/-- `CLNewton::multibdyCollision(range1, range2, _, eType)`: the particle list
afterwards.  `mass ID` is `Sim->Dynamics.getSpecies(particle).getMass()` of
particle `ID`; the per-particle event records for the output plugins are not
part of the embedding. -/
def multibdyCollision (bc : BC K) (systemTime : K) (mass : Nat → K)
    (vParticleList : List (CParticle K)) (range1 range2 : List Nat) : List (CParticle K) :=
  let zero : StructSum K := ⟨0, ⟨0, 0, 0⟩, ⟨0, 0, 0⟩⟩
  let s1 := range1.foldl (multibdyGather systemTime mass) (vParticleList, zero)
  let s2 := range2.foldl (multibdyGather systemTime mass) (s1.1, zero)
  let structmass1 := s1.2.structmass
  let structmass2 := s2.2.structmass
  let COMVel1 := s1.2.COMVel.sdiv structmass1
  let COMVel2 := s2.2.COMVel.sdiv structmass2
  let COMPos1 := s1.2.COMPos.sdiv structmass1
  let COMPos2 := s2.2.COMPos.sdiv structmass2
  let w := bc (COMPos1.sub COMPos2) (COMVel1.sub COMVel2)
  let rij := w.1
  let vij := w.2
  let rvdot := rij.dot vij
  let mu := structmass1 * structmass2 / (structmass1 + structmass2)
  let e : K := 1
  let dP := rij.smul ((1 + e) * mu * rvdot / rij.square)
  let l := range1.foldl (fun l ID =>
    l.modify (fun p => { p with vel := p.vel.sub (dP.sdiv (mass ID)) }) ID) s2.1
  range2.foldl (fun l ID =>
    l.modify (fun p => { p with vel := p.vel.add (dP.sdiv (mass ID)) }) ID) l

/-- `CLNewton::getWallCollision(part, wallLoc, wallNorm)`. -/
def getWallCollision (bc : BC K) (part : CParticle K) (wallLoc wallNorm : Vector K) : Dbl K :=
  let w := bc part.pos part.vel
  let rij := w.1
  let vel := w.2
  let rvdot := vel.dot wallNorm
  let rij := rij.sub wallLoc
  if rvdot < 0 then Dbl.fin (-(rij.dot wallNorm / rvdot))
  else Dbl.HUGE_VAL

/-- `CLNewton::runWallCollision(part, vNorm, e)`: the particle afterwards. -/
def runWallCollision (systemTime : K) (part : CParticle K) (vNorm : Vector K) (e : K) :
    CParticle K :=
  let part := updateParticle systemTime part
  { part with vel := part.vel.sub (vNorm.smul ((1 + e) * vNorm.dot part.vel)) }

end CLNewton

/-! ## Events -/

/-- Modelled from the spec: the FEL event record `Event` of `event.hpp`
(§3 "{ kind, dt, owner_id, secondary_id, collision_counter }").  The owner is
the index of the PEL holding the event.  The secondary id is read by the
scheduler as `particle2ID`, `localID`, `globalID` or `systemID` according to
the kind. -/
structure Event (K : Type) where
  dt : Dbl K
  type : EEventType
  particle2ID : Nat
  collCounter2 : Nat
deriving DecidableEq, Repr

/-- The secondary id of a LOCAL event. -/
abbrev Event.localID {K : Type} (e : Event K) : Nat := e.particle2ID

/-- The secondary id of a GLOBAL event. -/
abbrev Event.globalID {K : Type} (e : Event K) : Nat := e.particle2ID

/-- The secondary id of a SYSTEM event. -/
abbrev Event.systemID {K : Type} (e : Event K) : Nat := e.particle2ID

/-- Modelled from the spec: the pair event `IntEvent` an interaction predicts
(`intEvent.hpp`): time, sub-kind, the two particles and the interaction. -/
structure IntEvent (K : Type) where
  dt : Dbl K
  type : EEventType
  particle1ID : Nat
  particle2ID : Nat
  interactionID : Nat
deriving DecidableEq, Repr

/-- Modelled from the spec: the event `LocalEvent` a local predicts. -/
structure LocalEvent (K : Type) where
  dt : Dbl K
  type : EEventType
  particleID : Nat
  localID : Nat
deriving DecidableEq, Repr

/-- Modelled from the spec: the event `GlobalEvent` a global predicts. -/
structure GlobalEvent (K : Type) where
  dt : Dbl K
  type : EEventType
  particleID : Nat
  globalID : Nat
deriving DecidableEq, Repr

/-- Modelled from the spec: the constructor `Event(const IntEvent&, counter)`
(§4.3 "the event records collision_counter = eventCount[q]"). -/
def Event.ofIntEvent {K : Type} (e : IntEvent K) (nCollCounter2 : Nat) : Event K :=
  { dt := e.dt, type := EEventType.INTERACTION, particle2ID := e.particle2ID,
    collCounter2 := nCollCounter2 }

/-- Modelled from the spec: the conversion of a `LocalEvent` to a FEL event. -/
def Event.ofLocalEvent {K : Type} (e : LocalEvent K) : Event K :=
  { dt := e.dt, type := EEventType.LOCAL, particle2ID := e.localID, collCounter2 := 0 }

/-- Modelled from the spec: the conversion of a `GlobalEvent` to a FEL event. -/
def Event.ofGlobalEvent {K : Type} (e : GlobalEvent K) : Event K :=
  { dt := e.dt, type := EEventType.GLOBAL, particle2ID := e.globalID, collCounter2 := 0 }

/-! ## The hard-sphere interaction -/

/-- Modelled from the spec: the constructor `CPDData(Sim, p1, p2)` of
`datastruct.hpp`: separation and relative velocity of the pair after the
boundary-condition wrap, their dot product and squared lengths; `dt` starts
at `HUGE_VAL`. -/
def CPDData.ofPair {K : Type} [Field K] (bc : BC K) (p1 p2 : CParticle K) : CPDData K :=
  let w := bc (p1.pos.sub p2.pos) (p1.vel.sub p2.vel)
  { rij := w.1, vij := w.2, rvdot := w.1.dot w.2, r2 := w.1.square, v2 := w.2.square,
    dt := Dbl.pinf }

/-- The parameters of a `CIHardSphere`: diameter, its square, elasticity, and
the index of the interaction. -/
structure CIHardSphere (K : Type) where
  diameter : K
  d2 : K
  e : K
  ID : Nat
deriving DecidableEq, Repr

namespace CIHardSphere

variable {K : Type} [LinearOrderedField K]

/-- `CIHardSphere::getCollision(p1, p2)` (release build, without
`DYNAMO_DEBUG` and `DYNAMO_OverlapTesting`). -/
def getCollision (self : CIHardSphere K) (sqrt : K → K) (bc : BC K) (systemTime : K)
    (p1 p2 : CParticle K) : IntEvent K :=
  let p1 := CLNewton.updateParticle systemTime p1
  let p2 := CLNewton.updateParticle systemTime p2
  let colldat := CPDData.ofPair bc p1 p2
  let r := CLNewton.SphereSphereInRoot sqrt colldat self.d2
  if r.1 then
    { dt := r.2.dt, type := EEventType.CORE, particle1ID := p1.ID, particle2ID := p2.ID,
      interactionID := self.ID }
  else
    { dt := Dbl.HUGE_VAL, type := EEventType.NONE, particle1ID := p1.ID,
      particle2ID := p2.ID, interactionID := self.ID }

/-- `CIHardSphere::runCollision(event)`; the event kind defaults to CORE. -/
def runCollision (self : CIHardSphere K) (bc : BC K) (systemTime : K)
    (p1 p2 : CParticle K) (p1Mass p2Mass : K) :
    C2ParticleData K × CParticle K × CParticle K :=
  CLNewton.SmoothSpheresColl bc systemTime p1 p2 p1Mass p2Mass self.e self.d2 EEventType.CORE

end CIHardSphere

/-! ## The single-slot particle event list -/

/-- The class `PELSingleEvent`: a PEL that stores one event. -/
structure PELSingleEvent (K : Type) where
  _event : Event K
deriving DecidableEq, Repr

namespace PELSingleEvent

variable {K : Type} [LinearOrderedField K]

/-- `PELSingleEvent::size()`. -/
def size (p : PELSingleEvent K) : Nat := if p._event.type ≠ EEventType.NONE then 1 else 0

/-- `PELSingleEvent::empty()`. -/
def empty (p : PELSingleEvent K) : Bool := decide (p._event.type = EEventType.NONE)

/-- `PELSingleEvent::full()`. -/
def full (p : PELSingleEvent K) : Bool := decide (p._event.type ≠ EEventType.NONE)

/-- `PELSingleEvent::front()`. -/
def front (p : PELSingleEvent K) : Event K := p._event

/-- `PELSingleEvent::top()`. -/
def top (p : PELSingleEvent K) : Event K := p._event

/-- `PELSingleEvent::pop()`. -/
def pop (p : PELSingleEvent K) : PELSingleEvent K :=
  if p.empty then p
  else { p with _event := { p._event with type := EEventType.RECALCULATE } }

/-- `PELSingleEvent::clear()`. -/
def clear (p : PELSingleEvent K) : PELSingleEvent K :=
  { p with _event := { p._event with dt := Dbl.HUGE_VAL, type := EEventType.NONE } }

/-- The constructor `PELSingleEvent()`, which clears a default event; the
secondary id and counter of a default event are never read and are 0 here. -/
def new : PELSingleEvent K :=
  clear ⟨{ dt := Dbl.HUGE_VAL, type := EEventType.NONE, particle2ID := 0, collCounter2 := 0 }⟩

/-- `PELSingleEvent::getdt()`. -/
def getdt (p : PELSingleEvent K) : Dbl K := p._event.dt

/-- `PELSingleEvent::stream(ndt)`. -/
def stream (p : PELSingleEvent K) (ndt : Dbl K) : PELSingleEvent K :=
  { p with _event := { p._event with dt := p._event.dt.sub ndt } }

/-- `PELSingleEvent::push(x)`: `std::min(x, _event)` under the order of events
by `dt`, which returns its first argument unless the second is smaller. -/
def push (p : PELSingleEvent K) (x : Event K) : PELSingleEvent K :=
  { p with _event := if p._event.dt.lt x.dt then p._event else x }

end PELSingleEvent

/-! ## The future event list -/

/-- Modelled from the spec: the future event list `FEL` behind
`Scheduler::sorter` (§3 "Ordered container of (particle_id,
soonest_event_in_its_PEL)"), here with single-slot PELs.  The container is
represented by the PELs in index order; the heap that orders them is not
represented, so `update` and `sort` change nothing and `next` searches for
the soonest PEL. -/
structure FEL (K : Type) where
  pels : List (PELSingleEvent K)
deriving DecidableEq, Repr

namespace FEL

variable {K : Type} [LinearOrderedField K]

/-- Search for the soonest PEL: `best` is the index of the soonest PEL seen so
far, `bestdt` its time and `i` the index of the head of the remaining list. -/
def topFrom (best : Nat) (bestdt : Dbl K) (i : Nat) : List (PELSingleEvent K) → Nat
  | [] => best
  | q :: qs =>
    if q.getdt.lt bestdt then topFrom i q.getdt (i + 1) qs
    else topFrom best bestdt (i + 1) qs

/-- Modelled from the spec: the index of the PEL at the top of the FEL, the
first one with the soonest event (0 for a list without PELs). -/
def topID (f : FEL K) : Nat :=
  match f.pels with
  | [] => 0
  | p :: ps => topFrom 0 p.getdt 1 ps

/-- Modelled from the spec: `FEL::next()` ("peek top"), the index of the top
PEL and its event; a list without PELs shows an empty PEL. -/
def next (f : FEL K) : Nat × Event K :=
  (f.topID, (f.pels.getD f.topID PELSingleEvent.new).top)

/-- Modelled from the spec: `FEL::popNextEvent()` ("pop top"). -/
def popNextEvent (f : FEL K) : FEL K :=
  { f with pels := f.pels.modify PELSingleEvent.pop f.topID }

/-- Modelled from the spec: `FEL::update(id)` re-orders the entry of `id`. -/
def update (f : FEL K) (_id : Nat) : FEL K := f

/-- Modelled from the spec: `FEL::sort()` re-orders the whole list. -/
def sort (f : FEL K) : FEL K := f

/-- Modelled from the spec: `FEL::push(event, id)` ("push to a specific
particle's PEL"). -/
def push (f : FEL K) (event : Event K) (id : Nat) : FEL K :=
  { f with pels := f.pels.modify (fun p => p.push event) id }

/-- Modelled from the spec: `FEL::clearPEL(id)` ("clear a particle's PEL"). -/
def clearPEL (f : FEL K) (id : Nat) : FEL K :=
  { f with pels := f.pels.modify PELSingleEvent.clear id }

/-- Modelled from the spec: `FEL::clear()`, which drops every PEL. -/
def clear (_f : FEL K) : FEL K := ⟨[]⟩

/-- Modelled from the spec: `FEL::resize(n)`, which leaves `n` PELs, new ones
being empty (§3 "The system slot lives at index N"). -/
def resize (f : FEL K) (n : Nat) : FEL K :=
  ⟨f.pels.take n ++ List.replicate (n - f.pels.length) PELSingleEvent.new⟩

/-- Modelled from the spec: `FEL::init()` orders the list ("full rebuild"). -/
def init (f : FEL K) : FEL K := f

/-- Modelled from the spec: `FEL::stream(dt)` ("bulk-stream-all (subtract dt
from every stored event)"). -/
def stream (f : FEL K) (dt : Dbl K) : FEL K :=
  { f with pels := f.pels.map (fun p => p.stream dt) }

end FEL

/-! ## The scheduler -/

/-- The members of the class `Scheduler`: the FEL, the per-particle event
counters and the two rejection watchdog counters. -/
structure Scheduler (K : Type) where
  sorter : FEL K
  eventCount : List Nat
  _interactionRejectionCounter : Nat
  _localRejectionCounter : Nat
deriving DecidableEq, Repr

/-- The simulation `Sim` as the scheduler sees it: the state `particles` that
the plug-ins own (particle store, capture maps, dynamics), the system time and
the scheduler. -/
structure Simulation (K σ : Type) where
  particles : σ
  systemTime : Dbl K
  ptrScheduler : Scheduler K

/-- A call of an owner's `runEvent` made by the scheduler. -/
inductive Executed (K : Type) where
  | ofInteraction (p1 p2 : Nat) (event : IntEvent K)
  | ofLocal (localID part : Nat) (event : LocalEvent K)
  | ofGlobal (globalID part : Nat) (dt : Dbl K)
  | ofSystem (systemID : Nat)
deriving DecidableEq, Repr

/-- How a call of `runNextEvent` ends: the simulation at the return (or at the
`M_throw`), the `runEvent` calls made on the way, and the message when it
threw. -/
structure Outcome (K σ : Type) where
  sim : Simulation K σ
  ran : List (Executed K)
  threw : Option String

/-- A global as the scheduler uses it (`Global::isInteraction`, `getEvent`). -/
structure GlobalPlugin (K σ : Type) where
  isInteraction : σ → Nat → Bool
  getEvent : σ → Nat → GlobalEvent K

/-- A local as the scheduler uses it (`Local::isInteraction`, `getEvent`). -/
structure LocalPlugin (K σ : Type) where
  isInteraction : σ → Nat → Bool
  getEvent : σ → Nat → LocalEvent K

/-- The collaborators of the scheduler whose code is outside `scheduler.cpp`,
as parameters; particles are named by their ID.  `δ` is `PairEventData`.
An interaction acts on the plug-in state only and may throw (`none`).  A local
acts on the plug-in state and on the scheduler (its `runEvent` ends in a
`fullUpdate`), not on the system time.  Globals and systems stream the system
themselves and act on the whole simulation. -/
structure Plugins (K σ δ : Type) where
  /-- `Sim->dynamics->updateParticle(part)`. -/
  updateParticle : σ → Nat → σ
  /-- `Sim->dynamics->updateParticlePair(p1, p2)`. -/
  updateParticlePair : σ → Nat → Nat → σ
  /-- `Sim->getEvent(p1, p2)`. -/
  getEvent : σ → Nat → Nat → IntEvent K
  /-- `Sim->stream(dt)`. -/
  stream : σ → Dbl K → σ
  /-- `Sim->interactions[id]->runEvent(p1, p2, Event)`. -/
  runEvent : Nat → Nat → Nat → IntEvent K → σ → Option (δ × σ)
  /-- `Sim->_sigParticleUpdate(eventdata)`. -/
  _sigParticleUpdate : δ → σ → σ
  /-- `Ptr->eventUpdate(Event, eventdata)` of each output plugin. -/
  outputPlugins : List (IntEvent K → δ → σ → σ)
  /-- `Sim->globals`. -/
  globals : List (GlobalPlugin K σ)
  /-- `Sim->globals[id]->runEvent(part, dt)`. -/
  runGlobal : Nat → Nat → Dbl K → Simulation K σ → Option (Simulation K σ)
  /-- `Sim->locals`. -/
  locals : List (LocalPlugin K σ)
  /-- `Sim->locals[id]->runEvent(part, iEvent)`. -/
  runLocal : Nat → Nat → LocalEvent K → σ × Scheduler K → Option (σ × Scheduler K)
  /-- `Sim->systems[id]->runEvent()`. -/
  runSystem : Nat → Simulation K σ → Option (Simulation K σ)
  /-- `getdt()` and `getID()` of each of `Sim->systems`. -/
  systems : σ → List (Dbl K × Nat)
  /-- `Sim->N()`. -/
  N : σ → Nat
  /-- `Scheduler::getParticleLocals(part)`. -/
  getParticleLocals : σ → Nat → List Nat
  /-- `Scheduler::getParticleNeighbours(part)`. -/
  getParticleNeighbours : σ → Nat → List Nat

namespace Scheduler

variable {K σ δ : Type} [LinearOrderedField K]

/-- The read `eventCount[id]`. -/
def eventCountAt (s : Scheduler K) (id : Nat) : Nat := s.eventCount.getD id 0

/-- `Scheduler::popNextEvent()`. -/
def popNextEvent (s : Scheduler K) : Scheduler K :=
  { s with sorter := s.sorter.popNextEvent }

/-- `Scheduler::pushEvent(part, newevent)`. -/
def pushEvent (s : Scheduler K) (part : Nat) (newevent : Event K) : Scheduler K :=
  { s with sorter := s.sorter.push newevent part }

/-- `Scheduler::sort(part)`. -/
def sort (s : Scheduler K) (part : Nat) : Scheduler K :=
  { s with sorter := s.sorter.update part }

/-- Modelled from the spec: `Scheduler::stream(dt)` of `scheduler.hpp`, which
streams the FEL (§4.3 step 5 "call FEL.stream(dt)"). -/
def stream (s : Scheduler K) (dt : Dbl K) : Scheduler K :=
  { s with sorter := s.sorter.stream dt }

/-- `Scheduler::invalidateEvents(part)`. -/
def invalidateEvents (s : Scheduler K) (part : Nat) : Scheduler K :=
  let s := { s with eventCount := s.eventCount.modify (fun c => c + 1) part }
  { s with sorter := s.sorter.clearPEL part }

/-- The loop test of `Scheduler::lazyDeletionCleanup`: the top event is an
INTERACTION whose counter is not the current one of its second particle. -/
def staleTop (s : Scheduler K) : Prop :=
  s.sorter.next.2.type = EEventType.INTERACTION ∧
    s.sorter.next.2.collCounter2 ≠ s.eventCountAt s.sorter.next.2.particle2ID

instance decidableStaleTop (s : Scheduler K) : Decidable (staleTop s) := by
  unfold staleTop; exact inferInstance

/-- The number of INTERACTION events in the FEL. -/
def interactionCount (s : Scheduler K) : Nat :=
  s.sorter.pels.countP (fun p => decide (p.top.type = EEventType.INTERACTION))

/-- `Scheduler::lazyDeletionCleanup()`.  Every turn of the loop pops a stale
INTERACTION event, which a single-slot PEL turns into a RECALCULATE event, so
the number of INTERACTION events in the FEL bounds the number of turns. -/
def lazyDeletionCleanup (s : Scheduler K) : Scheduler K :=
  if _h : staleTop s then
    lazyDeletionCleanup
      { s with sorter := ((s.sorter.popNextEvent).update s.sorter.next.1).sort }
  else s
termination_by interactionCount s
decreasing_by
  obtain ⟨hI, -⟩ := _h
  have hcount : ∀ (l : List (PELSingleEvent K)) (i : Nat),
      (l.getD i PELSingleEvent.new).top.type = EEventType.INTERACTION →
      (l.modify PELSingleEvent.pop i).countP
          (fun p => decide (p.top.type = EEventType.INTERACTION))
        < l.countP (fun p => decide (p.top.type = EEventType.INTERACTION)) := by
    intro l
    induction l with
    | nil =>
      intro i hi
      simp [PELSingleEvent.new, PELSingleEvent.clear, PELSingleEvent.top] at hi
    | cons a l ih =>
      intro i hi
      cases i with
      | zero =>
        simp only [List.getD_cons_zero] at hi
        simp [List.countP_cons, PELSingleEvent.pop, PELSingleEvent.empty,
          PELSingleEvent.top] at hi ⊢
        simp [hi]
      | succ j =>
        simp only [List.getD_cons_succ] at hi
        have := ih j hi
        simp only [List.modify_succ_cons, List.countP_cons]
        omega
  exact hcount _ _ hI

/-- The local `Sim->locals[id]`; an id without a local (undefined behaviour in
the source) gives a local that is never an interaction and predicts NONE. -/
def localAt (env : Plugins K σ δ) (id : Nat) : LocalPlugin K σ :=
  env.locals.getD id
    { isInteraction := fun _ _ => false
      getEvent := fun _ part =>
        { dt := Dbl.HUGE_VAL, type := EEventType.NONE, particleID := part, localID := id } }

/-- `Scheduler::addInteractionEvent(part, id)`. -/
def addInteractionEvent (env : Plugins K σ δ) (sim : Simulation K σ) (part id : Nat) :
    Simulation K σ :=
  if part = id then sim
  else
    let sim := { sim with particles := env.updateParticle sim.particles id }
    let eevent := env.getEvent sim.particles part id
    if eevent.type ≠ EEventType.NONE then
      { sim with ptrScheduler := { sim.ptrScheduler with
          sorter := sim.ptrScheduler.sorter.push
            (Event.ofIntEvent eevent (sim.ptrScheduler.eventCountAt id)) part } }
    else sim

/-- `Scheduler::addLocalEvent(part, id)`. -/
def addLocalEvent (env : Plugins K σ δ) (sim : Simulation K σ) (part id : Nat) :
    Simulation K σ :=
  if (localAt env id).isInteraction sim.particles part then
    { sim with ptrScheduler := { sim.ptrScheduler with
        sorter := sim.ptrScheduler.sorter.push
          (Event.ofLocalEvent ((localAt env id).getEvent sim.particles part)) part } }
  else sim

/-- The body of the loop over `Sim->globals` in `Scheduler::addEvents`
(lines 114-116). -/
def addGlobalEvent (sim : Simulation K σ) (part : Nat) (glob : GlobalPlugin K σ) :
    Simulation K σ :=
  if glob.isInteraction sim.particles part then
    { sim with ptrScheduler := { sim.ptrScheduler with
        sorter := sim.ptrScheduler.sorter.push
          (Event.ofGlobalEvent (glob.getEvent sim.particles part)) part } }
  else sim

/-- `Scheduler::addEvents(part)`. -/
def addEvents (env : Plugins K σ δ) (sim : Simulation K σ) (part : Nat) : Simulation K σ :=
  let sim := { sim with particles := env.updateParticle sim.particles part }
  -- Add the global events
  let sim := env.globals.foldl (fun sim glob => addGlobalEvent sim part glob) sim
  -- Add the local cell events
  let ids := env.getParticleLocals sim.particles part
  let sim := ids.foldl (fun sim id2 => addLocalEvent env sim part id2) sim
  -- Now add the interaction events
  let ids := env.getParticleNeighbours sim.particles part
  ids.foldl (fun sim id2 => addInteractionEvent env sim part id2) sim

/-- Modelled from the spec: `Scheduler::fullUpdate(part)` (§4.3 "Invalidate
PEL(s), stream participant(s), query locals, query globals, query all
neighbours, re-push all events. Resort FEL entries for the touched
particles"), built from `invalidateEvents`, `addEvents` and `sort`. -/
def fullUpdate (env : Plugins K σ δ) (sim : Simulation K σ) (part : Nat) : Simulation K σ :=
  let sim := { sim with ptrScheduler := sim.ptrScheduler.invalidateEvents part }
  let sim := addEvents env sim part
  { sim with ptrScheduler := sim.ptrScheduler.sort part }

/-- Modelled from the spec: `Scheduler::fullUpdate(p1, p2)`, the same for a
pair: both PELs are invalidated before any event is added again. -/
def fullUpdatePair (env : Plugins K σ δ) (sim : Simulation K σ) (p1 p2 : Nat) :
    Simulation K σ :=
  let sim := { sim with ptrScheduler := sim.ptrScheduler.invalidateEvents p1 }
  let sim := { sim with ptrScheduler := sim.ptrScheduler.invalidateEvents p2 }
  let sim := addEvents env sim p1
  let sim := addEvents env sim p2
  let sim := { sim with ptrScheduler := sim.ptrScheduler.sort p1 }
  { sim with ptrScheduler := sim.ptrScheduler.sort p2 }

/-- `Scheduler::rebuildSystemEvents()`. -/
def rebuildSystemEvents (env : Plugins K σ δ) (sim : Simulation K σ) : Simulation K σ :=
  let N := env.N sim.particles
  let sorter := sim.ptrScheduler.sorter.clearPEL N
  let sorter := (env.systems sim.particles).foldl (fun sorter sysptr =>
    sorter.push { dt := sysptr.1, type := EEventType.SYSTEM, particle2ID := sysptr.2,
                  collCounter2 := 0 } N) sorter
  { sim with ptrScheduler := { sim.ptrScheduler with sorter := sorter.update N } }

/-- `Scheduler::rebuildList()`; the particles are visited in the order of
their IDs. -/
def rebuildList (env : Plugins K σ δ) (sim : Simulation K σ) : Simulation K σ :=
  let sorter := sim.ptrScheduler.sorter.clear
  -- The plus one is because system events are stored in the last heap
  let sorter := sorter.resize (env.N sim.particles + 1)
  let eventCount := List.replicate (env.N sim.particles + 1) 0
  let sim := { sim with ptrScheduler :=
    { sim.ptrScheduler with sorter := sorter, eventCount := eventCount } }
  let sim := (List.range (env.N sim.particles)).foldl (fun sim part => addEvents env sim part) sim
  let sim := { sim with ptrScheduler :=
    { sim.ptrScheduler with sorter := sim.ptrScheduler.sorter.init } }
  rebuildSystemEvents env sim

/-- The constant `rejectionLimit` of `Scheduler::runNextEvent`. -/
def rejectionLimit : Nat := 10

/-- The block "Ready the next event in the FEL" of `runNextEvent` (lines
255-258 and 355-358): `popNextEvent`, `update` of the owner, `sort`,
`lazyDeletionCleanup`. -/
def readyNextEvent (s : Scheduler K) (owner : Nat) : Scheduler K :=
  lazyDeletionCleanup { s with sorter := ((s.sorter.popNextEvent).update owner).sort }

/-- The test of line 281,
`(type == NONE) || ((dt > next.dt) && (++_interactionRejectionCounter < rejectionLimit))`,
evaluated left to right: the flag and the scheduler after the test. -/
def interactionRejected (s : Scheduler K) (Event : IntEvent K)
    (next_event : Nat × DynamO.Event K) :
    Bool × Scheduler K :=
  if Event.type = EEventType.NONE then (true, s)
  else if Event.dt.gt next_event.2.dt then
    let s := { s with _interactionRejectionCounter := s._interactionRejectionCounter + 1 }
    (decide (s._interactionRejectionCounter < rejectionLimit), s)
  else (false, s)

/-- The test of line 366, the same with `_localRejectionCounter`. -/
def localRejected (s : Scheduler K) (iEvent : LocalEvent K) (next_event : Nat × Event K) :
    Bool × Scheduler K :=
  if iEvent.type = EEventType.NONE then (true, s)
  else if iEvent.dt.gt next_event.2.dt then
    let s := { s with _localRejectionCounter := s._localRejectionCounter + 1 }
    (decide (s._localRejectionCounter < rejectionLimit), s)
  else (false, s)

/-- `case INTERACTION` of `Scheduler::runNextEvent()` (release build, without
the `DYNAMO_DEBUG` blocks); `next_event` is the top of the FEL after the
first `lazyDeletionCleanup`. -/
def runNextEvent_INTERACTION (env : Plugins K σ δ) (sim : Simulation K σ)
    (next_event : Nat × Event K) : Outcome K σ :=
  let p1 := next_event.1
  let p2 := next_event.2.particle2ID
  if !next_event.2.dt.isfinite then
    ⟨sim, [], some "Next event time is not finite!"⟩
  else
    -- Ready the next event in the FEL
    let sim := { sim with ptrScheduler := sim.ptrScheduler.readyNextEvent next_event.1 }
    -- Now recalculate the current FEL event
    let sim := { sim with particles := env.updateParticlePair sim.particles p1 p2 }
    let Event := env.getEvent sim.particles p1 p2
    let next_event := sim.ptrScheduler.sorter.next
    let test := interactionRejected sim.ptrScheduler Event next_event
    let sim := { sim with ptrScheduler := test.2 }
    if test.1 then
      ⟨fullUpdatePair env sim p1 p2, [], none⟩
    else
      -- Reset the rejection watchdog counter
      let sim := { sim with ptrScheduler :=
        { sim.ptrScheduler with _interactionRejectionCounter := 0 } }
      if !next_event.2.dt.isfinite then
        ⟨sim, [], some "Next event time is not finite!"⟩
      else
        -- Move the simulation forward to the time of the event
        let sim := { sim with systemTime := sim.systemTime.add Event.dt }
        let sim := { sim with ptrScheduler := sim.ptrScheduler.stream Event.dt }
        let sim := { sim with particles := env.stream sim.particles Event.dt }
        match env.runEvent Event.interactionID p1 p2 Event sim.particles with
        | none => ⟨sim, [Executed.ofInteraction p1 p2 Event], some "runEvent threw"⟩
        | some (eventdata, particles) =>
          let sim := { sim with particles := particles }
          let sim := { sim with particles := env._sigParticleUpdate eventdata sim.particles }
          let sim := fullUpdatePair env sim p1 p2
          let sim := { sim with particles :=
            env.outputPlugins.foldl (fun st Ptr => Ptr Event eventdata st) sim.particles }
          ⟨sim, [Executed.ofInteraction p1 p2 Event], none⟩

/-- `case GLOBAL` of `Scheduler::runNextEvent()`. -/
def runNextEvent_GLOBAL (env : Plugins K σ δ) (sim : Simulation K σ)
    (next_event : Nat × Event K) : Outcome K σ :=
  if !next_event.2.dt.isfinite then
    ⟨sim, [], some "Next event time is not finite!"⟩
  else
    match env.runGlobal next_event.2.globalID next_event.1 next_event.2.dt sim with
    | none =>
      ⟨sim, [Executed.ofGlobal next_event.2.globalID next_event.1 next_event.2.dt],
        some "runEvent threw"⟩
    | some sim =>
      ⟨sim, [Executed.ofGlobal next_event.2.globalID next_event.1 next_event.2.dt], none⟩

/-- `case LOCAL` of `Scheduler::runNextEvent()` (release build). -/
def runNextEvent_LOCAL (env : Plugins K σ δ) (sim : Simulation K σ)
    (next_event : Nat × Event K) : Outcome K σ :=
  let part := next_event.1
  let localID := next_event.2.localID
  if !next_event.2.dt.isfinite then
    ⟨sim, [], some "Next event time is not finite!"⟩
  else
    -- Ready the next event in the FEL
    let sim := { sim with ptrScheduler := sim.ptrScheduler.readyNextEvent next_event.1 }
    let sim := { sim with particles := env.updateParticle sim.particles part }
    let iEvent := (localAt env localID).getEvent sim.particles part
    let next_event := sim.ptrScheduler.sorter.next
    let test := localRejected sim.ptrScheduler iEvent next_event
    let sim := { sim with ptrScheduler := test.2 }
    if test.1 then
      ⟨fullUpdate env sim part, [], none⟩
    else
      let sim := { sim with ptrScheduler := { sim.ptrScheduler with _localRejectionCounter := 0 } }
      let sim := { sim with systemTime := sim.systemTime.add iEvent.dt }
      let sim := { sim with ptrScheduler := sim.ptrScheduler.stream iEvent.dt }
      let sim := { sim with particles := env.stream sim.particles iEvent.dt }
      match env.runLocal localID part iEvent (sim.particles, sim.ptrScheduler) with
      | none => ⟨sim, [Executed.ofLocal localID part iEvent], some "runEvent threw"⟩
      | some r =>
        ⟨{ sim with particles := r.1, ptrScheduler := r.2 },
          [Executed.ofLocal localID part iEvent], none⟩

/-- `case SYSTEM` of `Scheduler::runNextEvent()`. -/
def runNextEvent_SYSTEM (env : Plugins K σ δ) (sim : Simulation K σ)
    (next_event : Nat × Event K) : Outcome K σ :=
  if next_event.2.dt.isnan || decide (next_event.2.dt = Dbl.HUGE_VAL) then
    ⟨sim, [], some "Next event time is not finite!"⟩
  else
    match env.runSystem next_event.2.systemID sim with
    | none => ⟨sim, [Executed.ofSystem next_event.2.systemID], some "runEvent threw"⟩
    | some sim =>
      ⟨rebuildSystemEvents env sim, [Executed.ofSystem next_event.2.systemID], none⟩

/-- The opening of `runNextEvent` (lines 188-195): `sorter->sort()` and
`lazyDeletionCleanup()`. -/
def opened (sim : Simulation K σ) : Simulation K σ :=
  { sim with ptrScheduler :=
      lazyDeletionCleanup { sim.ptrScheduler with sorter := sim.ptrScheduler.sorter.sort } }

/-- `Scheduler::runNextEvent()`. -/
def runNextEvent (env : Plugins K σ δ) (sim : Simulation K σ) : Outcome K σ :=
  let sim := opened sim
  let next_event := sim.ptrScheduler.sorter.next
  match next_event.2.type with
  | EEventType.INTERACTION => runNextEvent_INTERACTION env sim next_event
  | EEventType.GLOBAL => runNextEvent_GLOBAL env sim next_event
  | EEventType.LOCAL => runNextEvent_LOCAL env sim next_event
  | EEventType.SYSTEM => runNextEvent_SYSTEM env sim next_event
  | EEventType.RECALCULATE => ⟨fullUpdate env sim next_event.1, [], none⟩
  | EEventType.NONE =>
    ⟨sim, [], some "A NONE event has reached the top of the queue."⟩
  | _ => ⟨sim, [], some "Unhandled event type requested to be run"⟩

/-- What re-predicting and re-pushing events leaves alone: the system time and
the two rejection counters agree in `a` and `b`. -/
def sameClocks (a b : Simulation K σ) : Prop :=
  a.systemTime = b.systemTime ∧
  a.ptrScheduler._interactionRejectionCounter = b.ptrScheduler._interactionRejectionCounter ∧
  a.ptrScheduler._localRejectionCounter = b.ptrScheduler._localRejectionCounter

/-- The event `runNextEvent` dispatches on: the top of the FEL after the
opening `sort` and `lazyDeletionCleanup` (the `next_event` of line 197). -/
def dispatched (sim : Simulation K σ) : Nat × Event K :=
  (opened sim).ptrScheduler.sorter.next

/-- The top of the FEL once the dispatched event is popped (the `next_event`
of lines 274 and 363). -/
def newTop (sim : Simulation K σ) : Nat × Event K :=
  ((opened sim).ptrScheduler.readyNextEvent (dispatched sim).1).sorter.next

/-- The re-predicted interaction event (the `Event` of line 265). -/
def recalculated (env : Plugins K σ δ) (sim : Simulation K σ) : IntEvent K :=
  env.getEvent
    (env.updateParticlePair sim.particles (dispatched sim).1 (dispatched sim).2.particle2ID)
    (dispatched sim).1 (dispatched sim).2.particle2ID

/-- The re-predicted local event (the `iEvent` of line 361). -/
def recalculatedLocal (env : Plugins K σ δ) (sim : Simulation K σ) : LocalEvent K :=
  (localAt env (dispatched sim).2.localID).getEvent
    (env.updateParticle sim.particles (dispatched sim).1) (dispatched sim).1

end Scheduler

/-! ## A system of hard spheres under the scheduler -/

/-- The plug-in state of a system of equal hard spheres: the particle store and
the clock of the dynamics, which `Sim->stream(dt)` advances and to which
`updateParticle` streams a particle. -/
structure HardSphereSim (K : Type) where
  particles : List (CParticle K)
  systemTime : K
deriving DecidableEq, Repr

namespace HardSphereSim

variable {K : Type} [LinearOrderedField K]

/-- The particle `Sim->particles[id]`. -/
def particle (st : HardSphereSim K) (id : Nat) : CParticle K :=
  st.particles.getD id ⟨⟨0, 0, 0⟩, ⟨0, 0, 0⟩, id, 0⟩

/-- The collaborators of the scheduler for equal hard spheres of mass `mass`
with interaction `hs` and Newtonian dynamics in an unbounded box: one wall
through `wallLoc` with normal `wallNorm` as only local, no globals, no systems,
every particle a neighbour of every other (the "Dumb" scheduler). -/
def plugins (sqrt : K → K) (hs : CIHardSphere K) (mass : K) (wallLoc wallNorm : Vector K) :
    Plugins K (HardSphereSim K) (C2ParticleData K) where
  updateParticle st id :=
    { st with particles := st.particles.modify (CLNewton.updateParticle st.systemTime) id }
  updateParticlePair st p1 p2 :=
    let ps := st.particles.modify (CLNewton.updateParticle st.systemTime) p1
    { st with particles := ps.modify (CLNewton.updateParticle st.systemTime) p2 }
  getEvent st p1 p2 :=
    hs.getCollision sqrt BC.none st.systemTime (st.particle p1) (st.particle p2)
  stream st dt :=
    match dt with
    | Dbl.fin x => { st with systemTime := st.systemTime + x }
    | _ => st
  runEvent _ p1 p2 _ st :=
    let r := hs.runCollision BC.none st.systemTime (st.particle p1) (st.particle p2) mass mass
    some (r.1, { st with particles := (st.particles.set p1 r.2.1).set p2 r.2.2 })
  _sigParticleUpdate _ st := st
  outputPlugins := []
  globals := []
  runGlobal _ _ _ sim := some sim
  locals :=
    [{ isInteraction := fun _ _ => true
       getEvent := fun st part =>
        { dt := CLNewton.getWallCollision BC.none (st.particle part) wallLoc wallNorm,
          type := EEventType.WALL, particleID := part, localID := 0 } }]
  runLocal _ part _ r :=
    let p := CLNewton.runWallCollision r.1.systemTime (r.1.particle part) wallNorm 1
    some ({ r.1 with particles := r.1.particles.set part p }, r.2.invalidateEvents part)
  runSystem _ sim := some sim
  systems _ := []
  N st := st.particles.length
  getParticleLocals _ _ := [0]
  getParticleNeighbours st _ := List.range st.particles.length

end HardSphereSim

/-! ## Scenarios: two unit hard spheres on a line -/

namespace Scenario

variable {K : Type} [LinearOrderedField K]

/-- The interaction of the scenarios: unit diameter, elastic. -/
def hs : CIHardSphere K := { diameter := 1, d2 := 1, e := 1, ID := 0 }

/-- The collaborators of the scenarios: unit masses and a wall at `x = -100`
facing `+x`. -/
def env (sqrt : K → K) : Plugins K (HardSphereSim K) (C2ParticleData K) :=
  HardSphereSim.plugins sqrt hs 1 ⟨-100, 0, 0⟩ ⟨1, 0, 0⟩

/-- A simulation at time 0 of two spheres at rest in `y` and `z`: sphere 0 at
`x0` with velocity `v0`, sphere 1 at `x1` at rest, and the given scheduler. -/
def sim (x0 v0 x1 : K) (s : Scheduler K) : Simulation K (HardSphereSim K) :=
  { particles :=
      { particles := [⟨⟨x0, 0, 0⟩, ⟨v0, 0, 0⟩, 0, 0⟩, ⟨⟨x1, 0, 0⟩, ⟨0, 0, 0⟩, 1, 0⟩],
        systemTime := 0 }
    systemTime := Dbl.fin 0
    ptrScheduler := s }

/-- A scheduler for two particles: the events of the PELs of particles 0 and 1,
an empty system PEL, and the counters. -/
def sched (e0 e1 : Event K) (eventCount : List Nat) (rejections : Nat) : Scheduler K :=
  { sorter := ⟨[⟨e0⟩, ⟨e1⟩, PELSingleEvent.new]⟩
    eventCount := eventCount
    _interactionRejectionCounter := rejections
    _localRejectionCounter := rejections }

/-- Two overlapping spheres approaching each other (separation 1/2, closing
speed 1), with the events `rebuildList` predicts for them: both at `-1/2`. -/
def overlapSim (K : Type) [LinearOrderedField K] : Simulation K (HardSphereSim K) :=
  sim (1 / 2) (-1) 0
    (sched ⟨Dbl.fin (-1 / 2), EEventType.INTERACTION, 1, 0⟩
      ⟨Dbl.fin (-1 / 2), EEventType.INTERACTION, 0, 0⟩ [0, 0, 0] 0)

/-- Two spheres three diameters apart closing at speed 1, with the events
`rebuildList` predicts for them: both at time 2. -/
def approachSim (K : Type) [LinearOrderedField K] : Simulation K (HardSphereSim K) :=
  sim 0 1 3
    (sched ⟨Dbl.fin 2, EEventType.INTERACTION, 1, 0⟩
      ⟨Dbl.fin 2, EEventType.INTERACTION, 0, 0⟩ [0, 0, 0] 0)

/-- The same pair when the event of particle 0 was predicted before particle 1
was last invalidated: its counter 0 is not the current `eventCount[1] = 1`. -/
def staleSim (K : Type) [LinearOrderedField K] : Simulation K (HardSphereSim K) :=
  sim 0 1 3
    (sched ⟨Dbl.fin 2, EEventType.INTERACTION, 1, 0⟩
      ⟨Dbl.fin 5, EEventType.INTERACTION, 0, 0⟩ [0, 1, 0] 0)

/-- Two spheres moving apart while the FEL still holds an event for them. -/
def recedingSim (K : Type) [LinearOrderedField K] : Simulation K (HardSphereSim K) :=
  sim 0 (-1) 3
    (sched ⟨Dbl.fin 2, EEventType.INTERACTION, 1, 0⟩
      ⟨Dbl.fin 5, EEventType.INTERACTION, 0, 0⟩ [0, 0, 0] 0)

/-- The approaching pair when the FEL holds time 1 for a collision that is
re-predicted at time 2, after `rejections` rejections in a row. -/
def lateSim (K : Type) [LinearOrderedField K] (rejections : Nat) :
    Simulation K (HardSphereSim K) :=
  sim 0 1 3
    (sched ⟨Dbl.fin 1, EEventType.INTERACTION, 1, 0⟩
      ⟨Dbl.fin 5, EEventType.INTERACTION, 0, 0⟩ [0, 0, 0] rejections)

/-- Sphere 0 one unit in front of the wall and moving towards it, sphere 1 far
away; the PEL of sphere 0 holds the wall event at time 1. -/
def wallSim (K : Type) [LinearOrderedField K] : Simulation K (HardSphereSim K) :=
  sim (-99) (-1) 3
    (sched ⟨Dbl.fin 1, EEventType.LOCAL, 0, 0⟩
      ⟨Dbl.HUGE_VAL, EEventType.LOCAL, 0, 0⟩ [0, 0, 0] 0)

/-- The wall scenario when the FEL holds time 1/2 for the wall event that is
re-predicted at time 1. -/
def lateWallSim (K : Type) [LinearOrderedField K] : Simulation K (HardSphereSim K) :=
  sim (-99) (-1) 3
    (sched ⟨Dbl.fin (1 / 2), EEventType.LOCAL, 0, 0⟩
      ⟨Dbl.HUGE_VAL, EEventType.LOCAL, 0, 0⟩ [0, 0, 0] 0)

/-- Two spheres at rest with every PEL empty. -/
def emptySim (K : Type) [LinearOrderedField K] : Simulation K (HardSphereSim K) :=
  sim 0 0 3
    (sched ⟨Dbl.HUGE_VAL, EEventType.NONE, 0, 0⟩
      ⟨Dbl.HUGE_VAL, EEventType.NONE, 0, 0⟩ [0, 0, 0] 0)

/-- The approaching pair when the PEL of particle 0 holds an event of the given
kind with the time `+∞`. -/
def infiniteSim (K : Type) [LinearOrderedField K] (type : EEventType) :
    Simulation K (HardSphereSim K) :=
  sim 0 1 3
    (sched ⟨Dbl.HUGE_VAL, type, 1, 0⟩
      ⟨Dbl.HUGE_VAL, EEventType.NONE, 0, 0⟩ [0, 0, 0] 0)

/-- Newton's cradle: four touching unit spheres at `x = 0, 1, 2, 3`, the
leftmost moving at `+1`, before the scheduler is initialised. -/
def cradleStart (K : Type) [LinearOrderedField K] : Simulation K (HardSphereSim K) :=
  { particles :=
      { particles := [⟨⟨0, 0, 0⟩, ⟨1, 0, 0⟩, 0, 0⟩, ⟨⟨1, 0, 0⟩, ⟨0, 0, 0⟩, 1, 0⟩,
          ⟨⟨2, 0, 0⟩, ⟨0, 0, 0⟩, 2, 0⟩, ⟨⟨3, 0, 0⟩, ⟨0, 0, 0⟩, 3, 0⟩],
        systemTime := 0 }
    systemTime := Dbl.fin 0
    ptrScheduler := { sorter := ⟨[]⟩, eventCount := [], _interactionRejectionCounter := 0,
                      _localRejectionCounter := 0 } }

/-- Newton's cradle with the event list built by `rebuildList`. -/
def cradleSim (sqrt : K → K) : Simulation K (HardSphereSim K) :=
  Scheduler.rebuildList (env sqrt) (cradleStart K)

/-- The plug-in state of the cradle at time 0: spheres at `x = 0, 1, 2, 3` with
the velocities `v0 … v3` along `x`, every particle up to date. -/
def cradleParts (v0 v1 v2 v3 : K) : HardSphereSim K :=
  { particles := [⟨⟨0, 0, 0⟩, ⟨v0, 0, 0⟩, 0, 0⟩, ⟨⟨1, 0, 0⟩, ⟨v1, 0, 0⟩, 1, 0⟩,
      ⟨⟨2, 0, 0⟩, ⟨v2, 0, 0⟩, 2, 0⟩, ⟨⟨3, 0, 0⟩, ⟨v3, 0, 0⟩, 3, 0⟩],
    systemTime := 0 }

/-- The cradle at system time 0 with the given velocities and scheduler. -/
def cradle (v0 v1 v2 v3 : K) (s : Scheduler K) : Simulation K (HardSphereSim K) :=
  { particles := cradleParts v0 v1 v2 v3
    systemTime := Dbl.fin 0
    ptrScheduler := s }

/-- A scheduler for four particles: the events of their PELs, an empty system
PEL, the counters, and no rejection counted. -/
def cradleSched (e0 e1 e2 e3 : Event K) (ec : List Nat) : Scheduler K :=
  { sorter := ⟨[⟨e0⟩, ⟨e1⟩, ⟨e2⟩, ⟨e3⟩, PELSingleEvent.new]⟩
    eventCount := ec
    _interactionRejectionCounter := 0
    _localRejectionCounter := 0 }

/-- The cradle after `n` calls of `Scheduler::runNextEvent` (the loop of
`Simulation::runSimulation`). -/
def cradleAfter (sqrt : K → K) : Nat → Simulation K (HardSphereSim K)
  | 0 => cradleSim sqrt
  | n + 1 => (Scheduler.runNextEvent (env sqrt) (cradleAfter sqrt n)).sim

/-- A dimer of two unit masses moving at `+1` towards a single unit mass at
rest (`multibdyCollision` with ranges `[0, 1]` and `[2]`). -/
def dimerAndMonomer (K : Type) [LinearOrderedField K] : List (CParticle K) :=
  [⟨⟨0, 0, 0⟩, ⟨1, 0, 0⟩, 0, 0⟩, ⟨⟨0, 1, 0⟩, ⟨1, 0, 0⟩, 1, 0⟩,
    ⟨⟨2, 1 / 2, 0⟩, ⟨0, 0, 0⟩, 2, 0⟩]

end Scenario

/-- Total linear momentum `Σ m_i·v_i` of the particles of a range. -/
def rangeMomentum {K : Type} [Field K] (mass : Nat → K) (l : List (CParticle K))
    (range : List Nat) : Vector K :=
  range.foldl (fun acc ID =>
    match l[ID]? with
    | some p => acc.add (p.vel.smul (mass ID))
    | none => acc) ⟨0, 0, 0⟩

/-- Total linear momentum `m1·v1 + m2·v2` of a pair. -/
def pairMomentum {K : Type} [Field K] (m1 m2 : K) (p1 p2 : CParticle K) : Vector K :=
  (p1.vel.smul m1).add (p2.vel.smul m2)

/-- Total kinetic energy `½·m1·|v1|² + ½·m2·|v2|²` of a pair. -/
def pairKE {K : Type} [Field K] (m1 m2 : K) (p1 p2 : CParticle K) : K :=
  1 / 2 * m1 * p1.vel.square + 1 / 2 * m2 * p2.vel.square

/-! ## Cell crossings of the Newtonian dynamics -/

namespace Dbl

variable {K : Type} [LinearOrderedField K]

/-- The quotient `a / b` of two doubles that are numbers.  A zero of `double`
carries a sign that the field does not record, so `negZero` tells whether `b`,
when it is zero, is the negative zero `-0.0`.  By `+0.0` the quotient is `+∞`,
`-∞` or NaN after the sign of `a`; by `-0.0` the two infinities are swapped.
The sign of a zero numerator or of a zero quotient changes no comparison and
is not recorded. -/
def ofDiv (a b : K) (negZero : Bool) : Dbl K :=
  if b = 0 then
    if 0 < a then (if negZero then ninf else pinf)
    else if a < 0 then (if negZero then pinf else ninf)
    else nan
  else fin (a / b)

end Dbl

/-- Component `iDim` of a vector, `CVector::operator[]`, for `iDim < NDIM = 3`. -/
def Vector.get {K : Type} (v : Vector K) (iDim : Nat) : K :=
  match iDim with
  | 0 => v.x
  | 1 => v.y
  | _ => v.z

namespace CLNewton

variable {K : Type} [LinearOrderedField K]

/-- The expression
`(vel[iDim] < 0) ? -rpos[iDim]/vel[iDim] : (width[iDim]-rpos[iDim]) / vel[iDim]`
of `getSquareCellCollision2` and `getSquareCellCollision3`; `negZero iDim`
tells whether `vel[iDim]`, when it is zero, is the negative zero `-0.0` (for
which `vel[iDim] < 0` is false as well). -/
def cellExitTime (rpos vel width : Vector K) (negZero : Nat → Bool) (iDim : Nat) : Dbl K :=
  if vel.get iDim < 0 then Dbl.ofDiv (-(rpos.get iDim)) (vel.get iDim) (negZero iDim)
  else Dbl.ofDiv (width.get iDim - rpos.get iDim) (vel.get iDim) (negZero iDim)

/-- `CLNewton::getSquareCellCollision2(part, origin, width)`; the loop runs over
`iDim = 1, 2` (`NDIM = 3`).  `negZero` gives the signs of the zero components
of the velocity after `setPBC`. -/
def getSquareCellCollision2 (bc : BC K) (part : CParticle K) (origin width : Vector K)
    (negZero : Nat → Bool) : Dbl K :=
  let w := bc (part.pos.sub origin) part.vel
  let rpos := w.1
  let vel := w.2
  let retVal := cellExitTime rpos vel width negZero 0
  [1, 2].foldl (fun retVal iDim =>
    let tmpdt := cellExitTime rpos vel width negZero iDim
    if tmpdt.lt retVal then tmpdt else retVal) retVal

/-- `CLNewton::getSquareCellCollision3(part, origin, width)`; the state of the
loop is the pair of `retVal` and `time`.  `negZero` gives the signs of the zero
components of the velocity after `setPBC`. -/
def getSquareCellCollision3 (bc : BC K) (part : CParticle K) (origin width : Vector K)
    (negZero : Nat → Bool) : Nat :=
  let w := bc (part.pos.sub origin) part.vel
  let rpos := w.1
  let vel := w.2
  let retVal := 0
  let time := cellExitTime rpos vel width negZero 0
  ([1, 2].foldl (fun (st : Nat × Dbl K) iDim =>
    let tmpdt := cellExitTime rpos vel width negZero iDim
    if tmpdt.lt st.2 then (iDim, tmpdt) else st) (retVal, time)).1

end CLNewton

/-! ## The sleep global -/

/-- Modelled from the spec: a particle with its state bit field (§3 "state
bitfield (at minimum a DYNAMIC flag)"); `dynamic` is
`testState(Particle::DYNAMIC)`. -/
structure Particle (K : Type) extends CParticle K where
  dynamic : Bool
deriving DecidableEq, Repr

/-- The members of `GSleep` read by `getEvent`: the index of the global, the
sleep velocity and the set `stateChange` of the particles marked for a change
of state. -/
structure GSleep (K : Type) where
  ID : Nat
  sleepVelocity : K
  stateChange : List Nat
deriving DecidableEq, Repr

namespace GSleep

variable {K : Type} [LinearOrderedField K]

/-- `GSleep::getEvent(part)`; `unitTime` is `Sim->dynamics.units().unitTime()`. -/
def getEvent (self : GSleep K) (unitTime : K) (part : Particle K) : GlobalEvent K :=
  -- Check if we want a state change
  if part.ID ∈ self.stateChange then
    { dt := Dbl.fin 0, type := if part.dynamic then EEventType.SLEEP else EEventType.WAKEUP,
      particleID := part.ID, globalID := self.ID }
  -- Check if the particle is asleep and needs a periodic wakeup check
  else if !part.dynamic then
    { dt := Dbl.fin (1 / 2 * unitTime), type := EEventType.WAKEUP, particleID := part.ID,
      globalID := self.ID }
  else
    { dt := Dbl.HUGE_VAL, type := EEventType.NONE, particleID := part.ID, globalID := self.ID }

end GSleep

/-! ## The shearing cell list -/

/-- The conversion of an integer to `size_t`: its value modulo `2^64`. -/
def size_t (i : Int) : Nat := (i % 2 ^ 64).toNat

/-- Modelled from the spec: `magnet::math::MortonNumber<3>` as the three cell
coordinates it interleaves (§4.2 "a deterministic cell id via the Morton
dilation of its integer coordinates").  The array `cellCount` and
`dilatedCellMax` are triples of the same kind. -/
structure MortonNumber where
  x : Nat
  y : Nat
  z : Nat
deriving DecidableEq, Repr

namespace MortonNumber

/-- The read `m[i]` of a coordinate; only 0, 1, 2 are coordinates. -/
def get (m : MortonNumber) (i : Nat) : Nat :=
  match i with
  | 0 => m.x
  | 1 => m.y
  | 2 => m.z
  | _ => 0

/-- The assignment `m[i] = v`; an index above 2 (undefined behaviour in the
source) changes nothing. -/
def set (m : MortonNumber) (i : Nat) (v : Nat) : MortonNumber :=
  match i with
  | 0 => { m with x := v }
  | 1 => { m with y := v }
  | 2 => { m with z := v }
  | _ => m

end MortonNumber

/-- The members of `GCellsShearing` (inherited from `GCells`) that `initialise`,
`runEvent` and the neighbourhood queries use.  Modelled from the spec: the
container `_cellData` (§4.2 "`insert(pid, cid)`, `moveTo(old_cid, new_cid,
pid)`, `contents(cid)`") is the list giving the cell of every particle. -/
structure GCellsShearing where
  ID : Nat
  overlink : Nat
  cellCount : MortonNumber
  dilatedCellMax : MortonNumber
  _cellData : List MortonNumber
deriving DecidableEq, Repr

namespace GCellsShearing

/-- Modelled from the spec: `_cellData.getCellID(id)`, the cell of a particle. -/
def getCellID (self : GCellsShearing) (id : Nat) : MortonNumber :=
  self._cellData.getD id ⟨0, 0, 0⟩

/-- Modelled from the spec: `_cellData.getCellContents(cell)`, the particles of
a cell in the order of their IDs. -/
def getCellContents (self : GCellsShearing) (cell : MortonNumber) : List Nat :=
  (List.range self._cellData.length).filter (fun id => decide (self.getCellID id = cell))

/-- Modelled from the spec: `_cellData.moveTo(oldCell, newCell, id)`. -/
def moveTo (self : GCellsShearing) (_oldCell newCell : MortonNumber) (id : Nat) :
    GCellsShearing :=
  { self with _cellData := self._cellData.set id newCell }

/-- `GCellsShearing::initialise(nID)`.  `reinitialise` is `GCells::reinitialise`,
which is outside the sources at hand and may throw; the warning on `derr` for
a system without Lees-Edwards boundaries is text output only. -/
def initialise (self : GCellsShearing)
    (reinitialise : GCellsShearing → Except String GCellsShearing) (nID : Nat) :
    Except String GCellsShearing :=
  let self := { self with ID := nID }
  if self.overlink ≠ 1 then Except.error "Cannot shear with overlinking yet"
  else reinitialise self

/-- `GCellsShearing::runEvent(part, dt)` as far as the cell list goes: the
particle `part` is moved from its cell to `endCell`, which is returned with the
new cell list.  `cellDirectionInt` is the value of
`Sim->dynamics->getSquareCellCollision3(part, oldCellPosition, cellDimension)`
and `wrapped` is the cell `getCellID(tmpPos)` of lines 99-115, where `tmpPos` is
the predicted crossing position moved half a cell across the boundary and
wrapped by `Sim->BCs->applyBC`; both come from classes outside the sources at
hand.  The calls to the scheduler (`popNextEvent`, `addInteractionEvent`,
`pushEvent`, `sort`), `updateParticle` and the signals `_sigNewNeighbour` and
`_sigCellChange` do not touch the cell list and are not part of the
embedding. -/
def runEvent (self : GCellsShearing) (part : Nat) (cellDirectionInt : Int)
    (wrapped : MortonNumber) : GCellsShearing × MortonNumber :=
  let oldCellCoords := self.getCellID part
  let cellDirection := size_t (|cellDirectionInt| - 1)
  -- The ID of the cell the particle enters
  let endCell := oldCellCoords
  if cellDirection = 1 ∧ oldCellCoords.get 1
      = (if cellDirectionInt < 0 then 0 else size_t ((self.cellCount.get 1 : Int) - 1)) then
    -- We're wrapping in the y direction
    let endCell := endCell.set 1
      (size_t ((endCell.get 1 : Int) + (self.cellCount.get 1 : Int)
          + (if cellDirectionInt < 0 then -1 else 1)) % self.cellCount.get 1)
    let endCell := endCell.set 0 (wrapped.get 0)
    (self.moveTo oldCellCoords endCell part, endCell)
  else if cellDirection = 1 ∧ oldCellCoords.get 1
      = (if cellDirectionInt < 0 then 1 else size_t ((self.cellCount.get 1 : Int) - 2)) then
    -- We're entering the boundary of the y direction
    let endCell := endCell.set cellDirection
      (size_t ((endCell.get cellDirection : Int) + (self.cellCount.get cellDirection : Int)
          + (if cellDirectionInt > 0 then 1 else -1)) % self.cellCount.get cellDirection)
    (self.moveTo oldCellCoords endCell part, endCell)
  else
    let step : Int := if cellDirectionInt > 0 then 1 else -1
    let endCell := endCell.set cellDirection
      (size_t ((endCell.get cellDirection : Int) + (self.cellCount.get cellDirection : Int)
          + step) % self.cellCount.get cellDirection)
    (self.moveTo oldCellCoords endCell part, endCell)

/-- `GCellsShearing::getAdditionalLEParticleNeighbourhood(cellCoords, retlist)`
(release build): the list `retlist` afterwards.  The state of the loops is the
pair of `cellCoords` and `retlist`. -/
def getAdditionalLEParticleNeighbourhood (self : GCellsShearing) (cellCoords : MortonNumber)
    (retlist : List Nat) : List Nat :=
  -- Move to the bottom of x
  let cellCoords := cellCoords.set 0 0
  -- Get the correct y-side (its the opposite to the particles current side)
  let cellCoords := cellCoords.set 1
    (if cellCoords.get 1 > 0 then 0 else self.dilatedCellMax.get 1)
  -- Move the overlink across
  let cellCoords := cellCoords.set 2
    (size_t ((cellCoords.get 2 : Int) + (self.cellCount.get 2 : Int) - (self.overlink : Int))
      % self.cellCount.get 2)
  ((List.range (2 * self.overlink + 1)).foldl
    (fun (st : MortonNumber × List Nat) _i =>
      let cellCoords := st.1.set 2 (st.1.get 2 % self.cellCount.get 2)
      let st := (List.range (self.cellCount.get 0)).foldl
        (fun (st : MortonNumber × List Nat) _j =>
          let neighbours := self.getCellContents st.1
          (st.1.set 0 (st.1.get 0 + 1), st.2 ++ neighbours))
        (cellCoords, st.2)
      let cellCoords := st.1.set 2 (st.1.get 2 + 1)
      (cellCoords.set 0 0, st.2))
    (cellCoords, retlist)).2

/-- `GCellsShearing::getParticleNeighbours(cellCoords, retlist)`; `base` is
`GCells::getParticleNeighbours`, which is outside the sources at hand. -/
def getParticleNeighbours (self : GCellsShearing)
    (base : MortonNumber → List Nat → List Nat) (cellCoords : MortonNumber)
    (retlist : List Nat) : List Nat :=
  let retlist := base cellCoords retlist
  if cellCoords.get 1 = 0 ∨ cellCoords.get 1 = self.dilatedCellMax.get 1 then
    self.getAdditionalLEParticleNeighbourhood cellCoords retlist
  else retlist

/-- The cells of the Lees-Edwards strip in the words of the claim: for
`k = 0 … 2·overlink`, the cells `(x', y_opp, (z − overlink + k) mod cellCount[2])`
with `x'` over `0 … cellCount[0] − 1`, where `y_opp` is the opposite `y`
boundary. -/
def leStrip (self : GCellsShearing) (cellCoords : MortonNumber) : List MortonNumber :=
  (List.range (2 * self.overlink + 1)).flatMap (fun k =>
    (List.range (self.cellCount.get 0)).map (fun x' =>
      (⟨x', if cellCoords.y = 0 then self.dilatedCellMax.get 1 else 0,
        (((cellCoords.z : Int) - (self.overlink : Int) + (k : Int))
          % (self.cellCount.get 2 : Int)).toNat⟩ : MortonNumber)))

end GCellsShearing

/-! ## The dumbbell interaction -/

namespace Vector

variable {K : Type} [Field K]

/-- Cross product, `operator^` of `Vector`. -/
def cross (a b : Vector K) : Vector K :=
  ⟨a.y * b.z - a.z * b.y, a.z * b.x - a.x * b.z, a.x * b.y - a.y * b.x⟩

/-- Unary minus. -/
def neg (a : Vector K) : Vector K := ⟨-a.x, -a.y, -a.z⟩

/-- The length `Vector::nrm()`. -/
def nrm (sqrt : K → K) (a : Vector K) : K := sqrt a.square

/-- The assignment `v[i] = c`; an index above 2 (undefined behaviour in the
source) changes nothing. -/
def setAt (v : Vector K) (i : Nat) (c : K) : Vector K :=
  match i with
  | 0 => { v with x := c }
  | 1 => { v with y := c }
  | 2 => { v with z := c }
  | _ => v

end Vector

/-- Modelled from the spec: a per-particle `Property` (§6 "`<Properties>` for
per-id numeric attributes (diameters, masses)"), as the list of its values by
particle ID. -/
structure Property (K : Type) where
  values : List K
deriving DecidableEq, Repr

namespace Property

variable {K : Type} [LinearOrderedField K]

/-- Modelled from the spec: `Property::getProperty(ID)`. -/
def getProperty (p : Property K) (ID : Nat) : K := p.values.getD ID 0

end Property

/-- The rotational data `Sim->dynamics->getRotData(p)` of a particle as the
dumbbell interaction uses it: the director
`orientation * Quaternion::initialDirector()` and the angular velocity. -/
structure RotData (K : Type) where
  director : Vector K
  angularVelocity : Vector K
deriving DecidableEq, Repr

/-- The parts of `Sim` that `IDumbbells` reads and writes: the particles, their
rotational data, the event counter `Sim->eventCount` and the system time. -/
structure DumbbellSim (K : Type) where
  particles : List (CParticle K)
  rotData : List (RotData K)
  eventCount : Nat
  systemTime : K
deriving DecidableEq, Repr

/-- The collaborators of `IDumbbells` outside the sources at hand:
the dynamics calls, the species (mass and scalar moment of inertia of a
particle whose species is a `SpSphericalTop`, `none` when the cast fails), the
growth rate when the dynamics is a `DynCompression`, and the boundary
condition. -/
structure DumbbellEnv (K : Type) where
  updateParticlePair : DumbbellSim K → Nat → Nat → DumbbellSim K
  species : Nat → Option (K × K)
  growthRate : Option K
  applyBC : BC K
  applyBC1 : Vector K → Vector K
  getDistance : DumbbellSim K → Nat → Nat → K
  isThisInteraction : Nat → Nat → Bool
  SphereSphereOutRoot : Nat → Nat → K → Dbl K
  SphereSphereInRoot : Nat → Nat → K → Dbl K
  sphereOverlap : Nat → Nat → K → K
  getOffcentreSpheresCollision :
    K → K → K → K → Nat → Nat → Dbl K → K → Bool × Dbl K

/-- The members of `IDumbbells`: the properties, the unused dimension
(`std::numeric_limits<size_t>::max()` when there is none) and, modelled from
the spec, the capture map of `ICapture` (§9 "a set keyed by unordered pair …
`(min(i,j), max(i,j))`"). -/
structure IDumbbells (K : Type) where
  ID : Nat
  _diamA : Property K
  _diamB : Property K
  _LA : Property K
  _LB : Property K
  _e : Nat → Nat → K
  _unusedDimension : Nat
  captureMap : Finset (Nat × Nat)

namespace IDumbbells

variable {K : Type} [LinearOrderedField K]

/-- Modelled from the spec: the key of a pair in the capture map. -/
def key (p1 p2 : Nat) : Nat × Nat := (min p1 p2, max p1 p2)

/-- Modelled from the spec: `ICapture::isCaptured(p1, p2)`. -/
def isCaptured (self : IDumbbells K) (p1 p2 : Nat) : Bool :=
  decide (key p1 p2 ∈ self.captureMap)

/-- Modelled from the spec: `ICapture::add(p1, p2)` ("grows on NBHOOD_IN"). -/
def add (self : IDumbbells K) (p1 p2 : Nat) : IDumbbells K :=
  { self with captureMap := insert (key p1 p2) self.captureMap }

/-- Modelled from the spec: `ICapture::remove(p1, p2)` ("shrinks on
NBHOOD_OUT"). -/
def remove (self : IDumbbells K) (p1 p2 : Nat) : IDumbbells K :=
  { self with captureMap := self.captureMap.erase (key p1 p2) }

/-- The capture distance `max_dist` that `getEvent` (lines 108-118) and
`captureTest` (lines 318-330) compute in the same words. -/
def max_dist (self : IDumbbells K) (p1 p2 : Nat) : K :=
  let lA1 := self._LA.getProperty p1
  let lB1 := self._LB.getProperty p1
  let diamA1 := self._diamA.getProperty p1
  let diamB1 := self._diamB.getProperty p1
  let lA2 := self._LA.getProperty p2
  let lB2 := self._LB.getProperty p2
  let diamA2 := self._diamA.getProperty p2
  let diamB2 := self._diamB.getProperty p2
  let l1 := max (lA1 + 1 / 2 * diamA1) (lB1 + 1 / 2 * diamB1)
  let l2 := max (lA2 + 1 / 2 * diamA2) (lB2 + 1 / 2 * diamB2)
  l1 + l2

/-- `IDumbbells::getEvent(p1, p2)` (release build). -/
def getEvent (self : IDumbbells K) (env : DumbbellEnv K) (p1 p2 : Nat) : IntEvent K :=
  let lA1 := self._LA.getProperty p1
  let lB1 := self._LB.getProperty p1
  let diamA1 := self._diamA.getProperty p1
  let diamB1 := self._diamB.getProperty p1
  let lA2 := self._LA.getProperty p2
  let lB2 := self._LB.getProperty p2
  let diamA2 := self._diamA.getProperty p2
  let diamB2 := self._diamB.getProperty p2
  let max_dist := self.max_dist p1 p2
  if self.isCaptured p1 p2 then
    -- Run this to determine when the spheres no longer intersect
    let upper_limit := env.SphereSphereOutRoot p1 p2 max_dist
    -- Test all pairings
    let current := env.getOffcentreSpheresCollision lA1 diamA1 lA2 diamA2 p1 p2
      upper_limit max_dist
    let AB := env.getOffcentreSpheresCollision lA1 diamA1 (-lB2) diamB2 p1 p2
      (Dbl.min upper_limit current.2) max_dist
    let current := if AB.2.lt current.2 then AB else current
    let BA := env.getOffcentreSpheresCollision (-lB1) diamB1 lA2 diamA2 p1 p2
      (Dbl.min upper_limit current.2) max_dist
    let current := if BA.2.lt current.2 then BA else current
    let BB := env.getOffcentreSpheresCollision (-lB1) diamB1 (-lB2) diamB2 p1 p2
      (Dbl.min upper_limit current.2) max_dist
    let current := if BB.2.lt current.2 then BB else current
    -- Check if they miss each other
    if current.2 = Dbl.HUGE_VAL then
      ⟨upper_limit, EEventType.NBHOOD_OUT, p1, p2, self.ID⟩
    -- Something happens in the time interval
    else if current.1 then ⟨current.2, EEventType.CORE, p1, p2, self.ID⟩
    else ⟨current.2, EEventType.VIRTUAL, p1, p2, self.ID⟩
  else
    let dt := env.SphereSphereInRoot p1 p2 max_dist
    if dt ≠ Dbl.HUGE_VAL then ⟨dt, EEventType.NBHOOD_IN, p1, p2, self.ID⟩
    else ⟨Dbl.HUGE_VAL, EEventType.NONE, p1, p2, self.ID⟩

/-- The growth factor of `validateState` (lines 345-347). -/
def growthfactor (env : DumbbellEnv K) (sim : DumbbellSim K) : K :=
  match env.growthRate with
  | some rate => 1 + rate * sim.systemTime
  | none => 1

/-- The capture distance `max_dist` of `validateState` (lines 349-363), computed
from the lengths and diameters times the growth factor. -/
def validateState_max_dist (self : IDumbbells K) (growthfactor : K) (p1 p2 : Nat) : K :=
  let lA1 := growthfactor * self._LA.getProperty p1
  let lB1 := growthfactor * self._LB.getProperty p1
  let diamA1 := growthfactor * self._diamA.getProperty p1
  let diamB1 := growthfactor * self._diamB.getProperty p1
  let lA2 := growthfactor * self._LA.getProperty p2
  let lB2 := growthfactor * self._LB.getProperty p2
  let diamA2 := growthfactor * self._diamA.getProperty p2
  let diamB2 := growthfactor * self._diamB.getProperty p2
  let l1 := max (lA1 + 1 / 2 * diamA1) (lB1 + 1 / 2 * diamB1)
  let l2 := max (lA2 + 1 / 2 * diamA2) (lB2 + 1 / 2 * diamB2)
  l1 + l2

/-- The helper `overlap(dist, diam)` of `validateState`. -/
def overlap (sqrt : K → K) (dist : Vector K) (diam : K) : K :=
  sqrt (max (diam * diam - dist.dot dist) 0)

/-- `IDumbbells::validateState(p1, p2, textoutput)`: the flag `has_error`; the
text written to `derr` is not part of the embedding. -/
def validateState (self : IDumbbells K) (sqrt : K → K) (env : DumbbellEnv K)
    (sim : DumbbellSim K) (p1 p2 : Nat) (_textoutput : Bool) : Bool :=
  let growthfactor := growthfactor env sim
  let lA1 := growthfactor * self._LA.getProperty p1
  let lB1 := growthfactor * self._LB.getProperty p1
  let diamA1 := growthfactor * self._diamA.getProperty p1
  let diamB1 := growthfactor * self._diamB.getProperty p1
  let director1 := (sim.rotData.getD p1 ⟨⟨0, 0, 0⟩, ⟨0, 0, 0⟩⟩).director
  let lA2 := growthfactor * self._LA.getProperty p2
  let lB2 := growthfactor * self._LB.getProperty p2
  let diamA2 := growthfactor * self._diamA.getProperty p2
  let diamB2 := growthfactor * self._diamB.getProperty p2
  let director2 := (sim.rotData.getD p2 ⟨⟨0, 0, 0⟩, ⟨0, 0, 0⟩⟩).director
  let max_dist := self.validateState_max_dist growthfactor p1 p2
  let r12 := (sim.particles.getD p1 ⟨⟨0, 0, 0⟩, ⟨0, 0, 0⟩, p1, 0⟩).pos.sub
    (sim.particles.getD p2 ⟨⟨0, 0, 0⟩, ⟨0, 0, 0⟩, p2, 0⟩).pos
  let r12 := env.applyBC1 r12
  let distance := env.getDistance sim p1 p2
  if self.isCaptured p1 p2 then
    -- Check the capture map is valid
    let has_error := decide (distance > max_dist)
    -- Check if any of the spheres are overlapping
    let has_error := has_error ||
      decide (overlap sqrt ((r12.add (director1.smul lA1)).sub (director2.smul lA2))
        ((diamA1 + diamA2) / 2) ≠ 0)
    let has_error := has_error ||
      decide (overlap sqrt ((r12.add (director1.smul lA1)).add (director2.smul lB2))
        ((diamA1 + diamB2) / 2) ≠ 0)
    let has_error := has_error ||
      decide (overlap sqrt ((r12.sub (director1.smul lB1)).sub (director2.smul lA2))
        ((diamB1 + diamA2) / 2) ≠ 0)
    let has_error := has_error ||
      decide (overlap sqrt ((r12.sub (director1.smul lB1)).add (director2.smul lB2))
        ((diamB1 + diamB2) / 2) ≠ 0)
    has_error
  else if distance < max_dist then true
  else false

end IDumbbells

/-- The sphere pair that `case CORE` of `IDumbbells::runEvent` picks as the
colliding one: the signed offsets `l1`, `l2` of the two spheres along the
directors, their diameters `d1`, `d2`, and the distance from contact. -/
structure DumbbellContact (K : Type) where
  l1 : K
  l2 : K
  d1 : K
  d2 : K
  min_dist : K
deriving DecidableEq, Repr

namespace IDumbbells

variable {K : Type} [LinearOrderedField K]

/-- The constant `std::numeric_limits<size_t>::max()`. -/
def size_t_max : Nat := 2 ^ 64 - 1

/-- The particle `p` of the simulation. -/
def particle (sim : DumbbellSim K) (p : Nat) : CParticle K :=
  sim.particles.getD p ⟨⟨0, 0, 0⟩, ⟨0, 0, 0⟩, p, 0⟩

/-- The rotational data `Sim->dynamics->getRotData(p)`. -/
def getRotData (sim : DumbbellSim K) (p : Nat) : RotData K :=
  sim.rotData.getD p ⟨⟨0, 0, 0⟩, ⟨0, 0, 0⟩⟩

/-- The growth rate of `case CORE` (lines 196-198): zero unless the dynamics is
a `DynCompression`. -/
def growthrate (env : DumbbellEnv K) : K :=
  match env.growthRate with
  | some rate => rate
  | none => 0

/-- One of the four distances `AA_dist` … `BB_dist` of `case CORE` (lines
203-206), for the spheres at signed offsets `l1` and `l2`. -/
def contact_dist (sqrt : K → K) (rij director1 director2 : Vector K)
    (growthfactor l1 l2 d1 d2 : K) : K :=
  |1 / 2 * (d1 + d2) * growthfactor
    - (rij.add (((director1.smul l1).sub (director2.smul l2)).smul growthfactor)).nrm sqrt|

/-- The choice of the colliding pair of spheres in `case CORE` (lines 208-235). -/
def contact (self : IDumbbells K) (sqrt : K → K) (rij director1 director2 : Vector K)
    (growthfactor : K) (p1 p2 : Nat) : DumbbellContact K :=
  let lA1 : K := self._LA.getProperty p1
  let lB1 : K := self._LB.getProperty p1
  let diamA1 : K := self._diamA.getProperty p1
  let diamB1 : K := self._diamB.getProperty p1
  let lA2 : K := self._LA.getProperty p2
  let lB2 : K := self._LB.getProperty p2
  let diamA2 : K := self._diamA.getProperty p2
  let diamB2 : K := self._diamB.getProperty p2
  let AA_dist : K := contact_dist sqrt rij director1 director2 growthfactor lA1 lA2 diamA1 diamA2
  let AB_dist : K :=
    contact_dist sqrt rij director1 director2 growthfactor lA1 (-lB2) diamA1 diamB2
  let BA_dist : K :=
    contact_dist sqrt rij director1 director2 growthfactor (-lB1) lA2 diamB1 diamA2
  let BB_dist : K :=
    contact_dist sqrt rij director1 director2 growthfactor (-lB1) (-lB2) diamB1 diamB2
  let c : DumbbellContact K := ⟨lA1, lA2, diamA1, diamA2, AA_dist⟩
  let c : DumbbellContact K :=
    if AB_dist < c.min_dist then ⟨lA1, -lB2, diamA1, diamB2, AB_dist⟩ else c
  let c : DumbbellContact K :=
    if BA_dist < c.min_dist then ⟨-lB1, lA2, diamB1, diamA2, BA_dist⟩ else c
  let c : DumbbellContact K :=
    if BB_dist < c.min_dist then ⟨-lB1, -lB2, diamB1, diamB2, BB_dist⟩ else c
  c

/-- The assignments to the unused dimension at the end of `case CORE` (lines
256-264) for a velocity. -/
def clearVelocity (self : IDumbbells K) (v : Vector K) : Vector K :=
  if self._unusedDimension ≠ size_t_max then v.setAt self._unusedDimension 0 else v

/-- The assignments to the unused dimension at the end of `case CORE` (lines
256-264) for an angular velocity. -/
def clearAngularVelocity (self : IDumbbells K) (w : Vector K) : Vector K :=
  if self._unusedDimension ≠ size_t_max then
    (w.setAt ((self._unusedDimension + 1) % 3) 0).setAt ((self._unusedDimension + 2) % 3) 0
  else w

/-- The simulation after the writes of `case CORE` to the two particles and
their rotational data. -/
def store (sim : DumbbellSim K) (p1 p2 : Nat) (v1 v2 w1 w2 : Vector K) : DumbbellSim K :=
  let q1 : CParticle K := { particle sim p1 with vel := v1 }
  let particles : List (CParticle K) := sim.particles.set p1 q1
  let q2 : CParticle K := { particles.getD p2 (particle sim p2) with vel := v2 }
  let particles : List (CParticle K) := particles.set p2 q2
  let s1 : RotData K := { getRotData sim p1 with angularVelocity := w1 }
  let rotData : List (RotData K) := sim.rotData.set p1 s1
  let s2 : RotData K := { rotData.getD p2 (getRotData sim p2) with angularVelocity := w2 }
  let rotData : List (RotData K) := rotData.set p2 s2
  { sim with particles := particles, rotData := rotData }

/-- `case CORE` of `IDumbbells::runEvent` after the species are found: the
event data and the simulation afterwards.  `sp1` and `sp2` are the mass and the
scalar moment of inertia of the two particles. -/
def runEvent_CORE (self : IDumbbells K) (sqrt : K → K) (env : DumbbellEnv K)
    (sim : DumbbellSim K) (p1 p2 : Nat) (sp1 sp2 : K × K) :
    C2ParticleData K × DumbbellSim K :=
  let director1 : Vector K := (getRotData sim p1).director
  let director2 : Vector K := (getRotData sim p2).director
  let angvel1 : Vector K := (getRotData sim p1).angularVelocity
  let angvel2 : Vector K := (getRotData sim p2).angularVelocity
  let m1 : K := sp1.1
  let m2 : K := sp2.1
  let I1 : K := sp1.2
  let I2 : K := sp2.2
  let retval : C2ParticleData K :=
    CLNewton.C2ParticleData.mk0 (particle sim p1) (particle sim p2) EEventType.CORE
  let w : Vector K × Vector K := env.applyBC retval.rij retval.vijold
  let retval : C2ParticleData K := { retval with rij := w.1, vijold := w.2 }
  let growthrate : K := growthrate env
  let growthfactor : K := 1 + growthrate * sim.systemTime
  -- Determine the colliding pair, they should almost be in contact
  let c : DumbbellContact K :=
    self.contact sqrt retval.rij director1 director2 growthfactor p1 p2
  let u1 : Vector K := (director1.smul c.l1).smul growthfactor
  let u2 : Vector K := (director2.smul c.l2).smul growthfactor
  let nhat : Vector K := (retval.rij.add u1).sub u2
  let nhat : Vector K := nhat.sdiv (nhat.nrm sqrt)
  let r1 : Vector K := u1.sub (((nhat.smul (1 / 2)).smul c.d1).smul growthfactor)
  let r2 : Vector K := u2.add (((nhat.smul (1 / 2)).smul c.d2).smul growthfactor)
  let vc12 : Vector K :=
    ((retval.vijold.add (angvel1.cross r1)).sub (angvel2.cross r2)).add
      ((((director1.smul c.l1).sub (director2.smul c.l2)).sub
        ((nhat.smul (c.d1 + c.d2)).smul (1 / 2))).smul growthrate)
  let e : K := self._e p1 p2
  let J : K := (1 + e) * nhat.dot vc12 / (1 / m1 + 1 / m2
    + nhat.dot ((((u1.cross nhat).cross u1).smul (1 / I1)).add
        (((u2.cross nhat).cross u2).smul (1 / I2))))
  let retval : C2ParticleData K := { retval with rvdot := retval.rij.dot retval.vijold }
  let retval : C2ParticleData K := { retval with dP := nhat.smul J }
  let v1 : Vector K := (particle sim p1).vel.sub (retval.dP.sdiv m1)
  let v2 : Vector K := (particle sim p2).vel.add (retval.dP.sdiv m2)
  let w1 : Vector K := angvel1.sub ((r1.cross retval.dP).sdiv I1)
  let w2 : Vector K := angvel2.add ((r2.cross retval.dP).sdiv I2)
  (retval, store sim p1 p2 (self.clearVelocity v1) (self.clearVelocity v2)
    (self.clearAngularVelocity w1) (self.clearAngularVelocity w2))

/-- `IDumbbells::runEvent(p1, p2, iEvent)`: the event data, the event (whose
type `setType` may change), the interaction with its capture map, and the
simulation afterwards, or the message of the exception. -/
def runEvent (self : IDumbbells K) (sqrt : K → K) (env : DumbbellEnv K)
    (sim : DumbbellSim K) (p1 p2 : Nat) (iEvent : IntEvent K) :
    Except String (C2ParticleData K × IntEvent K × IDumbbells K × DumbbellSim K) :=
  match iEvent.type with
  | EEventType.CORE =>
    let sim : DumbbellSim K := { sim with eventCount := sim.eventCount + 1 }
    let sim : DumbbellSim K := env.updateParticlePair sim p1 p2
    match env.species p1, env.species p2 with
    | some sp1, some sp2 =>
      let r := self.runEvent_CORE sqrt env sim p1 p2 sp1 sp2
      Except.ok (r.1, iEvent, self, r.2)
    | _, _ =>
      Except.error
        "Could not find the intertia of one of the particles undergoing an interaction"
  | EEventType.NBHOOD_IN =>
    let self : IDumbbells K := self.add p1 p2
    let retval : C2ParticleData K :=
      CLNewton.C2ParticleData.mk0 (particle sim p1) (particle sim p2) EEventType.VIRTUAL
    Except.ok (retval, { iEvent with type := EEventType.VIRTUAL }, self, sim)
  | EEventType.NBHOOD_OUT =>
    let self : IDumbbells K := self.remove p1 p2
    let retval : C2ParticleData K :=
      CLNewton.C2ParticleData.mk0 (particle sim p1) (particle sim p2) EEventType.VIRTUAL
    Except.ok (retval, { iEvent with type := EEventType.VIRTUAL }, self, sim)
  | EEventType.VIRTUAL =>
    let retval : C2ParticleData K :=
      CLNewton.C2ParticleData.mk0 (particle sim p1) (particle sim p2) EEventType.VIRTUAL
    Except.ok (retval, { iEvent with type := EEventType.VIRTUAL }, self, sim)
  | _ => Except.error "Unknown collision type"

end IDumbbells

namespace IDumbbells

variable {K : Type} [LinearOrderedField K]

end IDumbbells

namespace Scenario

/-- Two equal dumbbells: both spheres of diameter 1 at distance 1 from the
centre, elastic, no unused dimension, nothing captured. -/
def dumbbells : IDumbbells ℚ :=
  ⟨0, ⟨[1, 1]⟩, ⟨[1, 1]⟩, ⟨[1, 1]⟩, ⟨[1, 1]⟩, fun _ _ => 1, 2 ^ 64 - 1, ∅⟩

/-- The two dumbbells at rest on the x axis at separation `d`, directors along
x, at system time `t` after 5 events. -/
def dumbbellSim (d t : ℚ) : DumbbellSim ℚ :=
  ⟨[⟨⟨0, 0, 0⟩, ⟨0, 0, 0⟩, 0, 0⟩, ⟨⟨d, 0, 0⟩, ⟨0, 0, 0⟩, 1, 0⟩],
    [⟨⟨1, 0, 0⟩, ⟨0, 0, 0⟩⟩, ⟨⟨1, 0, 0⟩, ⟨0, 0, 0⟩⟩], 5, t⟩

/-- Collaborators for the two dumbbells in an unbounded box: spherical tops of
mass and inertia 1, the growth rate `rate` of a compression run if any, and
root finders that find nothing. -/
def dumbbellEnv (rate : Option ℚ) : DumbbellEnv ℚ :=
  ⟨fun s _ _ => s, fun _ => some (1, 1), rate, BC.none, fun r => r,
    fun s p1 p2 => |(IDumbbells.particle s p1).pos.x - (IDumbbells.particle s p2).pos.x|,
    fun _ _ => true, fun _ _ _ => Dbl.pinf, fun _ _ _ => Dbl.pinf,
    fun _ _ _ => 0, fun _ _ _ _ _ _ _ _ => (false, Dbl.pinf)⟩

end Scenario

/-! ## The validation pass of the scheduler -/

/-- The `validateState` members that `Scheduler::initialise` calls, whose code
is outside `scheduler.cpp`, as parameters: the number of interactions,
`Sim->interactions[id]->validateState(textoutput, max_reports)` (the number of
invalid states found), `Sim->getInteraction(p1, p2)->validateState(p1, p2,
textoutput)` and `Sim->locals[id]->validateState(part, textoutput)`. -/
structure Validators (σ : Type) where
  interactions : Nat
  validateState : Nat → σ → Bool → Nat → Nat
  pairValidateState : σ → Nat → Nat → Bool → Bool
  localValidateState : Nat → σ → Nat → Bool → Bool

/-- A `validateState` call made by `Scheduler::initialise`, with the arguments
it was given and what it returned. -/
inductive ValidateCall where
  | ofInteraction (id : Nat) (textoutput : Bool) (max_reports : Nat) (result : Nat)
  | ofPair (id1 id2 : Nat) (textoutput : Bool) (result : Bool)
  | ofLocal (localID part : Nat) (textoutput : Bool) (result : Bool)
deriving DecidableEq, Repr

namespace ValidateCall

/-- The text-output flag the call was given. -/
def textoutput : ValidateCall → Bool
  | ofInteraction _ t _ _ => t
  | ofPair _ _ t _ => t
  | ofLocal _ _ t _ => t

/-- The number of warnings the call adds to the counter `warnings`. -/
def count : ValidateCall → Nat
  | ofInteraction _ _ _ r => r
  | ofPair _ _ _ r => if r then 1 else 0
  | ofLocal _ _ _ r => if r then 1 else 0

end ValidateCall

/-- How `Scheduler::initialise` ends: the simulation, the counter `warnings`,
the `validateState` calls in the order they were made, each with the value of
`warnings` at the call, and whether the message "Over 100 warnings of invalid
states, further output was suppressed" was written. -/
structure Initialised (K σ : Type) where
  sim : Simulation K σ
  warnings : Nat
  calls : List (Nat × ValidateCall)
  suppressed : Bool

namespace Scheduler

variable {K σ δ : Type} [LinearOrderedField K]

/-- The property of the counter and the calls that every loop of
`Scheduler::initialise` keeps: the counter is the number of warnings of the
calls made (as a `size_t`), and every call was made with the number of warnings
of the calls before it and with the flag `warnings < 101`. -/
def Counted (w : Nat × List (Nat × ValidateCall)) : Prop :=
  w.1 = ((w.2.map (fun e => e.2.count)).sum) % 2 ^ 64 ∧
    ∀ pre e post, w.2 = pre ++ e :: post →
      e.1 = ((pre.map (fun e => e.2.count)).sum) % 2 ^ 64
        ∧ e.2.textoutput = decide (e.1 < 101)

/-- The body of the first loop of `Scheduler::initialise`, on the counter
`warnings` (a `size_t`) and the calls made so far. -/
def validateInteraction (val : Validators σ) (st : σ) (w : Nat × List (Nat × ValidateCall))
    (id : Nat) : Nat × List (Nat × ValidateCall) :=
  let warnings := w.1
  let textoutput := decide (warnings < 101)
  let max_reports := size_t (101 - (warnings : Int))
  let result := val.validateState id st textoutput max_reports
  ((warnings + result) % 2 ^ 64,
    w.2 ++ [(warnings, ValidateCall.ofInteraction id textoutput max_reports result)])

/-- The body of the inner loop over `ids` of `Scheduler::initialise`. -/
def validatePair (val : Validators σ) (st : σ) (id1 : Nat)
    (w : Nat × List (Nat × ValidateCall)) (id2 : Nat) : Nat × List (Nat × ValidateCall) :=
  let warnings := w.1
  if id2 > id1 then
    let textoutput := decide (warnings < 101)
    let result := val.pairValidateState st id1 id2 textoutput
    (if result then (warnings + 1) % 2 ^ 64 else warnings,
      w.2 ++ [(warnings, ValidateCall.ofPair id1 id2 textoutput result)])
  else w

/-- The body of the inner loop over `Sim->locals` of `Scheduler::initialise`. -/
def validateLocal (env : Plugins K σ δ) (val : Validators σ) (st : σ) (part : Nat)
    (w : Nat × List (Nat × ValidateCall)) (id : Nat) : Nat × List (Nat × ValidateCall) :=
  let warnings := w.1
  if (localAt env id).isInteraction st part then
    let textoutput := decide (warnings < 101)
    let result := val.localValidateState id st part textoutput
    (if result then (warnings + 1) % 2 ^ 64 else warnings,
      w.2 ++ [(warnings, ValidateCall.ofLocal id part textoutput result)])
  else w

/-- The three validation loops of `Scheduler::initialise`: the counter
`warnings` and the calls made. -/
def validate (env : Plugins K σ δ) (val : Validators σ) (st : σ) :
    Nat × List (Nat × ValidateCall) :=
  let w : Nat × List (Nat × ValidateCall) := (0, [])
  let w := (List.range val.interactions).foldl (validateInteraction val st) w
  let w := (List.range (env.N st)).foldl (fun w id1 =>
    (env.getParticleNeighbours st id1).foldl (validatePair val st id1) w) w
  let w := (List.range (env.N st)).foldl (fun w part =>
    (List.range env.locals.length).foldl (validateLocal env val st part) w) w
  w

/-- `Scheduler::initialise()`; the text written to `dout` and `derr` is not
part of the embedding, apart from whether the message on suppressed output was
written. -/
def initialise (env : Plugins K σ δ) (val : Validators σ) (sim : Simulation K σ) :
    Initialised K σ :=
  let w := validate env val sim.particles
  { sim := rebuildList env sim, warnings := w.1, calls := w.2,
    suppressed := decide (w.1 > 100) }

end Scheduler

namespace Scenario

/-- Validators for the two hard spheres: one interaction whose own check finds
`found` invalid states, a pair check that reports every pair it is asked about,
and a wall check that reports nothing. -/
def warningValidators (found : Nat) : Validators (HardSphereSim ℚ) :=
  { interactions := 1
    validateState := fun _ _ _ _ => found
    pairValidateState := fun _ _ _ _ => true
    localValidateState := fun _ _ _ _ => false }

end Scenario

/-! ## The lazy-deletion loop, turn by turn -/

namespace Scheduler

variable {K : Type} [LinearOrderedField K]

/-- The body of the `while` loop of `Scheduler::lazyDeletionCleanup`:
`popNextEvent`, `update` of the popped PEL and `sort`. -/
def lazyDeletionCleanup_body (s : Scheduler K) : Scheduler K :=
  { s with sorter := ((s.sorter.popNextEvent).update s.sorter.next.1).sort }

/-- The loop of `Scheduler::lazyDeletionCleanup` run for at most `fuel` turns:
`none` when the loop test still holds after them. -/
def lazyDeletionCleanup_turns : Nat → Scheduler K → Option (Scheduler K)
  | 0, s => if staleTop s then none else some s
  | fuel + 1, s =>
    if staleTop s then lazyDeletionCleanup_turns fuel (lazyDeletionCleanup_body s)
    else some s

end Scheduler

/-! ## The scheduler: lemmas -/

namespace Scheduler

theorem sameClocks.trans {K σ : Type} {a b c : Simulation K σ} (h : sameClocks a b)
    (g : sameClocks b c) : sameClocks a c :=
  ⟨h.1.trans g.1, h.2.1.trans g.2.1, h.2.2.trans g.2.2⟩

theorem sameClocks_foldl {K σ α : Type} (f : Simulation K σ → α → Simulation K σ)
    (hf : ∀ b a, sameClocks (f b a) b) (l : List α) (b : Simulation K σ) :
    sameClocks (l.foldl f b) b := by
  induction l generalizing b with
  | nil => exact ⟨rfl, rfl, rfl⟩
  | cons x xs ih => exact (ih (f b x)).trans (hf b x)

variable {K σ δ : Type} [LinearOrderedField K]

theorem lazyDeletionCleanup_of_not_stale (s : Scheduler K) (h : ¬ staleTop s) :
    lazyDeletionCleanup s = s := by
  rw [lazyDeletionCleanup, dif_neg h]

theorem lazyDeletionCleanup_of_stale (s : Scheduler K) (h : staleTop s) :
    lazyDeletionCleanup s =
      lazyDeletionCleanup
        { s with sorter := ((s.sorter.popNextEvent).update s.sorter.next.1).sort } := by
  rw [lazyDeletionCleanup, dif_pos h]

theorem not_staleTop_lazyDeletionCleanup (s : Scheduler K) :
    ¬ staleTop (lazyDeletionCleanup s) := by
  induction s using lazyDeletionCleanup.induct with
  | case1 s h ih => rw [lazyDeletionCleanup_of_stale s h]; exact ih
  | case2 s h => rw [lazyDeletionCleanup_of_not_stale s h]; exact h

theorem lazyDeletionCleanup_frame (s : Scheduler K) :
    (lazyDeletionCleanup s).eventCount = s.eventCount ∧
    (lazyDeletionCleanup s)._interactionRejectionCounter = s._interactionRejectionCounter ∧
    (lazyDeletionCleanup s)._localRejectionCounter = s._localRejectionCounter ∧
    (lazyDeletionCleanup s).sorter.pels.length = s.sorter.pels.length := by
  induction s using lazyDeletionCleanup.induct with
  | case1 s h ih =>
    rw [lazyDeletionCleanup_of_stale s h]
    obtain ⟨h1, h2, h3, h4⟩ := ih
    refine ⟨h1, h2, h3, ?_⟩
    rw [h4]
    simp [FEL.sort, FEL.update, FEL.popNextEvent]
  | case2 s h => rw [lazyDeletionCleanup_of_not_stale s h]; simp

theorem lazyDeletionCleanup_getElem?_of_not_interaction (s : Scheduler K) (i : Nat)
    (h : ∀ p, s.sorter.pels[i]? = some p → p.top.type ≠ EEventType.INTERACTION) :
    (lazyDeletionCleanup s).sorter.pels[i]? = s.sorter.pels[i]? := by
  induction s using lazyDeletionCleanup.induct with
  | case1 s hs ih =>
    rw [lazyDeletionCleanup_of_stale s hs]
    have hne : s.sorter.topID ≠ i := by
      intro heq
      obtain ⟨hI, -⟩ := hs
      simp only [FEL.next, heq, List.getD_eq_getElem?_getD] at hI
      cases hp : s.sorter.pels[i]? with
      | none =>
        simp [hp, PELSingleEvent.new, PELSingleEvent.clear, PELSingleEvent.top] at hI
      | some p =>
        rw [hp] at hI
        exact h p hp hI
    have hsame : (s.sorter.pels.modify PELSingleEvent.pop s.sorter.topID)[i]?
        = s.sorter.pels[i]? := List.getElem?_modify_ne _ _ hne
    have := ih (by
      intro p hp
      simp only [FEL.sort, FEL.update, FEL.popNextEvent] at hp
      rw [hsame] at hp
      exact h p hp)
    rw [this]
    simpa [FEL.sort, FEL.update, FEL.popNextEvent] using hsame
  | case2 s hs => rw [lazyDeletionCleanup_of_not_stale s hs]

theorem staleTop_getElem? (s : Scheduler K) (h : staleTop s) :
    ∃ a, s.sorter.pels[s.sorter.topID]? = some a ∧
      a.top.type = EEventType.INTERACTION ∧ s.sorter.next.2 = a.top := by
  obtain ⟨hI, -⟩ := h
  simp only [FEL.next, List.getD_eq_getElem?_getD] at hI ⊢
  cases hp : s.sorter.pels[s.sorter.topID]? with
  | none => simp [hp, PELSingleEvent.new, PELSingleEvent.clear, PELSingleEvent.top] at hI
  | some a =>
    rw [hp] at hI
    exact ⟨a, rfl, hI, by simp⟩

theorem lazyDeletionCleanup_pops_stale (s : Scheduler K) (h : staleTop s) :
    ∃ a, s.sorter.pels[s.sorter.next.1]? = some a ∧
      (lazyDeletionCleanup s).sorter.pels[s.sorter.next.1]? = some a.pop ∧
      a.pop.top.type = EEventType.RECALCULATE ∧ a.pop.getdt = a.getdt := by
  obtain ⟨a, ha, haI, -⟩ := staleTop_getElem? s h
  have hpop : a.pop = { a with _event := { a._event with type := EEventType.RECALCULATE } } := by
    simp only [PELSingleEvent.top] at haI
    simp [PELSingleEvent.pop, PELSingleEvent.empty, haI]
  refine ⟨a, ha, ?_, by rw [hpop]; rfl, by rw [hpop]; rfl⟩
  rw [lazyDeletionCleanup_of_stale s h]
  have h1 : (s.sorter.pels.modify PELSingleEvent.pop s.sorter.topID)[s.sorter.topID]?
      = some a.pop := by
    rw [List.getElem?_modify_eq, ha]; rfl
  rw [lazyDeletionCleanup_getElem?_of_not_interaction]
  · simpa [FEL.sort, FEL.update, FEL.popNextEvent, FEL.next] using h1
  · intro p hp
    simp only [FEL.sort, FEL.update, FEL.popNextEvent, FEL.next] at hp
    rw [h1] at hp
    cases hp
    rw [hpop]
    simp [PELSingleEvent.top]

theorem runNextEvent_of_INTERACTION (env : Plugins K σ δ) (sim : Simulation K σ)
    (h : (dispatched sim).2.type = EEventType.INTERACTION) :
    runNextEvent env sim
      = runNextEvent_INTERACTION env
(opened sim) (dispatched sim) := by
  simp only [dispatched] at h
  simp only [runNextEvent, dispatched, h]

theorem runNextEvent_of_LOCAL (env : Plugins K σ δ) (sim : Simulation K σ)
    (h : (dispatched sim).2.type = EEventType.LOCAL) :
    runNextEvent env sim
      = runNextEvent_LOCAL env
(opened sim) (dispatched sim) := by
  simp only [dispatched] at h
  simp only [runNextEvent, dispatched, h]

theorem addInteractionEvent_sameClocks (env : Plugins K σ δ) (sim : Simulation K σ)
    (part id : Nat) : sameClocks (addInteractionEvent env sim part id) sim := by
  unfold addInteractionEvent
  by_cases h : part = id
  · rw [if_pos h]; exact ⟨rfl, rfl, rfl⟩
  · rw [if_neg h]
    simp only []
    split <;> exact ⟨rfl, rfl, rfl⟩

theorem addLocalEvent_sameClocks (env : Plugins K σ δ) (sim : Simulation K σ)
    (part id : Nat) : sameClocks (addLocalEvent env sim part id) sim := by
  unfold addLocalEvent
  split <;> exact ⟨rfl, rfl, rfl⟩

theorem addGlobalEvent_sameClocks (sim : Simulation K σ) (part : Nat)
    (glob : GlobalPlugin K σ) : sameClocks (addGlobalEvent sim part glob) sim := by
  unfold addGlobalEvent
  split <;> exact ⟨rfl, rfl, rfl⟩

theorem addEvents_sameClocks (env : Plugins K σ δ) (sim : Simulation K σ) (part : Nat) :
    sameClocks (addEvents env sim part) sim := by
  unfold addEvents
  simp only []
  refine (sameClocks_foldl _ (fun b a => addInteractionEvent_sameClocks env b part a) _ _).trans ?_
  refine (sameClocks_foldl _ (fun b a => addLocalEvent_sameClocks env b part a) _ _).trans ?_
  refine (sameClocks_foldl _ (fun b a => addGlobalEvent_sameClocks b part a) _ _).trans ?_
  exact ⟨rfl, rfl, rfl⟩

theorem fullUpdate_sameClocks (env : Plugins K σ δ) (sim : Simulation K σ) (part : Nat) :
    sameClocks (fullUpdate env sim part) sim := by
  unfold fullUpdate
  have h := addEvents_sameClocks env
    { sim with ptrScheduler := sim.ptrScheduler.invalidateEvents part } part
  exact ⟨h.1, h.2.1, h.2.2⟩

theorem fullUpdatePair_sameClocks (env : Plugins K σ δ) (sim : Simulation K σ) (p1 p2 : Nat) :
    sameClocks (fullUpdatePair env sim p1 p2) sim := by
  unfold fullUpdatePair
  have h := (addEvents_sameClocks env
    (addEvents env { sim with ptrScheduler :=
      (sim.ptrScheduler.invalidateEvents p1).invalidateEvents p2 } p1) p2).trans
    (addEvents_sameClocks env
      { sim with ptrScheduler := (sim.ptrScheduler.invalidateEvents p1).invalidateEvents p2 } p1)
  exact ⟨h.1, h.2.1, h.2.2⟩

/-- The four ways `case INTERACTION` ends. -/
theorem runNextEvent_INTERACTION_cases (env : Plugins K σ δ) (sim : Simulation K σ)
    (ne : Nat × Event K) :
    (ne.2.dt.isfinite = false →
      runNextEvent_INTERACTION env sim ne = ⟨sim, [], some "Next event time is not finite!"⟩) ∧
    (ne.2.dt.isfinite = true →
      (interactionRejected (sim.ptrScheduler.readyNextEvent ne.1)
        (env.getEvent (env.updateParticlePair sim.particles ne.1 ne.2.particle2ID)
          ne.1 ne.2.particle2ID)
        (sim.ptrScheduler.readyNextEvent ne.1).sorter.next).1 = true →
      (runNextEvent_INTERACTION env sim ne).ran = [] ∧
      (runNextEvent_INTERACTION env sim ne).threw = none ∧
      (runNextEvent_INTERACTION env sim ne).sim.systemTime = sim.systemTime ∧
      (runNextEvent_INTERACTION env sim ne).sim.ptrScheduler._interactionRejectionCounter
        = (interactionRejected (sim.ptrScheduler.readyNextEvent ne.1)
            (env.getEvent (env.updateParticlePair sim.particles ne.1 ne.2.particle2ID)
              ne.1 ne.2.particle2ID)
            (sim.ptrScheduler.readyNextEvent ne.1).sorter.next).2._interactionRejectionCounter) ∧
    (ne.2.dt.isfinite = true →
      (interactionRejected (sim.ptrScheduler.readyNextEvent ne.1)
        (env.getEvent (env.updateParticlePair sim.particles ne.1 ne.2.particle2ID)
          ne.1 ne.2.particle2ID)
        (sim.ptrScheduler.readyNextEvent ne.1).sorter.next).1 = false →
      (sim.ptrScheduler.readyNextEvent ne.1).sorter.next.2.dt.isfinite = false →
      (runNextEvent_INTERACTION env sim ne).ran = [] ∧
      (runNextEvent_INTERACTION env sim ne).threw = some "Next event time is not finite!" ∧
      (runNextEvent_INTERACTION env sim ne).sim.systemTime = sim.systemTime ∧
      (runNextEvent_INTERACTION env sim ne).sim.ptrScheduler._interactionRejectionCounter = 0) ∧
    (ne.2.dt.isfinite = true →
      (interactionRejected (sim.ptrScheduler.readyNextEvent ne.1)
        (env.getEvent (env.updateParticlePair sim.particles ne.1 ne.2.particle2ID)
          ne.1 ne.2.particle2ID)
        (sim.ptrScheduler.readyNextEvent ne.1).sorter.next).1 = false →
      (sim.ptrScheduler.readyNextEvent ne.1).sorter.next.2.dt.isfinite = true →
      (runNextEvent_INTERACTION env sim ne).ran
        = [Executed.ofInteraction ne.1 ne.2.particle2ID
            (env.getEvent (env.updateParticlePair sim.particles ne.1 ne.2.particle2ID)
              ne.1 ne.2.particle2ID)] ∧
      (runNextEvent_INTERACTION env sim ne).sim.systemTime
        = sim.systemTime.add
            (env.getEvent (env.updateParticlePair sim.particles ne.1 ne.2.particle2ID)
              ne.1 ne.2.particle2ID).dt ∧
      (runNextEvent_INTERACTION env sim ne).sim.ptrScheduler._interactionRejectionCounter = 0) := by
  refine ⟨?_, ?_, ?_, ?_⟩
  · intro h
    simp [runNextEvent_INTERACTION, h]
  · intro h hr
    simp only [runNextEvent_INTERACTION, h, hr]
    simp only [Bool.not_true, Bool.false_eq_true, if_false, if_true, true_and]
    exact ⟨(fullUpdatePair_sameClocks env _ _ _).1, (fullUpdatePair_sameClocks env _ _ _).2.1⟩
  · intro h hr ht
    simp only [runNextEvent_INTERACTION, h, hr, ht]
    simp
  · intro h hr ht
    simp only [runNextEvent_INTERACTION, h, hr, ht]
    simp only [Bool.not_true, Bool.false_eq_true, if_false]
    split
    · exact ⟨rfl, rfl, rfl⟩
    · refine ⟨rfl, ?_, ?_⟩
      · exact (fullUpdatePair_sameClocks env _ _ _).1
      · exact (fullUpdatePair_sameClocks env _ _ _).2.1

/-- The four ways `case LOCAL` ends. -/
theorem runNextEvent_LOCAL_cases (env : Plugins K σ δ) (sim : Simulation K σ)
    (ne : Nat × Event K) :
    (ne.2.dt.isfinite = false →
      runNextEvent_LOCAL env sim ne = ⟨sim, [], some "Next event time is not finite!"⟩) ∧
    (ne.2.dt.isfinite = true →
      (localRejected (sim.ptrScheduler.readyNextEvent ne.1)
        ((localAt env ne.2.localID).getEvent (env.updateParticle sim.particles ne.1) ne.1)
        (sim.ptrScheduler.readyNextEvent ne.1).sorter.next).1 = true →
      (runNextEvent_LOCAL env sim ne).ran = [] ∧
      (runNextEvent_LOCAL env sim ne).threw = none ∧
      (runNextEvent_LOCAL env sim ne).sim.systemTime = sim.systemTime) ∧
    (ne.2.dt.isfinite = true →
      (localRejected (sim.ptrScheduler.readyNextEvent ne.1)
        ((localAt env ne.2.localID).getEvent (env.updateParticle sim.particles ne.1) ne.1)
        (sim.ptrScheduler.readyNextEvent ne.1).sorter.next).1 = false →
      (runNextEvent_LOCAL env sim ne).ran
        = [Executed.ofLocal ne.2.localID ne.1
            ((localAt env ne.2.localID).getEvent (env.updateParticle sim.particles ne.1) ne.1)] ∧
      (runNextEvent_LOCAL env sim ne).sim.systemTime
        = sim.systemTime.add
            ((localAt env ne.2.localID).getEvent
              (env.updateParticle sim.particles ne.1) ne.1).dt) := by
  refine ⟨?_, ?_, ?_⟩
  · intro h
    simp [runNextEvent_LOCAL, h]
  · intro h hr
    simp only [runNextEvent_LOCAL, h, hr]
    simp only [Bool.not_true, Bool.false_eq_true, if_false, if_true, true_and]
    exact (fullUpdate_sameClocks env _ _).1
  · intro h hr
    simp only [runNextEvent_LOCAL, h, hr]
    simp only [Bool.not_true, Bool.false_eq_true, if_false]
    split <;> exact ⟨rfl, rfl⟩

/-- A `runEvent` call on an interaction is made only from `case INTERACTION`. -/
theorem dispatched_of_ran_interaction (env : Plugins K σ δ) (sim : Simulation K σ)
    (p1 p2 : Nat) (ev : IntEvent K)
    (hmem : Executed.ofInteraction p1 p2 ev ∈ (runNextEvent env sim).ran) :
    (dispatched sim).2.type = EEventType.INTERACTION := by
  by_contra hI
  have hd : (opened sim).ptrScheduler.sorter.next = dispatched sim := rfl
  unfold runNextEvent at hmem
  simp only [hd] at hmem
  generalize (dispatched sim).2.type = ty at hI hmem
  cases ty
  case INTERACTION => exact hI rfl
  case GLOBAL =>
    simp only [runNextEvent_GLOBAL] at hmem
    split at hmem
    · simp at hmem
    · split at hmem <;> simp at hmem
  case LOCAL =>
    simp only [runNextEvent_LOCAL] at hmem
    split at hmem
    · simp at hmem
    · split at hmem
      · simp at hmem
      · split at hmem <;> simp at hmem
  case SYSTEM =>
    simp only [runNextEvent_SYSTEM] at hmem
    split at hmem
    · simp at hmem
    · split at hmem <;> simp at hmem
  all_goals simp at hmem

end Scheduler

/-! ## The dynamics kernel: theorems -/

section Dynamics

variable {K : Type} [LinearOrderedField K]

/-- C2: for a pair datum with `r·v < 0`, positive discriminant and `r² ≥ d²`,
`SphereSphereInRoot` returns true and writes a `dt` that is non-negative, is a
root of `v² t² + 2 (r·v) t + (r² − d²)`, and is at most every non-negative
root (real arithmetic). -/
theorem SphereSphereInRoot_earliest_contact (dat : CPDData ℝ) (d2 : ℝ)
    (hrv : dat.rvdot < 0)
    (hdisc : dat.rvdot ^ 2 - dat.v2 * (dat.r2 - d2) > 0)
    (hout : dat.r2 ≥ d2) :
    ∃ t : ℝ,
      CLNewton.SphereSphereInRoot Real.sqrt dat d2 = (true, { dat with dt := Dbl.fin t }) ∧
      0 ≤ t ∧
      dat.v2 * t ^ 2 + 2 * dat.rvdot * t + (dat.r2 - d2) = 0 ∧
      ∀ s : ℝ, 0 ≤ s → dat.v2 * s ^ 2 + 2 * dat.rvdot * s + (dat.r2 - d2) = 0 → t ≤ s := by
  have harg : dat.rvdot * dat.rvdot - dat.v2 * (dat.r2 - d2) > 0 := by
    have : dat.rvdot * dat.rvdot = dat.rvdot ^ 2 := by ring
    rw [this]; exact hdisc
  set b := dat.rvdot with hb
  set a := dat.v2 with ha
  set c := dat.r2 - d2 with hc
  set S := Real.sqrt (b * b - a * c) with hS
  have hS0 : 0 < S := Real.sqrt_pos.mpr harg
  have hSS : S * S = b * b - a * c := Real.mul_self_sqrt harg.le
  have hden : b - S < 0 := by linarith
  have hden' : b - S ≠ 0 := ne_of_lt hden
  have hc0 : 0 ≤ c := by simp only [hc]; linarith
  refine ⟨(d2 - dat.r2) / (b - S), ?_, ?_, ?_, ?_⟩
  · simp only [CLNewton.SphereSphereInRoot, ← hb, ← ha]
    rw [if_pos hrv, if_pos (by simpa [hc] using harg)]
  · apply div_nonneg_of_nonpos _ hden.le
    linarith
  · have h1 : d2 - dat.r2 = -c := by simp only [hc]; ring
    rw [h1]
    field_simp
    linear_combination (c * (b - S)) * hSS
  · intro s hs hroot
    have h1 : d2 - dat.r2 = -c := by simp only [hc]; ring
    rw [h1, div_le_iff_of_neg hden]
    -- s * (b - S) ≤ -c
    by_contra hlt
    push_neg at hlt
    -- -c < s * (b - S), i.e. s * (S - b) < c
    have h2 : a * s ^ 2 + 2 * b * s + c = 0 := hroot
    -- multiply the root equation by c: see that (a s + b)^2 = S^2
    have h3 : (a * s + b) ^ 2 = S ^ 2 := by linear_combination a * h2 - hSS
    have h4 : a * s + b = S ∨ a * s + b = -S := by
      rcases sq_eq_sq_iff_eq_or_eq_neg.mp h3 with h | h
      · exact Or.inl h
      · exact Or.inr h
    rcases h4 with h | h
    · -- a s = S - b > 0: then c = -(a s^2 + 2 b s) = -s (a s + 2 b) = -s (S + b)
      have hcs : c = -s * (S + b) := by linear_combination h2 - s * h
      have hsS : 0 ≤ s * S := mul_nonneg hs hS0.le
      rw [hcs] at hlt
      nlinarith
    · have hcs : c = s * (S - b) := by linear_combination h2 - s * h
      rw [hcs] at hlt
      have e : s * (b - S) = -(s * (S - b)) := by ring
      linarith

/-- C2, at a concrete pair: `r·v = −2`, `v² = 4`, `r² = 4`, `d² = 1`. -/
theorem SphereSphereInRoot_earliest_contact_witness :
    ∃ t : ℝ,
      CLNewton.SphereSphereInRoot Real.sqrt
          ⟨⟨2, 0, 0⟩, ⟨-1, 0, 0⟩, -2, 4, 1, Dbl.pinf⟩ 1
        = (true, { (⟨⟨2, 0, 0⟩, ⟨-1, 0, 0⟩, -2, 4, 1, Dbl.pinf⟩ : CPDData ℝ) with
            dt := Dbl.fin t }) ∧
      0 ≤ t ∧
      (1 : ℝ) * t ^ 2 + 2 * (-2) * t + (4 - 1) = 0 ∧
      ∀ s : ℝ, 0 ≤ s → (1 : ℝ) * s ^ 2 + 2 * (-2) * s + (4 - 1) = 0 → t ≤ s :=
  SphereSphereInRoot_earliest_contact ⟨⟨2, 0, 0⟩, ⟨-1, 0, 0⟩, -2, 4, 1, Dbl.pinf⟩ 1
    (by norm_num) (by norm_num) (by norm_num)

/-- The three pair impulses end in `v1 -= dP/m1`, `v2 += dP/m2`: for positive
masses and a non-zero separation after the wrap, `SmoothSpheresColl` and
`DSMCSpheresRun` leave the total linear momentum `m1·v1 + m2·v2` of the pair
unchanged, and so does `SphereWellEvent` whenever its impulse is a number. -/
theorem pair_impulses_momentum (sqrt : K → K) (bc : BC K) (systemTime : K)
    (p1 p2 : CParticle K) (m1 m2 e deltaKE d2 : K) (eType : EEventType) (pdat : CPDData K)
    (hm1 : 0 < m1) (hm2 : 0 < m2) :
    ((bc ((CLNewton.updateParticle systemTime p1).pos.sub
            (CLNewton.updateParticle systemTime p2).pos) (p1.vel.sub p2.vel)).1.square ≠ 0 →
      pairMomentum m1 m2
          (CLNewton.SmoothSpheresColl bc systemTime p1 p2 m1 m2 e d2 eType).2.1
          (CLNewton.SmoothSpheresColl bc systemTime p1 p2 m1 m2 e d2 eType).2.2
        = pairMomentum m1 m2 p1 p2) ∧
    (pdat.rij.square ≠ 0 →
      pairMomentum m1 m2
          (CLNewton.DSMCSpheresRun systemTime p1 p2 m1 m2 e pdat).2.1
          (CLNewton.DSMCSpheresRun systemTime p1 p2 m1 m2 e pdat).2.2
        = pairMomentum m1 m2 p1 p2) ∧
    (∀ out, (CLNewton.SphereWellEvent sqrt bc systemTime p1 p2 m1 m2 deltaKE d2 eType).2
        = some out →
      pairMomentum m1 m2 out.2.1 out.2.2 = pairMomentum m1 m2 p1 p2) := by
  have h1 : m1 ≠ 0 := ne_of_gt hm1
  have h2 : m2 ≠ 0 := ne_of_gt hm2
  have key : ∀ (v1 v2 dP : Vector K),
      ((v1.sub (dP.sdiv m1)).smul m1).add ((v2.add (dP.sdiv m2)).smul m2)
        = (v1.smul m1).add (v2.smul m2) := by
    intro v1 v2 dP
    ext <;> simp only [Vector.add, Vector.sub, Vector.smul, Vector.sdiv] <;> field_simp
  refine ⟨?_, ?_, ?_⟩
  · intro _
    simp only [pairMomentum, CLNewton.SmoothSpheresColl, CLNewton.updateParticle,
      CLNewton.streamParticle]
    exact key _ _ _
  · intro _
    simp only [pairMomentum, CLNewton.DSMCSpheresRun, CLNewton.updateParticle,
      CLNewton.streamParticle]
    exact key _ _ _
  · intro out hout
    simp only [CLNewton.SphereWellEvent] at hout
    split_ifs at hout <;> simp only [Option.some.injEq, reduceCtorEq] at hout <;>
      subst hout <;>
      simp only [pairMomentum, CLNewton.updateParticle, CLNewton.streamParticle] <;>
      exact key _ _ _

/-- C3 fails for `SphereWellEvent` at a well step with `deltaKE = 0` met by a
pair with `r·v = 0`: for two unit masses one unit apart, the first moving
across the line of centres, the event becomes WELL_KEUP and the impulse is
`r · (-2·0 / (0 + sqrt 0))`, a division of zero by zero, so `dP` and both
velocities are not numbers and the momentum of the pair is not the one
before. -/
theorem SphereWellEvent_zero_step_not_a_number :
    (0 : ℝ) < 1 ∧
    ((⟨0, 0, 0⟩ : Vector ℝ).sub ⟨1, 0, 0⟩).square ≠ 0 ∧
    ((⟨0, 0, 0⟩ : Vector ℝ).sub ⟨1, 0, 0⟩).dot ((⟨0, 1, 0⟩ : Vector ℝ).sub ⟨0, 0, 0⟩) = 0 ∧
    CLNewton.SphereWellEvent Real.sqrt BC.none 0 ⟨⟨0, 0, 0⟩, ⟨0, 1, 0⟩, 0, 0⟩
        ⟨⟨1, 0, 0⟩, ⟨0, 0, 0⟩, 1, 0⟩ 1 1 0 1 EEventType.WELL_KEUP
      = (EEventType.WELL_KEUP, none) := by
  refine ⟨by norm_num, ?_, ?_, ?_⟩
  · norm_num [Vector.sub, Vector.square, Vector.dot]
  · norm_num [Vector.sub, Vector.dot]
  · simp only [CLNewton.SphereWellEvent, CLNewton.updateParticle,
      CLNewton.streamParticle, CLNewton.C2ParticleData.mk0, BC.none, Vector.add,
      Vector.sub, Vector.smul, Vector.sdiv, Vector.dot, Vector.square]
    norm_num

/-- The momentum of the pair at a particle of mass 1 moving at speed 1 towards
a particle of mass 2 at rest one unit away, with `e = 1` and `deltaKE = -1/4`
(real arithmetic): unchanged by `SmoothSpheresColl` and `DSMCSpheresRun`. -/
theorem pair_impulses_momentum_example :
    pairMomentum (1 : ℝ) 2
        (CLNewton.SmoothSpheresColl BC.none 0 ⟨⟨0, 0, 0⟩, ⟨1, 0, 0⟩, 0, 0⟩
          ⟨⟨1, 0, 0⟩, ⟨0, 0, 0⟩, 1, 0⟩ 1 2 1 1 EEventType.CORE).2.1
        (CLNewton.SmoothSpheresColl BC.none 0 ⟨⟨0, 0, 0⟩, ⟨1, 0, 0⟩, 0, 0⟩
          ⟨⟨1, 0, 0⟩, ⟨0, 0, 0⟩, 1, 0⟩ 1 2 1 1 EEventType.CORE).2.2
      = pairMomentum 1 2 ⟨⟨0, 0, 0⟩, ⟨1, 0, 0⟩, 0, 0⟩ ⟨⟨1, 0, 0⟩, ⟨0, 0, 0⟩, 1, 0⟩ ∧
    pairMomentum (1 : ℝ) 2
        (CLNewton.DSMCSpheresRun 0 ⟨⟨0, 0, 0⟩, ⟨1, 0, 0⟩, 0, 0⟩
          ⟨⟨1, 0, 0⟩, ⟨0, 0, 0⟩, 1, 0⟩ 1 2 1
          ⟨⟨-1, 0, 0⟩, ⟨1, 0, 0⟩, -1, 1, 1, Dbl.pinf⟩).2.1
        (CLNewton.DSMCSpheresRun 0 ⟨⟨0, 0, 0⟩, ⟨1, 0, 0⟩, 0, 0⟩
          ⟨⟨1, 0, 0⟩, ⟨0, 0, 0⟩, 1, 0⟩ 1 2 1
          ⟨⟨-1, 0, 0⟩, ⟨1, 0, 0⟩, -1, 1, 1, Dbl.pinf⟩).2.2
      = pairMomentum 1 2 ⟨⟨0, 0, 0⟩, ⟨1, 0, 0⟩, 0, 0⟩ ⟨⟨1, 0, 0⟩, ⟨0, 0, 0⟩, 1, 0⟩ := by
  have h := pair_impulses_momentum Real.sqrt BC.none 0 ⟨⟨0, 0, 0⟩, ⟨1, 0, 0⟩, 0, 0⟩
    ⟨⟨1, 0, 0⟩, ⟨0, 0, 0⟩, 1, 0⟩ 1 2 1 (-1 / 4) 1 EEventType.CORE
    ⟨⟨-1, 0, 0⟩, ⟨1, 0, 0⟩, -1, 1, 1, Dbl.pinf⟩ (by norm_num) (by norm_num)
  refine ⟨h.1 ?_, h.2.1 ?_⟩
  · norm_num [BC.none, CLNewton.updateParticle, CLNewton.streamParticle, Vector.add,
      Vector.sub, Vector.smul, Vector.square, Vector.dot]
  · norm_num [Vector.square, Vector.dot]

/-- C5: `SmoothSpheresColl` computes `μ = m1·m2/(m1+m2)` and
`ΔP = (1+e)·μ·(r·v)/r² · r` from the separation `r` and relative velocity `v`
of the (updated) pair after the boundary-condition wrap, takes `ΔP/m1` from the
velocity of the first particle and adds `ΔP/m2` to that of the second; the
positions are those of the updated particles; and
`CIHardSphere::runCollision` is this impulse with the interaction's
elasticity. -/
theorem SmoothSpheresColl_impulse (bc : BC K) (systemTime : K) (p1 p2 : CParticle K)
    (m1 m2 e d2 : K) (eType : EEventType) (hs : CIHardSphere K) :
    let q1 := CLNewton.updateParticle systemTime p1
    let q2 := CLNewton.updateParticle systemTime p2
    let r := (bc (q1.pos.sub q2.pos) (q1.vel.sub q2.vel)).1
    let v := (bc (q1.pos.sub q2.pos) (q1.vel.sub q2.vel)).2
    let mu := m1 * m2 / (m1 + m2)
    let dP := r.smul ((1 + e) * mu * (r.dot v) / r.square)
    let out := CLNewton.SmoothSpheresColl bc systemTime p1 p2 m1 m2 e d2 eType
    out.1.dP = dP ∧ out.1.rij = r ∧ out.1.vijold = v ∧
      out.2.1.vel = p1.vel.sub (dP.sdiv m1) ∧
      out.2.2.vel = p2.vel.add (dP.sdiv m2) ∧
      out.2.1.pos = q1.pos ∧ out.2.2.pos = q2.pos ∧
      hs.runCollision bc systemTime p1 p2 m1 m2
        = CLNewton.SmoothSpheresColl bc systemTime p1 p2 m1 m2 hs.e hs.d2 EEventType.CORE := by
  simp [CLNewton.SmoothSpheresColl, CLNewton.updateParticle, CLNewton.streamParticle,
    CLNewton.C2ParticleData.mk0, CIHardSphere.runCollision]

end Dynamics

namespace Scheduler

variable {K σ δ : Type} [LinearOrderedField K]

/-- A `runEvent` call on a local is made only from `case LOCAL`. -/
theorem dispatched_of_ran_local (env : Plugins K σ δ) (sim : Simulation K σ)
    (l p : Nat) (ev : LocalEvent K)
    (hmem : Executed.ofLocal l p ev ∈ (runNextEvent env sim).ran) :
    (dispatched sim).2.type = EEventType.LOCAL := by
  by_contra hI
  have hd : (opened sim).ptrScheduler.sorter.next = dispatched sim := rfl
  unfold runNextEvent at hmem
  simp only [hd] at hmem
  generalize (dispatched sim).2.type = ty at hI hmem
  cases ty
  case LOCAL => exact hI rfl
  case GLOBAL =>
    simp only [runNextEvent_GLOBAL] at hmem
    split at hmem
    · simp at hmem
    · split at hmem <;> simp at hmem
  case INTERACTION =>
    simp only [runNextEvent_INTERACTION] at hmem
    split at hmem
    · simp at hmem
    · split at hmem
      · simp at hmem
      · split at hmem
        · simp at hmem
        · split at hmem <;> simp at hmem
  case SYSTEM =>
    simp only [runNextEvent_SYSTEM] at hmem
    split at hmem
    · simp at hmem
    · split at hmem <;> simp at hmem
  all_goals simp at hmem

theorem runNextEvent_ran_interaction (env : Plugins K σ δ) (sim : Simulation K σ)
    (p1 p2 : Nat) (ev : IntEvent K)
    (hmem : Executed.ofInteraction p1 p2 ev ∈ (runNextEvent env sim).ran) :
    p1 = (dispatched sim).1 ∧ p2 = (dispatched sim).2.particle2ID ∧
      ev = recalculated env sim ∧
      (runNextEvent env sim).sim.systemTime = sim.systemTime.add ev.dt := by
  have hI := dispatched_of_ran_interaction env sim p1 p2 ev hmem
  rw [runNextEvent_of_INTERACTION env sim hI] at hmem ⊢
  obtain ⟨c1, c2, c3, c4⟩ := runNextEvent_INTERACTION_cases env (opened sim) (dispatched sim)
  cases hf : (dispatched sim).2.dt.isfinite with
  | false => rw [c1 hf] at hmem; simp at hmem
  | true =>
    cases hr : (interactionRejected ((opened sim).ptrScheduler.readyNextEvent (dispatched sim).1)
        ((env.getEvent (env.updateParticlePair (opened sim).particles (dispatched sim).1
          (dispatched sim).2.particle2ID) (dispatched sim).1 (dispatched sim).2.particle2ID))
        ((opened sim).ptrScheduler.readyNextEvent (dispatched sim).1).sorter.next).1 with
    | true => rw [(c2 hf hr).1] at hmem; simp at hmem
    | false =>
      cases ht : ((opened sim).ptrScheduler.readyNextEvent
          (dispatched sim).1).sorter.next.2.dt.isfinite with
      | false => rw [(c3 hf hr ht).1] at hmem; simp at hmem
      | true =>
        obtain ⟨e1, e2, -⟩ := c4 hf hr ht
        rw [e1] at hmem
        simp only [List.mem_singleton, Executed.ofInteraction.injEq] at hmem
        obtain ⟨h1, h2, h3⟩ := hmem
        refine ⟨h1, h2, h3, ?_⟩
        rw [e2, h3]
        rfl

theorem runNextEvent_ran_local (env : Plugins K σ δ) (sim : Simulation K σ)
    (l p : Nat) (ev : LocalEvent K)
    (hmem : Executed.ofLocal l p ev ∈ (runNextEvent env sim).ran) :
    l = (dispatched sim).2.localID ∧ p = (dispatched sim).1 ∧
      ev = recalculatedLocal env sim ∧
      (runNextEvent env sim).sim.systemTime = sim.systemTime.add ev.dt := by
  have hI := dispatched_of_ran_local env sim l p ev hmem
  rw [runNextEvent_of_LOCAL env sim hI] at hmem ⊢
  obtain ⟨c1, c2, c3⟩ := runNextEvent_LOCAL_cases env (opened sim) (dispatched sim)
  cases hf : (dispatched sim).2.dt.isfinite with
  | false => rw [c1 hf] at hmem; simp at hmem
  | true =>
    cases hr : (localRejected ((opened sim).ptrScheduler.readyNextEvent (dispatched sim).1)
        ((localAt env (dispatched sim).2.localID).getEvent
          (env.updateParticle (opened sim).particles (dispatched sim).1) (dispatched sim).1)
        ((opened sim).ptrScheduler.readyNextEvent (dispatched sim).1).sorter.next).1 with
    | true => rw [(c2 hf hr).1] at hmem; simp at hmem
    | false =>
      obtain ⟨e1, e2⟩ := c3 hf hr
      rw [e1] at hmem
      simp only [List.mem_singleton, Executed.ofLocal.injEq] at hmem
      obtain ⟨h1, h2, h3⟩ := hmem
      refine ⟨h1, h2, h3, ?_⟩
      rw [e2, h3]
      rfl

theorem interactionRejected_fst (s : Scheduler K) (ev : IntEvent K) (top : Nat × Event K) :
    (interactionRejected s ev top).1 = true ↔
      (ev.type = EEventType.NONE ∨
        (ev.dt.gt top.2.dt = true ∧ s._interactionRejectionCounter + 1 < rejectionLimit)) := by
  unfold interactionRejected
  by_cases h1 : ev.type = EEventType.NONE
  · simp [h1]
  · by_cases h2 : ev.dt.gt top.2.dt = true
    · simp [h1, h2]
    · simp [h1, h2]

theorem localRejected_fst (s : Scheduler K) (ev : LocalEvent K) (top : Nat × Event K) :
    (localRejected s ev top).1 = true ↔
      (ev.type = EEventType.NONE ∨
        (ev.dt.gt top.2.dt = true ∧ s._localRejectionCounter + 1 < rejectionLimit)) := by
  unfold localRejected
  by_cases h1 : ev.type = EEventType.NONE
  · simp [h1]
  · by_cases h2 : ev.dt.gt top.2.dt = true
    · simp [h1, h2]
    · simp [h1, h2]

theorem readyNextEvent_opened_counters (sim : Simulation K σ) (owner : Nat) :
    ((opened sim).ptrScheduler.readyNextEvent owner)._interactionRejectionCounter
        = sim.ptrScheduler._interactionRejectionCounter ∧
    ((opened sim).ptrScheduler.readyNextEvent owner)._localRejectionCounter
        = sim.ptrScheduler._localRejectionCounter ∧
    (opened sim).ptrScheduler.eventCount = sim.ptrScheduler.eventCount := by
  obtain ⟨a1, a2, a3, -⟩ := lazyDeletionCleanup_frame
    { sim.ptrScheduler with sorter := sim.ptrScheduler.sorter.sort }
  obtain ⟨b1, b2, b3, -⟩ := lazyDeletionCleanup_frame
    { (opened sim).ptrScheduler with
      sorter := (((opened sim).ptrScheduler.sorter.popNextEvent).update owner).sort }
  exact ⟨b2.trans a2, b3.trans a3, a1⟩

end Scheduler

namespace Scenario

open Scheduler

variable {K : Type} [LinearOrderedField K]

theorem sched_next (e0 e1 : Event K) (ec : List Nat) (r : Nat) (h : e1.dt.lt e0.dt = false) :
    (sched e0 e1 ec r).sorter.next = (0, e0) := by
  simp [sched, FEL.next, FEL.topID, FEL.topFrom, PELSingleEvent.getdt, PELSingleEvent.top, h,
    PELSingleEvent.new, PELSingleEvent.clear, Dbl.HUGE_VAL]
  cases hd : e0.dt <;> simp [Dbl.lt]

theorem sched_not_stale (e0 e1 : Event K) (ec : List Nat) (r : Nat)
    (h : e1.dt.lt e0.dt = false)
    (hv : e0.type ≠ EEventType.INTERACTION ∨ e0.collCounter2 = ec.getD e0.particle2ID 0) :
    ¬ staleTop (sched e0 e1 ec r) := by
  unfold staleTop
  rw [sched_next e0 e1 ec r h]
  rcases hv with hv | hv
  · exact fun hs => hv hs.1
  · exact fun hs => hs.2 (by simpa [eventCountAt, sched] using hv)

theorem sched_stale (e0 e1 : Event K) (ec : List Nat) (r : Nat)
    (h : e1.dt.lt e0.dt = false) (ht : e0.type = EEventType.INTERACTION)
    (hv : e0.collCounter2 ≠ ec.getD e0.particle2ID 0) :
    staleTop (sched e0 e1 ec r) := by
  unfold staleTop
  rw [sched_next e0 e1 ec r h]
  exact ⟨ht, by simpa [eventCountAt, sched] using hv⟩

theorem sched_opened (x0 v0 x1 : K) (e0 e1 : Event K) (ec : List Nat) (r : Nat)
    (h : e1.dt.lt e0.dt = false)
    (hv : e0.type ≠ EEventType.INTERACTION ∨ e0.collCounter2 = ec.getD e0.particle2ID 0) :
    opened (sim x0 v0 x1 (sched e0 e1 ec r)) = sim x0 v0 x1 (sched e0 e1 ec r) := by
  have hs : ¬ staleTop (sched e0 e1 ec r) := sched_not_stale e0 e1 ec r h hv
  have hs' : ¬ staleTop { sched e0 e1 ec r with sorter := (sched e0 e1 ec r).sorter.sort } := hs
  simp only [opened, sim]
  rw [lazyDeletionCleanup_of_not_stale _ hs']
  rfl

theorem sched_dispatched (x0 v0 x1 : K) (e0 e1 : Event K) (ec : List Nat) (r : Nat)
    (h : e1.dt.lt e0.dt = false)
    (hv : e0.type ≠ EEventType.INTERACTION ∨ e0.collCounter2 = ec.getD e0.particle2ID 0) :
    dispatched (sim x0 v0 x1 (sched e0 e1 ec r)) = (0, e0) := by
  rw [dispatched, sched_opened x0 v0 x1 e0 e1 ec r h hv]
  exact sched_next e0 e1 ec r h

theorem sched_ready (e0 e1 : Event K) (ec : List Nat) (r : Nat)
    (h : e1.dt.lt e0.dt = false) (ht : e0.type ≠ EEventType.NONE) :
    (sched e0 e1 ec r).readyNextEvent 0
      = sched { e0 with type := EEventType.RECALCULATE } e1 ec r := by
  have hpop : { sched e0 e1 ec r with
      sorter := (((sched e0 e1 ec r).sorter.popNextEvent).update 0).sort }
      = sched { e0 with type := EEventType.RECALCULATE } e1 ec r := by
    have h0 : (sched e0 e1 ec r).sorter.topID = 0 :=
      congrArg Prod.fst (sched_next e0 e1 ec r h)
    simp only [FEL.popNextEvent, FEL.update, FEL.sort, h0]
    simp [sched, PELSingleEvent.pop, PELSingleEvent.empty, ht]
  rw [readyNextEvent, hpop]
  exact lazyDeletionCleanup_of_not_stale _
    (sched_not_stale _ e1 ec r h (Or.inl (by simp)))

theorem sched_newTop (x0 v0 x1 : K) (e0 e1 : Event K) (ec : List Nat) (r : Nat)
    (h : e1.dt.lt e0.dt = false) (ht : e0.type ≠ EEventType.NONE)
    (hv : e0.type ≠ EEventType.INTERACTION ∨ e0.collCounter2 = ec.getD e0.particle2ID 0) :
    newTop (sim x0 v0 x1 (sched e0 e1 ec r))
      = (0, { e0 with type := EEventType.RECALCULATE }) := by
  rw [newTop, sched_dispatched x0 v0 x1 e0 e1 ec r h hv,
    sched_opened x0 v0 x1 e0 e1 ec r h hv]
  show ((sched e0 e1 ec r).readyNextEvent 0).sorter.next = _
  rw [sched_ready e0 e1 ec r h ht]
  exact sched_next _ e1 ec r h

/-- The hard-sphere prediction for the pair (0, 1) of a scenario at time 0. -/
theorem getEvent_pair (sqrt : K → K) (x0 v0 x1 : K) (s : Scheduler K) :
    (env sqrt).getEvent ((env sqrt).updateParticlePair (sim x0 v0 x1 s).particles 0 1) 0 1
      = if (x0 - x1) * v0 < 0 ∧
            (x0 - x1) * v0 * ((x0 - x1) * v0) - v0 * v0 * ((x0 - x1) * (x0 - x1) - 1) > 0 then
          { dt := Dbl.fin ((1 - (x0 - x1) * (x0 - x1)) /
              ((x0 - x1) * v0 - sqrt ((x0 - x1) * v0 * ((x0 - x1) * v0)
                - v0 * v0 * ((x0 - x1) * (x0 - x1) - 1)))),
            type := EEventType.CORE, particle1ID := 0, particle2ID := 1, interactionID := 0 }
        else
          { dt := Dbl.HUGE_VAL, type := EEventType.NONE, particle1ID := 0, particle2ID := 1,
            interactionID := 0 } := by
  simp only [env, HardSphereSim.plugins, sim, HardSphereSim.particle, CIHardSphere.getCollision,
    CLNewton.SphereSphereInRoot, CPDData.ofPair, BC.none, CLNewton.updateParticle,
    CLNewton.streamParticle, hs, Vector.add, Vector.sub, Vector.smul, Vector.dot, Vector.square,
    List.modify_zero_cons, List.modify_succ_cons, List.getD_cons_zero, List.getD_cons_succ]
  simp only [sub_self, mul_zero, add_zero, sub_zero, zero_mul]
  by_cases h1 : (x0 - x1) * v0 < 0
  · by_cases h2 : (x0 - x1) * v0 * ((x0 - x1) * v0) - v0 * v0 * ((x0 - x1) * (x0 - x1) - 1) > 0
    · simp [h1, h2]
    · simp [h1, h2]
  · simp [h1]

/-- The wall prediction for particle 0 of a scenario at time 0. -/
theorem getEvent_wall (sqrt : K → K) (x0 v0 x1 : K) (s : Scheduler K) :
    (localAt (env sqrt) 0).getEvent
        ((env sqrt).updateParticle (sim x0 v0 x1 s).particles 0) 0
      = { dt := if v0 < 0 then Dbl.fin (-((x0 + 100) / v0)) else Dbl.HUGE_VAL,
          type := EEventType.WALL, particleID := 0, localID := 0 } := by
  simp only [localAt, env, HardSphereSim.plugins, sim, HardSphereSim.particle,
    CLNewton.getWallCollision, BC.none, CLNewton.updateParticle, CLNewton.streamParticle,
    Vector.add, Vector.sub, Vector.smul, Vector.dot, List.modify_zero_cons,
    List.getD_cons_zero]
  simp only [sub_self, mul_zero, add_zero, sub_zero, zero_mul, mul_one, sub_neg_eq_add]

/-- A scenario whose top event is a current INTERACTION of the pair (0, 1) with
the finite time `d0`: what `runNextEvent` dispatches on, re-predicts and finds
at the top of the FEL after the pop. -/
theorem interaction_dispatch (sqrt : K → K) (x0 v0 x1 d0 : K) (e1 : Event K)
    (ec : List Nat) (r : Nat)
    (h : e1.dt.lt (Dbl.fin d0) = false) :
    dispatched (sim x0 v0 x1
        (sched ⟨Dbl.fin d0, EEventType.INTERACTION, 1, ec.getD 1 0⟩ e1 ec r))
      = (0, ⟨Dbl.fin d0, EEventType.INTERACTION, 1, ec.getD 1 0⟩) ∧
    recalculated (env sqrt) (sim x0 v0 x1
        (sched ⟨Dbl.fin d0, EEventType.INTERACTION, 1, ec.getD 1 0⟩ e1 ec r))
      = (env sqrt).getEvent ((env sqrt).updateParticlePair (sim x0 v0 x1
          (sched ⟨Dbl.fin d0, EEventType.INTERACTION, 1, ec.getD 1 0⟩ e1 ec r)).particles 0 1)
          0 1 ∧
    newTop (sim x0 v0 x1
        (sched ⟨Dbl.fin d0, EEventType.INTERACTION, 1, ec.getD 1 0⟩ e1 ec r))
      = (0, ⟨Dbl.fin d0, EEventType.RECALCULATE, 1, ec.getD 1 0⟩) := by
  have hdis := sched_dispatched x0 v0 x1 ⟨Dbl.fin d0, EEventType.INTERACTION, 1, ec.getD 1 0⟩
    e1 ec r h (Or.inr rfl)
  refine ⟨hdis, ?_, ?_⟩
  · rw [recalculated, hdis]
  · exact sched_newTop x0 v0 x1 ⟨Dbl.fin d0, EEventType.INTERACTION, 1, ec.getD 1 0⟩ e1 ec r h
      (by simp) (Or.inr rfl)

/-- The same scenario: the event is executed when the re-prediction `ev` is not
NONE and is not later than the stored time, or the watchdog has run out. -/
theorem interaction_executed (sqrt : K → K) (x0 v0 x1 d0 : K) (e1 : Event K)
    (ec : List Nat) (r : Nat) (ev : IntEvent K)
    (h : e1.dt.lt (Dbl.fin d0) = false)
    (hev : (env sqrt).getEvent ((env sqrt).updateParticlePair (sim x0 v0 x1
      (sched ⟨Dbl.fin d0, EEventType.INTERACTION, 1, ec.getD 1 0⟩ e1 ec r)).particles 0 1)
      0 1 = ev)
    (hty : ev.type ≠ EEventType.NONE)
    (hacc : ev.dt.gt (Dbl.fin d0) = false ∨ ¬ r + 1 < rejectionLimit) :
    (runNextEvent (env sqrt) (sim x0 v0 x1
      (sched ⟨Dbl.fin d0, EEventType.INTERACTION, 1, ec.getD 1 0⟩ e1 ec r))).ran
        = [Executed.ofInteraction 0 1 ev] ∧
    (runNextEvent (env sqrt) (sim x0 v0 x1
      (sched ⟨Dbl.fin d0, EEventType.INTERACTION, 1, ec.getD 1 0⟩ e1 ec r))).sim.systemTime
        = (Dbl.fin 0).add ev.dt ∧
    (runNextEvent (env sqrt) (sim x0 v0 x1
      (sched ⟨Dbl.fin d0, EEventType.INTERACTION, 1, ec.getD 1 0⟩ e1 ec
        r))).sim.ptrScheduler._interactionRejectionCounter = 0 := by
  have hv : (⟨Dbl.fin d0, EEventType.INTERACTION, 1, ec.getD 1 0⟩ : Event K).type
        ≠ EEventType.INTERACTION ∨
      (⟨Dbl.fin d0, EEventType.INTERACTION, 1, ec.getD 1 0⟩ : Event K).collCounter2
        = ec.getD (⟨Dbl.fin d0, EEventType.INTERACTION, 1, ec.getD 1 0⟩ : Event K).particle2ID 0 :=
    Or.inr rfl
  have hdis := sched_dispatched x0 v0 x1 _ e1 ec r h hv
  have hop := sched_opened x0 v0 x1 _ e1 ec r h hv
  rw [runNextEvent_of_INTERACTION _ _ (by rw [hdis]), hdis, hop]
  obtain ⟨-, -, -, c4⟩ := runNextEvent_INTERACTION_cases (env sqrt)
    (sim x0 v0 x1 (sched ⟨Dbl.fin d0, EEventType.INTERACTION, 1, ec.getD 1 0⟩ e1 ec r))
    (0, ⟨Dbl.fin d0, EEventType.INTERACTION, 1, ec.getD 1 0⟩)
  have hready : (sim x0 v0 x1 (sched ⟨Dbl.fin d0, EEventType.INTERACTION, 1, ec.getD 1 0⟩
      e1 ec r)).ptrScheduler.readyNextEvent 0
      = sched ⟨Dbl.fin d0, EEventType.RECALCULATE, 1, ec.getD 1 0⟩ e1 ec r :=
    sched_ready _ e1 ec r h (by simp)
  have hnext := sched_next ⟨Dbl.fin d0, EEventType.RECALCULATE, 1, ec.getD 1 0⟩ e1 ec r h
  simp only [hev, hready, hnext] at c4
  refine c4 rfl ?_ rfl
  rw [← Bool.not_eq_true, interactionRejected_fst]
  rintro (h1 | ⟨h1, h2⟩)
  · exact hty h1
  · rcases hacc with h3 | h3
    · rw [h3] at h1; exact Bool.false_ne_true h1
    · exact h3 h2

/-- The same scenario: the event is rejected when the re-prediction `ev` is
NONE, or is later than the stored time while the watchdog has not run out. -/
theorem interaction_rejected (sqrt : K → K) (x0 v0 x1 d0 : K) (e1 : Event K)
    (ec : List Nat) (r : Nat) (ev : IntEvent K)
    (h : e1.dt.lt (Dbl.fin d0) = false)
    (hev : (env sqrt).getEvent ((env sqrt).updateParticlePair (sim x0 v0 x1
      (sched ⟨Dbl.fin d0, EEventType.INTERACTION, 1, ec.getD 1 0⟩ e1 ec r)).particles 0 1)
      0 1 = ev)
    (hrej : ev.type = EEventType.NONE ∨
      (ev.dt.gt (Dbl.fin d0) = true ∧ r + 1 < rejectionLimit)) :
    (runNextEvent (env sqrt) (sim x0 v0 x1
      (sched ⟨Dbl.fin d0, EEventType.INTERACTION, 1, ec.getD 1 0⟩ e1 ec r))).ran = [] ∧
    (runNextEvent (env sqrt) (sim x0 v0 x1
      (sched ⟨Dbl.fin d0, EEventType.INTERACTION, 1, ec.getD 1 0⟩ e1 ec r))).threw = none ∧
    (runNextEvent (env sqrt) (sim x0 v0 x1
      (sched ⟨Dbl.fin d0, EEventType.INTERACTION, 1, ec.getD 1 0⟩ e1 ec r))).sim.systemTime
        = Dbl.fin 0 ∧
    (runNextEvent (env sqrt) (sim x0 v0 x1
      (sched ⟨Dbl.fin d0, EEventType.INTERACTION, 1, ec.getD 1 0⟩ e1 ec
        r))).sim.ptrScheduler._interactionRejectionCounter
        = if ev.type = EEventType.NONE then r else r + 1 := by
  have hv : (⟨Dbl.fin d0, EEventType.INTERACTION, 1, ec.getD 1 0⟩ : Event K).type
        ≠ EEventType.INTERACTION ∨
      (⟨Dbl.fin d0, EEventType.INTERACTION, 1, ec.getD 1 0⟩ : Event K).collCounter2
        = ec.getD (⟨Dbl.fin d0, EEventType.INTERACTION, 1, ec.getD 1 0⟩ : Event K).particle2ID 0 :=
    Or.inr rfl
  have hdis := sched_dispatched x0 v0 x1 _ e1 ec r h hv
  have hop := sched_opened x0 v0 x1 _ e1 ec r h hv
  rw [runNextEvent_of_INTERACTION _ _ (by rw [hdis]), hdis, hop]
  obtain ⟨-, c2, -, -⟩ := runNextEvent_INTERACTION_cases (env sqrt)
    (sim x0 v0 x1 (sched ⟨Dbl.fin d0, EEventType.INTERACTION, 1, ec.getD 1 0⟩ e1 ec r))
    (0, ⟨Dbl.fin d0, EEventType.INTERACTION, 1, ec.getD 1 0⟩)
  have hready : (sim x0 v0 x1 (sched ⟨Dbl.fin d0, EEventType.INTERACTION, 1, ec.getD 1 0⟩
      e1 ec r)).ptrScheduler.readyNextEvent 0
      = sched ⟨Dbl.fin d0, EEventType.RECALCULATE, 1, ec.getD 1 0⟩ e1 ec r :=
    sched_ready _ e1 ec r h (by simp)
  have hnext := sched_next ⟨Dbl.fin d0, EEventType.RECALCULATE, 1, ec.getD 1 0⟩ e1 ec r h
  simp only [hev, hready, hnext] at c2
  have hr : (interactionRejected (sched ⟨Dbl.fin d0, EEventType.RECALCULATE, 1, ec.getD 1 0⟩
      e1 ec r) ev (0, ⟨Dbl.fin d0, EEventType.RECALCULATE, 1, ec.getD 1 0⟩)).1 = true := by
    rw [interactionRejected_fst]; exact hrej
  obtain ⟨h1, h2, h3, h4⟩ := c2 rfl hr
  refine ⟨h1, h2, h3, ?_⟩
  rw [h4]
  unfold interactionRejected
  by_cases hn : ev.type = EEventType.NONE
  · simp [hn, sched]
  · rcases hrej with h5 | ⟨h5, -⟩
    · exact absurd h5 hn
    · simp [hn, h5, sched]

/-- A scenario whose top event is a LOCAL event of particle 0 at the wall with
the finite time `d0`: what `runNextEvent` dispatches on, re-predicts and finds
at the top of the FEL after the pop. -/
theorem local_dispatch (sqrt : K → K) (x0 v0 x1 d0 : K) (e1 : Event K)
    (ec : List Nat) (r : Nat)
    (h : e1.dt.lt (Dbl.fin d0) = false) :
    dispatched (sim x0 v0 x1 (sched ⟨Dbl.fin d0, EEventType.LOCAL, 0, 0⟩ e1 ec r))
      = (0, ⟨Dbl.fin d0, EEventType.LOCAL, 0, 0⟩) ∧
    recalculatedLocal (env sqrt)
        (sim x0 v0 x1 (sched ⟨Dbl.fin d0, EEventType.LOCAL, 0, 0⟩ e1 ec r))
      = (localAt (env sqrt) 0).getEvent ((env sqrt).updateParticle
          (sim x0 v0 x1 (sched ⟨Dbl.fin d0, EEventType.LOCAL, 0, 0⟩ e1 ec r)).particles 0) 0 ∧
    newTop (sim x0 v0 x1 (sched ⟨Dbl.fin d0, EEventType.LOCAL, 0, 0⟩ e1 ec r))
      = (0, ⟨Dbl.fin d0, EEventType.RECALCULATE, 0, 0⟩) := by
  have hdis := sched_dispatched x0 v0 x1 ⟨Dbl.fin d0, EEventType.LOCAL, 0, 0⟩
    e1 ec r h (Or.inl (by simp))
  refine ⟨hdis, ?_, ?_⟩
  · rw [recalculatedLocal, hdis]
  · exact sched_newTop x0 v0 x1 ⟨Dbl.fin d0, EEventType.LOCAL, 0, 0⟩ e1 ec r h
      (by simp) (Or.inl (by simp))

/-- The same scenario: the wall event is executed when the re-prediction `ev`
is not NONE and is not later than the stored time, or the watchdog has run
out. -/
theorem local_executed (sqrt : K → K) (x0 v0 x1 d0 : K) (e1 : Event K)
    (ec : List Nat) (r : Nat) (ev : LocalEvent K)
    (h : e1.dt.lt (Dbl.fin d0) = false)
    (hev : (localAt (env sqrt) 0).getEvent ((env sqrt).updateParticle
      (sim x0 v0 x1 (sched ⟨Dbl.fin d0, EEventType.LOCAL, 0, 0⟩ e1 ec r)).particles 0) 0 = ev)
    (hty : ev.type ≠ EEventType.NONE)
    (hacc : ev.dt.gt (Dbl.fin d0) = false ∨ ¬ r + 1 < rejectionLimit) :
    (runNextEvent (env sqrt)
      (sim x0 v0 x1 (sched ⟨Dbl.fin d0, EEventType.LOCAL, 0, 0⟩ e1 ec r))).ran
        = [Executed.ofLocal 0 0 ev] ∧
    (runNextEvent (env sqrt)
      (sim x0 v0 x1 (sched ⟨Dbl.fin d0, EEventType.LOCAL, 0, 0⟩ e1 ec r))).sim.systemTime
        = (Dbl.fin 0).add ev.dt := by
  have hv : (⟨Dbl.fin d0, EEventType.LOCAL, 0, 0⟩ : Event K).type ≠ EEventType.INTERACTION ∨
      (⟨Dbl.fin d0, EEventType.LOCAL, 0, 0⟩ : Event K).collCounter2
        = ec.getD (⟨Dbl.fin d0, EEventType.LOCAL, 0, 0⟩ : Event K).particle2ID 0 :=
    Or.inl (by simp)
  have hdis := sched_dispatched x0 v0 x1 _ e1 ec r h hv
  have hop := sched_opened x0 v0 x1 _ e1 ec r h hv
  rw [runNextEvent_of_LOCAL _ _ (by rw [hdis]), hdis, hop]
  obtain ⟨-, -, c3⟩ := runNextEvent_LOCAL_cases (env sqrt)
    (sim x0 v0 x1 (sched ⟨Dbl.fin d0, EEventType.LOCAL, 0, 0⟩ e1 ec r))
    (0, ⟨Dbl.fin d0, EEventType.LOCAL, 0, 0⟩)
  have hready : (sim x0 v0 x1 (sched ⟨Dbl.fin d0, EEventType.LOCAL, 0, 0⟩
      e1 ec r)).ptrScheduler.readyNextEvent 0
      = sched ⟨Dbl.fin d0, EEventType.RECALCULATE, 0, 0⟩ e1 ec r :=
    sched_ready _ e1 ec r h (by simp)
  have hnext := sched_next ⟨Dbl.fin d0, EEventType.RECALCULATE, 0, 0⟩ e1 ec r h
  simp only [hev, hready, hnext] at c3
  refine c3 rfl ?_
  rw [← Bool.not_eq_true, localRejected_fst]
  rintro (h1 | ⟨h1, h2⟩)
  · exact hty h1
  · rcases hacc with h3 | h3
    · rw [h3] at h1; exact Bool.false_ne_true h1
    · exact h3 h2

/-- The re-prediction for the approaching pair: a CORE event at time 2. -/
theorem approach_event (sqrt : K → K) (hsqrt : sqrt 1 = 1) (s : Scheduler K) :
    (env sqrt).getEvent ((env sqrt).updateParticlePair (sim 0 1 3 s).particles 0 1) 0 1
      = ⟨Dbl.fin 2, EEventType.CORE, 0, 1, 0⟩ := by
  rw [getEvent_pair]
  norm_num [hsqrt]

/-- The re-prediction for the overlapping pair: a CORE event at time `-1/2`. -/
theorem overlap_event (sqrt : K → K) (hsqrt : sqrt 1 = 1) (s : Scheduler K) :
    (env sqrt).getEvent ((env sqrt).updateParticlePair (sim (1 / 2) (-1) 0 s).particles 0 1) 0 1
      = ⟨Dbl.fin (-1 / 2), EEventType.CORE, 0, 1, 0⟩ := by
  rw [getEvent_pair]
  norm_num [hsqrt]

/-- The re-prediction for the receding pair: NONE. -/
theorem receding_event (sqrt : K → K) (s : Scheduler K) :
    (env sqrt).getEvent ((env sqrt).updateParticlePair (sim 0 (-1) 3 s).particles 0 1) 0 1
      = ⟨Dbl.HUGE_VAL, EEventType.NONE, 0, 1, 0⟩ := by
  rw [getEvent_pair]
  norm_num

/-- The re-prediction for the sphere in front of the wall: a WALL event at
time 1. -/
theorem wall_event (sqrt : K → K) (s : Scheduler K) :
    (localAt (env sqrt) 0).getEvent ((env sqrt).updateParticle (sim (-99) (-1) 3 s).particles 0) 0
      = ⟨Dbl.fin 1, EEventType.WALL, 0, 0⟩ := by
  rw [getEvent_wall]
  norm_num

/-- The approaching pair: the collision is executed at time 2. -/
theorem approach_outcome (sqrt : K → K) (hsqrt : sqrt 1 = 1) :
    (runNextEvent (env sqrt) (approachSim K)).ran
        = [Executed.ofInteraction 0 1 ⟨Dbl.fin 2, EEventType.CORE, 0, 1, 0⟩] ∧
    (runNextEvent (env sqrt) (approachSim K)).sim.systemTime = Dbl.fin 2 ∧
    (runNextEvent (env sqrt) (approachSim K)).sim.ptrScheduler._interactionRejectionCounter
        = 0 := by
  have h := interaction_executed sqrt 0 1 3 2 ⟨Dbl.fin 2, EEventType.INTERACTION, 0, 0⟩
    [0, 0, 0] 0 ⟨Dbl.fin 2, EEventType.CORE, 0, 1, 0⟩ (by simp [Dbl.lt])
    (approach_event sqrt hsqrt _) (by simp) (Or.inl (by simp [Dbl.gt, Dbl.lt]))
  simpa [Dbl.add] using h

/-- The overlapping pair: the collision is executed at time `-1/2`. -/
theorem overlap_outcome (sqrt : K → K) (hsqrt : sqrt 1 = 1) :
    (runNextEvent (env sqrt) (overlapSim K)).ran
        = [Executed.ofInteraction 0 1 ⟨Dbl.fin (-1 / 2), EEventType.CORE, 0, 1, 0⟩] ∧
    (runNextEvent (env sqrt) (overlapSim K)).sim.systemTime = Dbl.fin (-1 / 2) := by
  have h := interaction_executed sqrt (1 / 2) (-1) 0 (-1 / 2)
    ⟨Dbl.fin (-1 / 2), EEventType.INTERACTION, 0, 0⟩
    [0, 0, 0] 0 ⟨Dbl.fin (-1 / 2), EEventType.CORE, 0, 1, 0⟩ (by simp [Dbl.lt])
    (overlap_event sqrt hsqrt _) (by simp) (Or.inl (by simp [Dbl.gt, Dbl.lt]))
  exact ⟨h.1, h.2.1.trans (by simp [Dbl.add])⟩

/-- The late re-prediction after nine rejections in a row: the collision is
executed and the counter is reset. -/
theorem late_nine_outcome (sqrt : K → K) (hsqrt : sqrt 1 = 1) :
    (runNextEvent (env sqrt) (lateSim K 9)).ran
        = [Executed.ofInteraction 0 1 ⟨Dbl.fin 2, EEventType.CORE, 0, 1, 0⟩] ∧
    (runNextEvent (env sqrt) (lateSim K 9)).sim.systemTime = Dbl.fin 2 ∧
    (runNextEvent (env sqrt) (lateSim K 9)).sim.ptrScheduler._interactionRejectionCounter
        = 0 := by
  have h := interaction_executed sqrt 0 1 3 1 ⟨Dbl.fin 5, EEventType.INTERACTION, 0, 0⟩
    [0, 0, 0] 9 ⟨Dbl.fin 2, EEventType.CORE, 0, 1, 0⟩ (by simp [Dbl.lt])
    (approach_event sqrt hsqrt _) (by simp) (Or.inr (by simp [rejectionLimit]))
  simpa [Dbl.add] using h

/-- The late re-prediction after eight rejections in a row: the event is
rejected and the counter goes to nine. -/
theorem late_eight_outcome (sqrt : K → K) (hsqrt : sqrt 1 = 1) :
    (runNextEvent (env sqrt) (lateSim K 8)).ran = [] ∧
    (runNextEvent (env sqrt) (lateSim K 8)).threw = none ∧
    (runNextEvent (env sqrt) (lateSim K 8)).sim.systemTime = Dbl.fin 0 ∧
    (runNextEvent (env sqrt) (lateSim K 8)).sim.ptrScheduler._interactionRejectionCounter
        = 9 := by
  have h := interaction_rejected sqrt 0 1 3 1 ⟨Dbl.fin 5, EEventType.INTERACTION, 0, 0⟩
    [0, 0, 0] 8 ⟨Dbl.fin 2, EEventType.CORE, 0, 1, 0⟩ (by simp [Dbl.lt])
    (approach_event sqrt hsqrt _)
    (Or.inr ⟨by simp [Dbl.gt, Dbl.lt], by simp [rejectionLimit]⟩)
  simpa using h

/-- The sphere in front of the wall: the wall event is executed at time 1. -/
theorem wall_outcome (sqrt : K → K) :
    (runNextEvent (env sqrt) (wallSim K)).ran
        = [Executed.ofLocal 0 0 ⟨Dbl.fin 1, EEventType.WALL, 0, 0⟩] ∧
    (runNextEvent (env sqrt) (wallSim K)).sim.systemTime = Dbl.fin 1 := by
  have h := local_executed sqrt (-99) (-1) 3 1 ⟨Dbl.HUGE_VAL, EEventType.LOCAL, 0, 0⟩
    [0, 0, 0] 0 ⟨Dbl.fin 1, EEventType.WALL, 0, 0⟩ (by simp [Dbl.lt, Dbl.HUGE_VAL])
    (wall_event sqrt _) (by simp) (Or.inl (by simp [Dbl.gt, Dbl.lt]))
  simpa [Dbl.add] using h

/-- The prediction `addInteractionEvent` makes for the approaching pair. -/
theorem approach_prediction (sqrt : K → K) (hsqrt : sqrt 1 = 1) (s : Scheduler K) :
    (env sqrt).getEvent ((env sqrt).updateParticle (sim 0 1 3 s).particles 1) 0 1
      = ⟨Dbl.fin 2, EEventType.CORE, 0, 1, 0⟩ := by
  simp only [env, HardSphereSim.plugins, sim, HardSphereSim.particle, CIHardSphere.getCollision,
    CLNewton.SphereSphereInRoot, CPDData.ofPair, BC.none, CLNewton.updateParticle,
    CLNewton.streamParticle, hs, Vector.add, Vector.sub, Vector.smul, Vector.dot, Vector.square,
    List.modify_zero_cons, List.modify_succ_cons, List.getD_cons_zero, List.getD_cons_succ]
  norm_num [hsqrt]

/-- The scheduler of `staleSim` has a stale INTERACTION event at the top. -/
theorem stale_staleTop : staleTop (staleSim K).ptrScheduler :=
  sched_stale ⟨Dbl.fin 2, EEventType.INTERACTION, 1, 0⟩ ⟨Dbl.fin 5, EEventType.INTERACTION, 0, 0⟩
    [0, 1, 0] 0 (by norm_num [Dbl.lt]) rfl (by simp)

/-- The receding pair: an INTERACTION with a finite time is dispatched and
re-predicted as NONE. -/
theorem receding_dispatch (sqrt : K → K) :
    (dispatched (recedingSim K)).2.type = EEventType.INTERACTION ∧
    (dispatched (recedingSim K)).2.dt.isfinite = true ∧
    (recalculated (env sqrt) (recedingSim K)).type = EEventType.NONE := by
  obtain ⟨h1, h2, -⟩ := interaction_dispatch sqrt 0 (-1) 3 2
    ⟨Dbl.fin 5, EEventType.INTERACTION, 0, 0⟩ [0, 0, 0] 0 (by norm_num [Dbl.lt])
  have e : recedingSim K = sim 0 (-1) 3 (sched
      ⟨Dbl.fin 2, EEventType.INTERACTION, 1, [0, 0, 0].getD 1 0⟩
      ⟨Dbl.fin 5, EEventType.INTERACTION, 0, 0⟩ [0, 0, 0] 0) := rfl
  rw [e, h1, h2, receding_event]
  exact ⟨rfl, rfl, rfl⟩

/-- The late wall event: a LOCAL event with the finite time 1/2 is dispatched
and re-predicted later, at time 1, with no rejection counted so far. -/
theorem lateWall_dispatch (sqrt : K → K) :
    (dispatched (lateWallSim K)).2.type = EEventType.LOCAL ∧
    (dispatched (lateWallSim K)).2.dt.isfinite = true ∧
    (recalculatedLocal (env sqrt) (lateWallSim K)).dt.gt (newTop (lateWallSim K)).2.dt = true ∧
    (lateWallSim K).ptrScheduler._localRejectionCounter + 1 < rejectionLimit := by
  obtain ⟨h1, h2, h3⟩ := local_dispatch sqrt (-99) (-1) 3 (1 / 2)
    ⟨Dbl.HUGE_VAL, EEventType.LOCAL, 0, 0⟩ [0, 0, 0] 0 (by simp [Dbl.lt, Dbl.HUGE_VAL])
  have e : lateWallSim K = sim (-99) (-1) 3 (sched ⟨Dbl.fin (1 / 2), EEventType.LOCAL, 0, 0⟩
      ⟨Dbl.HUGE_VAL, EEventType.LOCAL, 0, 0⟩ [0, 0, 0] 0) := rfl
  rw [e, h1, h2, h3, wall_event]
  refine ⟨rfl, rfl, ?_, by simp [sim, sched, rejectionLimit]⟩
  norm_num [Dbl.gt, Dbl.lt]

/-- The late re-prediction: an INTERACTION is dispatched, re-predicted at time
2 and compared with the new top at time 1. -/
theorem late_dispatch (sqrt : K → K) (hsqrt : sqrt 1 = 1) (r : Nat) :
    (dispatched (lateSim K r)).2.type = EEventType.INTERACTION ∧
    (recalculated (env sqrt) (lateSim K r)).dt = Dbl.fin 2 ∧
    (newTop (lateSim K r)).2.dt = Dbl.fin 1 ∧
    (recalculated (env sqrt) (lateSim K r)).dt.gt (newTop (lateSim K r)).2.dt = true := by
  obtain ⟨h1, h2, h3⟩ := interaction_dispatch sqrt 0 1 3 1
    ⟨Dbl.fin 5, EEventType.INTERACTION, 0, 0⟩ [0, 0, 0] r (by norm_num [Dbl.lt])
  have e : lateSim K r = sim 0 1 3 (sched
      ⟨Dbl.fin 1, EEventType.INTERACTION, 1, [0, 0, 0].getD 1 0⟩
      ⟨Dbl.fin 5, EEventType.INTERACTION, 0, 0⟩ [0, 0, 0] r) := rfl
  rw [e, h1, h2, h3, approach_event sqrt hsqrt]
  refine ⟨rfl, rfl, rfl, ?_⟩
  norm_num [Dbl.gt, Dbl.lt]

end Scenario

/-! ## The scheduler: theorems -/

section SchedulerTheorems

open Scheduler

/-- C1: `lazyDeletionCleanup` pops a stale INTERACTION event at the top of the
FEL (its PEL then holds a RECALCULATE event); when it returns, the top is not
an INTERACTION or carries the current counter of its second particle; and
every interaction `runEvent` that `runNextEvent` calls is for the event it
dispatched on after the cleanup, an INTERACTION whose stored `collCounter2`
equals `eventCount[particle2ID]`. -/
theorem runNextEvent_never_executes_stale_interaction {K σ δ : Type} [LinearOrderedField K]
    (env : Plugins K σ δ)
    (sim : Simulation K σ) (s : Scheduler K) :
    (staleTop s →
      ∃ a, s.sorter.pels[s.sorter.next.1]? = some a ∧
        (lazyDeletionCleanup s).sorter.pels[s.sorter.next.1]? = some a.pop ∧
        a.pop.top.type = EEventType.RECALCULATE) ∧
    ((lazyDeletionCleanup s).sorter.next.2.type ≠ EEventType.INTERACTION ∨
      (lazyDeletionCleanup s).sorter.next.2.collCounter2
        = (lazyDeletionCleanup s).eventCountAt
            (lazyDeletionCleanup s).sorter.next.2.particle2ID) ∧
    (∀ p1 p2 ev, Executed.ofInteraction p1 p2 ev ∈ (runNextEvent env sim).ran →
      (dispatched sim).2.type = EEventType.INTERACTION ∧
      (dispatched sim).2.collCounter2
        = sim.ptrScheduler.eventCountAt (dispatched sim).2.particle2ID ∧
      p1 = (dispatched sim).1 ∧ p2 = (dispatched sim).2.particle2ID) := by
  have key : ∀ t : Scheduler K,
      (lazyDeletionCleanup t).sorter.next.2.type ≠ EEventType.INTERACTION ∨
      (lazyDeletionCleanup t).sorter.next.2.collCounter2
        = (lazyDeletionCleanup t).eventCountAt
            (lazyDeletionCleanup t).sorter.next.2.particle2ID := by
    intro t
    have h := not_staleTop_lazyDeletionCleanup t
    unfold staleTop at h
    by_cases hI : (lazyDeletionCleanup t).sorter.next.2.type = EEventType.INTERACTION
    · right
      by_contra hne
      exact h ⟨hI, hne⟩
    · exact Or.inl hI
  refine ⟨?_, key s, ?_⟩
  · intro hs
    obtain ⟨a, h1, h2, h3, -⟩ := lazyDeletionCleanup_pops_stale s hs
    exact ⟨a, h1, h2, h3⟩
  · intro p1 p2 ev hmem
    have hI := dispatched_of_ran_interaction env sim p1 p2 ev hmem
    obtain ⟨h1, h2, -, -⟩ := runNextEvent_ran_interaction env sim p1 p2 ev hmem
    refine ⟨hI, ?_, h1, h2⟩
    rcases key { sim.ptrScheduler with sorter := sim.ptrScheduler.sorter.sort } with h | h
    · exact absurd hI h
    · have hc := (readyNextEvent_opened_counters sim 0).2.2
      simp only [eventCountAt] at h ⊢
      rw [← hc]
      exact h

/-- C6: when `runNextEvent` executes an INTERACTION or LOCAL event, the event
is the re-predicted one and the system time afterwards is the system time
before plus its `dt`; when the dispatched INTERACTION or LOCAL event is
rejected (the re-prediction is NONE, or is later than the new top of the FEL
and the incremented rejection counter is below `rejectionLimit`),
`runNextEvent` returns with the system time unchanged and no event executed. -/
theorem runNextEvent_systemTime {K σ δ : Type} [LinearOrderedField K]
    (env : Plugins K σ δ) (sim : Simulation K σ) :
    (∀ p1 p2 ev, Executed.ofInteraction p1 p2 ev ∈ (runNextEvent env sim).ran →
      ev = recalculated env sim ∧
      (runNextEvent env sim).sim.systemTime = sim.systemTime.add ev.dt) ∧
    (∀ l p ev, Executed.ofLocal l p ev ∈ (runNextEvent env sim).ran →
      ev = recalculatedLocal env sim ∧
      (runNextEvent env sim).sim.systemTime = sim.systemTime.add ev.dt) ∧
    ((dispatched sim).2.type = EEventType.INTERACTION →
      (dispatched sim).2.dt.isfinite = true →
      ((recalculated env sim).type = EEventType.NONE ∨
        ((recalculated env sim).dt.gt (newTop sim).2.dt = true ∧
          sim.ptrScheduler._interactionRejectionCounter + 1 < rejectionLimit)) →
      (runNextEvent env sim).threw = none ∧ (runNextEvent env sim).ran = [] ∧
      (runNextEvent env sim).sim.systemTime = sim.systemTime) ∧
    ((dispatched sim).2.type = EEventType.LOCAL →
      (dispatched sim).2.dt.isfinite = true →
      ((recalculatedLocal env sim).type = EEventType.NONE ∨
        ((recalculatedLocal env sim).dt.gt (newTop sim).2.dt = true ∧
          sim.ptrScheduler._localRejectionCounter + 1 < rejectionLimit)) →
      (runNextEvent env sim).threw = none ∧ (runNextEvent env sim).ran = [] ∧
      (runNextEvent env sim).sim.systemTime = sim.systemTime) := by
  refine ⟨?_, ?_, ?_, ?_⟩
  · intro p1 p2 ev hmem
    obtain ⟨-, -, h3, h4⟩ := runNextEvent_ran_interaction env sim p1 p2 ev hmem
    exact ⟨h3, h4⟩
  · intro l p ev hmem
    obtain ⟨-, -, h3, h4⟩ := runNextEvent_ran_local env sim l p ev hmem
    exact ⟨h3, h4⟩
  · intro hI hf hrej
    rw [runNextEvent_of_INTERACTION env sim hI]
    have hr : (interactionRejected ((opened sim).ptrScheduler.readyNextEvent (dispatched sim).1)
        (recalculated env sim) (newTop sim)).1 = true := by
      rw [interactionRejected_fst, (readyNextEvent_opened_counters sim _).1]
      exact hrej
    obtain ⟨h1, h2, h3, -⟩ :=
      (runNextEvent_INTERACTION_cases env (opened sim) (dispatched sim)).2.1 hf hr
    exact ⟨h2, h1, h3⟩
  · intro hI hf hrej
    rw [runNextEvent_of_LOCAL env sim hI]
    have hr : (localRejected ((opened sim).ptrScheduler.readyNextEvent (dispatched sim).1)
        (recalculatedLocal env sim) (newTop sim)).1 = true := by
      rw [localRejected_fst, (readyNextEvent_opened_counters sim _).2.1]
      exact hrej
    obtain ⟨h1, h2, h3⟩ :=
      (runNextEvent_LOCAL_cases env (opened sim) (dispatched sim)).2.1 hf hr
    exact ⟨h2, h1, h3⟩

/-- C8 (amended): when `runNextEvent` executes an INTERACTION or LOCAL event
re-predicted at the finite time `d` from the finite system time `t`, the
system time afterwards is `t + d`; it is at least the system time before
exactly when `d ≥ 0`. -/
theorem runNextEvent_time_monotone_iff {K σ δ : Type} [LinearOrderedField K]
    (env : Plugins K σ δ) (sim : Simulation K σ)
    (t : K) (ht : sim.systemTime = Dbl.fin t) :
    (∀ p1 p2 ev d, Executed.ofInteraction p1 p2 ev ∈ (runNextEvent env sim).ran →
      ev.dt = Dbl.fin d →
      (runNextEvent env sim).sim.systemTime = Dbl.fin (t + d) ∧
      (Dbl.le sim.systemTime (runNextEvent env sim).sim.systemTime = true ↔ 0 ≤ d)) ∧
    (∀ l p ev d, Executed.ofLocal l p ev ∈ (runNextEvent env sim).ran →
      ev.dt = Dbl.fin d →
      (runNextEvent env sim).sim.systemTime = Dbl.fin (t + d) ∧
      (Dbl.le sim.systemTime (runNextEvent env sim).sim.systemTime = true ↔ 0 ≤ d)) := by
  constructor
  · intro p1 p2 ev d hmem hd
    obtain ⟨-, -, -, h4⟩ := runNextEvent_ran_interaction env sim p1 p2 ev hmem
    rw [h4, ht, hd]
    simp [Dbl.add, Dbl.le]
  · intro l p ev d hmem hd
    obtain ⟨-, -, -, h4⟩ := runNextEvent_ran_local env sim l p ev hmem
    rw [h4, ht, hd]
    simp [Dbl.add, Dbl.le]

/-- C9: `addInteractionEvent(part, id)` changes nothing of the scheduler when
`id` is the particle itself or the predicted event is NONE; otherwise it makes
one push, into the PEL of `part`, of an INTERACTION event that carries
`collCounter2 = eventCount[id]`; in every case the PELs of the other particles
and the event counters are as before. -/
theorem addInteractionEvent_pushes_one {K σ δ : Type} [LinearOrderedField K]
    (env : Plugins K σ δ) (sim : Simulation K σ)
    (part id : Nat) :
    ((part = id ∨
        (env.getEvent (env.updateParticle sim.particles id) part id).type = EEventType.NONE) →
      (addInteractionEvent env sim part id).ptrScheduler = sim.ptrScheduler) ∧
    (part ≠ id →
      (env.getEvent (env.updateParticle sim.particles id) part id).type ≠ EEventType.NONE →
      (addInteractionEvent env sim part id).ptrScheduler.sorter
        = sim.ptrScheduler.sorter.push
            (Event.ofIntEvent (env.getEvent (env.updateParticle sim.particles id) part id)
              (sim.ptrScheduler.eventCountAt id)) part ∧
      (Event.ofIntEvent (env.getEvent (env.updateParticle sim.particles id) part id)
        (sim.ptrScheduler.eventCountAt id)).collCounter2 = sim.ptrScheduler.eventCountAt id ∧
      (Event.ofIntEvent (env.getEvent (env.updateParticle sim.particles id) part id)
        (sim.ptrScheduler.eventCountAt id)).type = EEventType.INTERACTION) ∧
    (∀ j, j ≠ part →
      (addInteractionEvent env sim part id).ptrScheduler.sorter.pels[j]?
        = sim.ptrScheduler.sorter.pels[j]?) ∧
    (addInteractionEvent env sim part id).ptrScheduler.eventCount
      = sim.ptrScheduler.eventCount := by
  unfold addInteractionEvent
  by_cases h : part = id
  · simp [h]
  · by_cases hn :
      (env.getEvent (env.updateParticle sim.particles id) part id).type = EEventType.NONE
    · simp [h, hn]
    · simp only [h, hn, if_false, ne_eq, not_false_eq_true, if_true, false_or, false_imp_iff,
        true_imp_iff, true_and, not_true_eq_false]
      refine ⟨⟨rfl, rfl⟩, ?_, trivial⟩
      intro j hj
      simp only [FEL.push]
      exact List.getElem?_modify_ne _ _ (Ne.symm hj)

/-- C10: for a particle with a counter and a PEL, `invalidateEvents(part)`
increases `eventCount[part]` by exactly 1, leaves every other counter
unchanged, leaves the PEL of `part` empty with type NONE and `dt = +∞`, and
leaves every other PEL and the rejection counters unchanged. -/
theorem invalidateEvents_frame {K : Type} (s : Scheduler K) (part : Nat)
    (hc : part < s.eventCount.length) (hp : part < s.sorter.pels.length) :
    (s.invalidateEvents part).eventCountAt part = s.eventCountAt part + 1 ∧
    (∀ j, j ≠ part → (s.invalidateEvents part).eventCountAt j = s.eventCountAt j) ∧
    (s.invalidateEvents part).eventCount.length = s.eventCount.length ∧
    (∃ p, (s.invalidateEvents part).sorter.pels[part]? = some p ∧
      p.empty = true ∧ p.size = 0 ∧ p.top.type = EEventType.NONE ∧
      p.getdt = Dbl.HUGE_VAL) ∧
    (∀ j, j ≠ part →
      (s.invalidateEvents part).sorter.pels[j]? = s.sorter.pels[j]?) ∧
    (s.invalidateEvents part).sorter.pels.length = s.sorter.pels.length ∧
    (s.invalidateEvents part)._interactionRejectionCounter = s._interactionRejectionCounter ∧
    (s.invalidateEvents part)._localRejectionCounter = s._localRejectionCounter := by
  refine ⟨?_, ?_, ?_, ?_, ?_, ?_, rfl, rfl⟩
  · simp only [invalidateEvents, eventCountAt, List.getD_eq_getElem?_getD,
      List.getElem?_modify_eq]
    rw [List.getElem?_eq_getElem hc]
    rfl
  · intro j hj
    simp only [invalidateEvents, eventCountAt, List.getD_eq_getElem?_getD]
    rw [List.getElem?_modify_ne _ _ (Ne.symm hj)]
  · simp [invalidateEvents]
  · refine ⟨(s.sorter.pels[part]).clear, ?_, ?_, ?_, ?_, ?_⟩
    · simp only [invalidateEvents, FEL.clearPEL, List.getElem?_modify_eq]
      rw [List.getElem?_eq_getElem hp]
      rfl
    · simp [PELSingleEvent.clear, PELSingleEvent.empty]
    · simp [PELSingleEvent.clear, PELSingleEvent.size]
    · simp [PELSingleEvent.clear, PELSingleEvent.top]
    · simp [PELSingleEvent.clear, PELSingleEvent.getdt]
  · intro j hj
    simp only [invalidateEvents, FEL.clearPEL]
    exact List.getElem?_modify_ne _ _ (Ne.symm hj)
  · simp [invalidateEvents, FEL.clearPEL]

/-- C1, at a scheduler whose top event is stale (it is popped) and at the
approaching pair (the executed interaction was dispatched with a current
counter). -/
theorem runNextEvent_never_executes_stale_interaction_witness :
    (∃ a, (Scenario.staleSim ℝ).ptrScheduler.sorter.pels[
            (Scenario.staleSim ℝ).ptrScheduler.sorter.next.1]? = some a ∧
        (lazyDeletionCleanup (Scenario.staleSim ℝ).ptrScheduler).sorter.pels[
            (Scenario.staleSim ℝ).ptrScheduler.sorter.next.1]? = some a.pop ∧
        a.pop.top.type = EEventType.RECALCULATE) ∧
    ((dispatched (Scenario.approachSim ℝ)).2.type = EEventType.INTERACTION ∧
      (dispatched (Scenario.approachSim ℝ)).2.collCounter2
        = (Scenario.approachSim ℝ).ptrScheduler.eventCountAt
            (dispatched (Scenario.approachSim ℝ)).2.particle2ID ∧
      0 = (dispatched (Scenario.approachSim ℝ)).1 ∧
      1 = (dispatched (Scenario.approachSim ℝ)).2.particle2ID) :=
  ⟨(runNextEvent_never_executes_stale_interaction (Scenario.env Real.sqrt)
      (Scenario.approachSim ℝ) (Scenario.staleSim ℝ).ptrScheduler).1 Scenario.stale_staleTop,
   (runNextEvent_never_executes_stale_interaction (Scenario.env Real.sqrt)
      (Scenario.approachSim ℝ) (Scenario.approachSim ℝ).ptrScheduler).2.2 0 1
      ⟨Dbl.fin 2, EEventType.CORE, 0, 1, 0⟩
      (by rw [(Scenario.approach_outcome Real.sqrt Real.sqrt_one).1]; simp)⟩

/-- C6, at the approaching pair (executed at time 2), the sphere at the wall
(executed at time 1), the receding pair (rejected, re-prediction NONE) and the
late wall event (rejected). -/
theorem runNextEvent_systemTime_witness :
    (runNextEvent (Scenario.env Real.sqrt) (Scenario.approachSim ℝ)).sim.systemTime
        = (Scenario.approachSim ℝ).systemTime.add (Dbl.fin 2) ∧
    (runNextEvent (Scenario.env Real.sqrt) (Scenario.wallSim ℝ)).sim.systemTime
        = (Scenario.wallSim ℝ).systemTime.add (Dbl.fin 1) ∧
    ((runNextEvent (Scenario.env Real.sqrt) (Scenario.recedingSim ℝ)).threw = none ∧
      (runNextEvent (Scenario.env Real.sqrt) (Scenario.recedingSim ℝ)).ran = [] ∧
      (runNextEvent (Scenario.env Real.sqrt) (Scenario.recedingSim ℝ)).sim.systemTime
        = (Scenario.recedingSim ℝ).systemTime) ∧
    ((runNextEvent (Scenario.env Real.sqrt) (Scenario.lateWallSim ℝ)).threw = none ∧
      (runNextEvent (Scenario.env Real.sqrt) (Scenario.lateWallSim ℝ)).ran = [] ∧
      (runNextEvent (Scenario.env Real.sqrt) (Scenario.lateWallSim ℝ)).sim.systemTime
        = (Scenario.lateWallSim ℝ).systemTime) :=
  ⟨((runNextEvent_systemTime (Scenario.env Real.sqrt) (Scenario.approachSim ℝ)).1 0 1
      ⟨Dbl.fin 2, EEventType.CORE, 0, 1, 0⟩
      (by rw [(Scenario.approach_outcome Real.sqrt Real.sqrt_one).1]; simp)).2,
   ((runNextEvent_systemTime (Scenario.env Real.sqrt) (Scenario.wallSim ℝ)).2.1 0 0
      ⟨Dbl.fin 1, EEventType.WALL, 0, 0⟩
      (by rw [(Scenario.wall_outcome Real.sqrt).1]; simp)).2,
   (runNextEvent_systemTime (Scenario.env Real.sqrt) (Scenario.recedingSim ℝ)).2.2.1
      (Scenario.receding_dispatch Real.sqrt).1 (Scenario.receding_dispatch Real.sqrt).2.1
      (Or.inl (Scenario.receding_dispatch Real.sqrt).2.2),
   (runNextEvent_systemTime (Scenario.env Real.sqrt) (Scenario.lateWallSim ℝ)).2.2.2
      (Scenario.lateWall_dispatch Real.sqrt).1 (Scenario.lateWall_dispatch Real.sqrt).2.1
      (Or.inr (Scenario.lateWall_dispatch Real.sqrt).2.2)⟩

/-- C7 on the code: after nine rejections in a row (`_interactionRejectionCounter
= 9`) an INTERACTION event re-predicted later (time 2) than the new top of the
FEL (time 1) is not rejected: it is executed and the counter is reset to 0.
After eight rejections it is rejected and the counter goes to 9. -/
theorem runNextEvent_accepts_after_nine_rejections :
    (Scenario.lateSim ℝ 9).ptrScheduler._interactionRejectionCounter = 9 ∧
    (dispatched (Scenario.lateSim ℝ 9)).2.type = EEventType.INTERACTION ∧
    (recalculated (Scenario.env Real.sqrt) (Scenario.lateSim ℝ 9)).dt = Dbl.fin 2 ∧
    (newTop (Scenario.lateSim ℝ 9)).2.dt = Dbl.fin 1 ∧
    (recalculated (Scenario.env Real.sqrt) (Scenario.lateSim ℝ 9)).dt.gt
        (newTop (Scenario.lateSim ℝ 9)).2.dt = true ∧
    (runNextEvent (Scenario.env Real.sqrt) (Scenario.lateSim ℝ 9)).ran
        = [Executed.ofInteraction 0 1 ⟨Dbl.fin 2, EEventType.CORE, 0, 1, 0⟩] ∧
    (runNextEvent (Scenario.env Real.sqrt)
        (Scenario.lateSim ℝ 9)).sim.ptrScheduler._interactionRejectionCounter = 0 ∧
    (runNextEvent (Scenario.env Real.sqrt) (Scenario.lateSim ℝ 8)).ran = [] ∧
    (runNextEvent (Scenario.env Real.sqrt)
        (Scenario.lateSim ℝ 8)).sim.ptrScheduler._interactionRejectionCounter = 9 := by
  obtain ⟨d1, d2, d3, d4⟩ := Scenario.late_dispatch Real.sqrt Real.sqrt_one 9
  obtain ⟨o1, -, o3⟩ := Scenario.late_nine_outcome Real.sqrt Real.sqrt_one
  obtain ⟨r1, -, -, r4⟩ := Scenario.late_eight_outcome Real.sqrt Real.sqrt_one
  exact ⟨rfl, d1, d2, d3, d4, o1, o3, r1, r4⟩

/-- C8 fails on an overlapping approaching pair: the hard-sphere collision is
re-predicted at time `-1/2`, is executed, and moves the system time from 0 to
`-1/2`. -/
theorem runNextEvent_system_time_decreases :
    (runNextEvent (Scenario.env Real.sqrt) (Scenario.overlapSim ℝ)).ran
        = [Executed.ofInteraction 0 1 ⟨Dbl.fin (-1 / 2), EEventType.CORE, 0, 1, 0⟩] ∧
    (Scenario.overlapSim ℝ).systemTime = Dbl.fin 0 ∧
    (runNextEvent (Scenario.env Real.sqrt) (Scenario.overlapSim ℝ)).sim.systemTime
        = Dbl.fin (-1 / 2) ∧
    ¬ (Dbl.le (Scenario.overlapSim ℝ).systemTime
        (runNextEvent (Scenario.env Real.sqrt) (Scenario.overlapSim ℝ)).sim.systemTime
          = true) := by
  obtain ⟨h1, h2⟩ := Scenario.overlap_outcome Real.sqrt Real.sqrt_one
  refine ⟨h1, rfl, h2, ?_⟩
  rw [h2]
  simp only [Scenario.overlapSim, Scenario.sim, Dbl.le]
  norm_num

/-- C8 (amended), at the approaching pair: executed at `d = 2` from `t = 0`. -/
theorem runNextEvent_time_monotone_iff_witness :
    (runNextEvent (Scenario.env Real.sqrt) (Scenario.approachSim ℝ)).sim.systemTime
        = Dbl.fin (0 + 2) ∧
    (Dbl.le (Scenario.approachSim ℝ).systemTime
        (runNextEvent (Scenario.env Real.sqrt) (Scenario.approachSim ℝ)).sim.systemTime = true
      ↔ (0 : ℝ) ≤ 2) :=
  (runNextEvent_time_monotone_iff (Scenario.env Real.sqrt) (Scenario.approachSim ℝ) 0 rfl).1
    0 1 ⟨Dbl.fin 2, EEventType.CORE, 0, 1, 0⟩ 2
    (by rw [(Scenario.approach_outcome Real.sqrt Real.sqrt_one).1]; simp) rfl

/-- C9, at the approaching pair: one INTERACTION event is pushed into the PEL
of particle 0. -/
theorem addInteractionEvent_pushes_one_witness :
    (addInteractionEvent (Scenario.env Real.sqrt) (Scenario.approachSim ℝ) 0 1).ptrScheduler.sorter
        = (Scenario.approachSim ℝ).ptrScheduler.sorter.push
            (Event.ofIntEvent ((Scenario.env Real.sqrt).getEvent
                ((Scenario.env Real.sqrt).updateParticle (Scenario.approachSim ℝ).particles 1)
                0 1)
              ((Scenario.approachSim ℝ).ptrScheduler.eventCountAt 1)) 0 ∧
      (Event.ofIntEvent ((Scenario.env Real.sqrt).getEvent
          ((Scenario.env Real.sqrt).updateParticle (Scenario.approachSim ℝ).particles 1) 0 1)
        ((Scenario.approachSim ℝ).ptrScheduler.eventCountAt 1)).collCounter2
          = (Scenario.approachSim ℝ).ptrScheduler.eventCountAt 1 ∧
      (Event.ofIntEvent ((Scenario.env Real.sqrt).getEvent
          ((Scenario.env Real.sqrt).updateParticle (Scenario.approachSim ℝ).particles 1) 0 1)
        ((Scenario.approachSim ℝ).ptrScheduler.eventCountAt 1)).type
          = EEventType.INTERACTION :=
  (addInteractionEvent_pushes_one (Scenario.env Real.sqrt) (Scenario.approachSim ℝ) 0 1).2.1
    (by decide)
    (by
      rw [show Scenario.approachSim ℝ = Scenario.sim 0 1 3 _ from rfl,
        Scenario.approach_prediction Real.sqrt Real.sqrt_one]
      simp)

/-- C10, at particle 0 of the approaching pair. -/
theorem invalidateEvents_frame_witness :
    ((Scenario.approachSim ℝ).ptrScheduler.invalidateEvents 0).eventCountAt 0
      = (Scenario.approachSim ℝ).ptrScheduler.eventCountAt 0 + 1 ∧
    (∃ p, ((Scenario.approachSim ℝ).ptrScheduler.invalidateEvents 0).sorter.pels[0]? = some p ∧
      p.empty = true ∧ p.size = 0 ∧ p.top.type = EEventType.NONE ∧
      p.getdt = Dbl.HUGE_VAL) :=
  ⟨(invalidateEvents_frame (Scenario.approachSim ℝ).ptrScheduler 0
      (by simp [Scenario.approachSim, Scenario.sim, Scenario.sched])
      (by simp [Scenario.approachSim, Scenario.sim, Scenario.sched])).1,
   (invalidateEvents_frame (Scenario.approachSim ℝ).ptrScheduler 0
      (by simp [Scenario.approachSim, Scenario.sim, Scenario.sched])
      (by simp [Scenario.approachSim, Scenario.sim, Scenario.sched])).2.2.2.1⟩

end SchedulerTheorems

/-! ## The dynamics kernel: further theorems -/

section DynamicsMore

/-- C20: streaming by `dt1` and then by `dt2` gives the position of streaming
by `dt1 + dt2`, and streaming never changes the velocity (nor the identifier
or the peculiar time) (exact arithmetic). -/
theorem streamParticle_add {K : Type} [LinearOrderedField K] (p : CParticle K) (dt1 dt2 : K) :
    (CLNewton.streamParticle (CLNewton.streamParticle p dt1) dt2).pos
      = (CLNewton.streamParticle p (dt1 + dt2)).pos ∧
    (CLNewton.streamParticle p dt1).vel = p.vel ∧
    (CLNewton.streamParticle (CLNewton.streamParticle p dt1) dt2).vel = p.vel ∧
    CLNewton.streamParticle (CLNewton.streamParticle p dt1) dt2
      = CLNewton.streamParticle p (dt1 + dt2) := by
  have hpos : (CLNewton.streamParticle (CLNewton.streamParticle p dt1) dt2).pos
      = (CLNewton.streamParticle p (dt1 + dt2)).pos := by
    simp only [CLNewton.streamParticle, Vector.add, Vector.smul]
    ext <;> simp only [] <;> ring
  refine ⟨hpos, rfl, rfl, ?_⟩
  obtain ⟨pos, vel, id, t⟩ := p
  simp only [CLNewton.streamParticle] at hpos ⊢
  rw [hpos]

/-- C19: after `push(x)` on a PEL holding `e` the stored time is
`std::min(x.dt, e.dt)` and the stored event is `e` when `e.dt < x.dt` and `x`
otherwise (so `x` on a tie); when neither time is NaN the stored time is at
most both; a push onto a cleared PEL stores exactly `x`, and `size()` is then
1 unless `x` has type NONE. -/
theorem PELSingleEvent_push_min {K : Type} [LinearOrderedField K] (p : PELSingleEvent K)
    (x : Event K) :
    (p.push x).getdt = Dbl.min x.dt p.top.dt ∧
    (p.top.dt.lt x.dt = true → (p.push x).top = p.top) ∧
    (p.top.dt.lt x.dt = false → (p.push x).top = x) ∧
    (x.dt.isnan = false → p.top.dt.isnan = false →
      (p.push x).getdt.le x.dt = true ∧ (p.push x).getdt.le p.top.dt = true) ∧
    (p.clear.push x).top = x ∧
    ((p.clear.push x).size = if x.type = EEventType.NONE then 0 else 1) := by
  have hclear : (p.clear.push x).top = x := by
    simp only [PELSingleEvent.push, PELSingleEvent.clear, PELSingleEvent.top, Dbl.HUGE_VAL]
    cases x.dt <;> simp [Dbl.lt]
  refine ⟨?_, ?_, ?_, ?_, hclear, ?_⟩
  · simp only [PELSingleEvent.push, PELSingleEvent.getdt, PELSingleEvent.top, Dbl.min]
    split <;> rfl
  · intro h
    simp only [PELSingleEvent.top] at h
    simp [PELSingleEvent.push, PELSingleEvent.top, h]
  · intro h
    simp only [PELSingleEvent.top] at h
    simp [PELSingleEvent.push, PELSingleEvent.top, h]
  · intro hx he
    simp only [PELSingleEvent.push, PELSingleEvent.getdt, PELSingleEvent.top] at he ⊢
    by_cases hlt : p._event.dt.lt x.dt = true
    · rw [if_pos hlt]
      revert hlt hx he
      cases x.dt <;> cases p._event.dt <;> simp [Dbl.lt, Dbl.le, Dbl.isnan]
      intro h
      exact le_of_lt h
    · rw [if_neg hlt]
      revert hlt hx he
      cases x.dt <;> cases p._event.dt <;> simp [Dbl.lt, Dbl.le, Dbl.isnan]
  · have hs : (p.clear.push x).size = if (p.clear.push x).top.type ≠ EEventType.NONE then 1 else 0 :=
      rfl
    rw [hs, hclear]
    by_cases hn : x.type = EEventType.NONE <;> simp [hn]

/-- C19, at three pushes onto a PEL holding a LOCAL event: a sooner event
replaces the stored one, an event at the same time replaces it too, and a
later event is dropped. -/
theorem PELSingleEvent_push_min_witness :
    ((⟨⟨Dbl.fin 2, EEventType.LOCAL, 0, 0⟩⟩ : PELSingleEvent ℚ).push
        ⟨Dbl.fin 1, EEventType.INTERACTION, 1, 0⟩).top
      = ⟨Dbl.fin 1, EEventType.INTERACTION, 1, 0⟩ ∧
    ((⟨⟨Dbl.fin 1, EEventType.LOCAL, 0, 0⟩⟩ : PELSingleEvent ℚ).push
        ⟨Dbl.fin 1, EEventType.INTERACTION, 1, 0⟩).top
      = ⟨Dbl.fin 1, EEventType.INTERACTION, 1, 0⟩ ∧
    ((⟨⟨Dbl.fin 1, EEventType.LOCAL, 0, 0⟩⟩ : PELSingleEvent ℚ).push
        ⟨Dbl.fin 2, EEventType.INTERACTION, 1, 0⟩).top
      = ⟨Dbl.fin 1, EEventType.LOCAL, 0, 0⟩ :=
  ⟨(PELSingleEvent_push_min ⟨⟨Dbl.fin 2, EEventType.LOCAL, 0, 0⟩⟩
      ⟨Dbl.fin 1, EEventType.INTERACTION, 1, 0⟩).2.2.1 (by norm_num [PELSingleEvent.top, Dbl.lt]),
   (PELSingleEvent_push_min ⟨⟨Dbl.fin 1, EEventType.LOCAL, 0, 0⟩⟩
      ⟨Dbl.fin 1, EEventType.INTERACTION, 1, 0⟩).2.2.1 (by norm_num [PELSingleEvent.top, Dbl.lt]),
   (PELSingleEvent_push_min ⟨⟨Dbl.fin 1, EEventType.LOCAL, 0, 0⟩⟩
      ⟨Dbl.fin 2, EEventType.INTERACTION, 1, 0⟩).2.1 (by norm_num [PELSingleEvent.top, Dbl.lt])⟩

/-- C13, counterexample: a grazing pair (`r = (1,1,0)`, `v = (-1,0,0)`,
`d² = 1`, so `r·v = -1 < 0` and the discriminant is exactly `0`) is not
reported: `SphereSphereInRoot` returns false and leaves the datum alone. -/
theorem SphereSphereInRoot_grazing_false :
    (-1 : ℝ) < 0 ∧ (-1 : ℝ) * (-1) - 1 * (2 - 1) = 0 ∧
    CLNewton.SphereSphereInRoot Real.sqrt
        (⟨⟨1, 1, 0⟩, ⟨-1, 0, 0⟩, -1, 2, 1, Dbl.pinf⟩ : CPDData ℝ) 1
      = (false, ⟨⟨1, 1, 0⟩, ⟨-1, 0, 0⟩, -1, 2, 1, Dbl.pinf⟩) := by
  refine ⟨by norm_num, by norm_num, ?_⟩
  simp only [CLNewton.SphereSphereInRoot]
  norm_num

/-- C13, amended: `SphereSphereInRoot` returns true exactly when `r·v < 0` and
the discriminant `(r·v)² − v² (r² − d²)` is strictly positive; in every other
case, the grazing case of a zero discriminant included, it returns false and
leaves the datum unchanged. -/
theorem SphereSphereInRoot_true_iff {K : Type} [LinearOrderedField K] (sqrt : K → K)
    (dat : CPDData K) (d2 : K) :
    ((CLNewton.SphereSphereInRoot sqrt dat d2).1 = true ↔
      (dat.rvdot < 0 ∧ dat.rvdot * dat.rvdot - dat.v2 * (dat.r2 - d2) > 0)) ∧
    ((CLNewton.SphereSphereInRoot sqrt dat d2).1 = false →
      CLNewton.SphereSphereInRoot sqrt dat d2 = (false, dat)) := by
  simp only [CLNewton.SphereSphereInRoot]
  by_cases h1 : dat.rvdot < 0
  · by_cases h2 : dat.rvdot * dat.rvdot - dat.v2 * (dat.r2 - d2) > 0
    · simp [h1, h2]
    · simp [h1, h2]
  · simp [h1]

/-- C13, amended, at the approaching pair `r·v = −2`, `v² = 4`, `r² = 4`,
`d² = 1`, where the flag is true. -/
theorem SphereSphereInRoot_true_iff_witness :
    (CLNewton.SphereSphereInRoot Real.sqrt
        (⟨⟨2, 0, 0⟩, ⟨-1, 0, 0⟩, -2, 4, 1, Dbl.pinf⟩ : CPDData ℝ) 1).1 = true :=
  (SphereSphereInRoot_true_iff Real.sqrt
      (⟨⟨2, 0, 0⟩, ⟨-1, 0, 0⟩, -2, 4, 1, Dbl.pinf⟩ : CPDData ℝ) 1).1.mpr
    ⟨by norm_num, by norm_num⟩

/-- C14: at exact contact `r² = d²` with `r·v < 0` the divisor `r·v − √Δ` is
negative, `SphereSphereInRoot` returns true with `dt = 0`, and
`CIHardSphere::getCollision` on a pair whose wrapped separation is at contact
and approaching returns a CORE event with `dt = 0` (real arithmetic). -/
theorem SphereSphereInRoot_contact (dat : CPDData ℝ) (d2 : ℝ)
    (hcontact : dat.r2 = d2) (hrv : dat.rvdot < 0) :
    dat.rvdot - Real.sqrt (dat.rvdot * dat.rvdot - dat.v2 * (dat.r2 - d2)) < 0 ∧
    CLNewton.SphereSphereInRoot Real.sqrt dat d2 = (true, { dat with dt := Dbl.fin 0 }) ∧
    ∀ (self : CIHardSphere ℝ) (bc : BC ℝ) (systemTime : ℝ) (p1 p2 : CParticle ℝ),
      self.d2 = d2 →
      CPDData.ofPair bc (CLNewton.updateParticle systemTime p1)
        (CLNewton.updateParticle systemTime p2) = dat →
      self.getCollision Real.sqrt bc systemTime p1 p2
        = { dt := Dbl.fin 0, type := EEventType.CORE, particle1ID := p1.ID,
            particle2ID := p2.ID, interactionID := self.ID } := by
  have harg : dat.rvdot * dat.rvdot - dat.v2 * (dat.r2 - d2) > 0 := by
    rw [hcontact, sub_self, mul_zero, sub_zero]
    exact mul_pos_of_neg_of_neg hrv hrv
  have hden : dat.rvdot - Real.sqrt (dat.rvdot * dat.rvdot - dat.v2 * (dat.r2 - d2)) < 0 := by
    have := Real.sqrt_nonneg (dat.rvdot * dat.rvdot - dat.v2 * (dat.r2 - d2))
    linarith
  have hroot : CLNewton.SphereSphereInRoot Real.sqrt dat d2
      = (true, { dat with dt := Dbl.fin 0 }) := by
    simp only [CLNewton.SphereSphereInRoot]
    rw [if_pos hrv, if_pos harg]
    rw [hcontact, sub_self, zero_div]
  refine ⟨hden, hroot, ?_⟩
  intro self bc systemTime p1 p2 hd hdat
  simp only [CIHardSphere.getCollision]
  rw [hd, hdat, hroot]
  rfl

/-- C14, at the pair of unit spheres one diameter apart, the first moving
towards the second. -/
theorem SphereSphereInRoot_contact_witness :
    CLNewton.SphereSphereInRoot Real.sqrt
        (⟨⟨-1, 0, 0⟩, ⟨1, 0, 0⟩, -1, 1, 1, Dbl.pinf⟩ : CPDData ℝ) 1
      = (true, ⟨⟨-1, 0, 0⟩, ⟨1, 0, 0⟩, -1, 1, 1, Dbl.fin 0⟩) :=
  (SphereSphereInRoot_contact ⟨⟨-1, 0, 0⟩, ⟨1, 0, 0⟩, -1, 1, 1, Dbl.pinf⟩ 1
    rfl (by norm_num)).2.1

/-- The larger root of `a t² + 2 b t + c` for `a > 0` and `c ≤ 0`. -/
theorem larger_root (a b c : ℝ) (ha : 0 < a) (hc : c ≤ 0) :
    0 ≤ (Real.sqrt (b ^ 2 - a * c) - b) / a ∧
    a * ((Real.sqrt (b ^ 2 - a * c) - b) / a) ^ 2
      + 2 * b * ((Real.sqrt (b ^ 2 - a * c) - b) / a) + c = 0 ∧
    ∀ s : ℝ, a * s ^ 2 + 2 * b * s + c = 0 → s ≤ (Real.sqrt (b ^ 2 - a * c) - b) / a := by
  have hac : a * c ≤ 0 := mul_nonpos_of_nonneg_of_nonpos ha.le hc
  have harg : 0 ≤ b ^ 2 - a * c := by nlinarith [sq_nonneg b]
  have hSS : Real.sqrt (b ^ 2 - a * c) * Real.sqrt (b ^ 2 - a * c) = b ^ 2 - a * c :=
    Real.mul_self_sqrt harg
  have hS0 : 0 ≤ Real.sqrt (b ^ 2 - a * c) := Real.sqrt_nonneg _
  generalize Real.sqrt (b ^ 2 - a * c) = S at hSS hS0 ⊢
  have hSb : b ≤ S := by
    by_contra h
    push_neg at h
    nlinarith
  have ha0 : a ≠ 0 := ne_of_gt ha
  refine ⟨div_nonneg (by linarith) ha.le, ?_, ?_⟩
  · field_simp
    linear_combination a ^ 2 * hSS
  · intro s hs
    rw [le_div_iff₀ ha]
    have h3 : (a * s + b) ^ 2 = S ^ 2 := by linear_combination a * hs - hSS
    rcases sq_eq_sq_iff_eq_or_eq_neg.mp h3 with h | h
    · linarith
    · linarith

/-- C15: for a pair datum with `r² ≤ d²` and `v² > 0`, `SphereSphereOutRoot`
returns true with `dt = (√Δ − r·v)/v²`; this `dt` is non-negative, is a root of
`v² t² + 2 (r·v) t + (r² − d²)`, is at least every other root, and when the
datum holds the dot products of its two vectors `|r + v·dt|² = d²` (real
arithmetic). -/
theorem SphereSphereOutRoot_exit (dat : CPDData ℝ) (d2 : ℝ)
    (hin : dat.r2 ≤ d2) (hv : dat.v2 > 0) :
    ∃ t : ℝ,
      t = (Real.sqrt (dat.rvdot ^ 2 - dat.v2 * (dat.r2 - d2)) - dat.rvdot) / dat.v2 ∧
      CLNewton.SphereSphereOutRoot Real.sqrt dat d2 = (true, { dat with dt := Dbl.fin t }) ∧
      0 ≤ t ∧
      dat.v2 * t ^ 2 + 2 * dat.rvdot * t + (dat.r2 - d2) = 0 ∧
      (∀ s : ℝ, dat.v2 * s ^ 2 + 2 * dat.rvdot * s + (dat.r2 - d2) = 0 → s ≤ t) ∧
      (dat.r2 = dat.rij.square → dat.v2 = dat.vij.square → dat.rvdot = dat.rij.dot dat.vij →
        (dat.rij.add (dat.vij.smul t)).square = d2) := by
  have hsq : dat.rvdot * dat.rvdot = dat.rvdot ^ 2 := by ring
  obtain ⟨h0, hroot, hmax⟩ :=
    larger_root dat.v2 dat.rvdot (dat.r2 - d2) hv (by linarith)
  refine ⟨_, rfl, ?_, h0, hroot, hmax, ?_⟩
  · simp only [CLNewton.SphereSphereOutRoot, hsq]
  · intro h1 h2 h3
    generalize (Real.sqrt (dat.rvdot ^ 2 - dat.v2 * (dat.r2 - d2)) - dat.rvdot) / dat.v2 = t
      at hroot ⊢
    have e : (dat.rij.add (dat.vij.smul t)).square
        = dat.vij.square * t ^ 2 + 2 * (dat.rij.dot dat.vij) * t + dat.rij.square := by
      simp only [Vector.square, Vector.dot, Vector.add, Vector.smul]
      ring
    rw [e, ← h2, ← h1, ← h3]
    linear_combination hroot

/-- C15, at a pair inside the well: `r = (1,0,0)`, `v = (1,0,0)`, `d² = 4`;
the exit time is `1`. -/
theorem SphereSphereOutRoot_exit_witness :
    ∃ t : ℝ,
      t = (Real.sqrt ((1 : ℝ) ^ 2 - 1 * (1 - 4)) - 1) / 1 ∧
      CLNewton.SphereSphereOutRoot Real.sqrt
          (⟨⟨1, 0, 0⟩, ⟨1, 0, 0⟩, 1, 1, 1, Dbl.pinf⟩ : CPDData ℝ) 4
        = (true, ⟨⟨1, 0, 0⟩, ⟨1, 0, 0⟩, 1, 1, 1, Dbl.fin t⟩) ∧
      0 ≤ t ∧
      (1 : ℝ) * t ^ 2 + 2 * 1 * t + (1 - 4) = 0 ∧
      (∀ s : ℝ, (1 : ℝ) * s ^ 2 + 2 * 1 * s + (1 - 4) = 0 → s ≤ t) ∧
      ((1 : ℝ) = (⟨1, 0, 0⟩ : Vector ℝ).square → (1 : ℝ) = (⟨1, 0, 0⟩ : Vector ℝ).square →
        (1 : ℝ) = (⟨1, 0, 0⟩ : Vector ℝ).dot ⟨1, 0, 0⟩ →
        ((⟨1, 0, 0⟩ : Vector ℝ).add ((⟨1, 0, 0⟩ : Vector ℝ).smul t)).square = 4) :=
  SphereSphereOutRoot_exit ⟨⟨1, 0, 0⟩, ⟨1, 0, 0⟩, 1, 1, 1, Dbl.pinf⟩ 4
    (by norm_num) (by norm_num)

/-- C17: two unit spheres (`d² = 1`, unit masses) at `x = −2` and `x = +2`
moving at `+1` and `−1`: `SphereSphereInRoot` and `getCollision` predict
`dt = 3/2`; streamed by `3/2` the spheres are one diameter apart, and
`SmoothSpheresColl` with `e = 1` leaves them with velocities `−1` and `+1`
(also when the streaming is left to `updateParticle` at system time `3/2`);
the total kinetic energy is `1` before and after (real arithmetic). -/
theorem head_on_collision :
    (CLNewton.SphereSphereInRoot Real.sqrt
        (CPDData.ofPair BC.none (⟨⟨-2, 0, 0⟩, ⟨1, 0, 0⟩, 0, 0⟩ : CParticle ℝ)
          ⟨⟨2, 0, 0⟩, ⟨-1, 0, 0⟩, 1, 0⟩) 1).1 = true ∧
    (CLNewton.SphereSphereInRoot Real.sqrt
        (CPDData.ofPair BC.none (⟨⟨-2, 0, 0⟩, ⟨1, 0, 0⟩, 0, 0⟩ : CParticle ℝ)
          ⟨⟨2, 0, 0⟩, ⟨-1, 0, 0⟩, 1, 0⟩) 1).2.dt = Dbl.fin (3 / 2) ∧
    (Scenario.hs : CIHardSphere ℝ).getCollision Real.sqrt BC.none 0
        ⟨⟨-2, 0, 0⟩, ⟨1, 0, 0⟩, 0, 0⟩ ⟨⟨2, 0, 0⟩, ⟨-1, 0, 0⟩, 1, 0⟩
      = ⟨Dbl.fin (3 / 2), EEventType.CORE, 0, 1, 0⟩ ∧
    CLNewton.streamParticle (⟨⟨-2, 0, 0⟩, ⟨1, 0, 0⟩, 0, 0⟩ : CParticle ℝ) (3 / 2)
      = ⟨⟨-1 / 2, 0, 0⟩, ⟨1, 0, 0⟩, 0, 0⟩ ∧
    CLNewton.streamParticle (⟨⟨2, 0, 0⟩, ⟨-1, 0, 0⟩, 1, 0⟩ : CParticle ℝ) (3 / 2)
      = ⟨⟨1 / 2, 0, 0⟩, ⟨-1, 0, 0⟩, 1, 0⟩ ∧
    (CLNewton.SmoothSpheresColl BC.none 0
        (CLNewton.streamParticle (⟨⟨-2, 0, 0⟩, ⟨1, 0, 0⟩, 0, 0⟩ : CParticle ℝ) (3 / 2))
        (CLNewton.streamParticle ⟨⟨2, 0, 0⟩, ⟨-1, 0, 0⟩, 1, 0⟩ (3 / 2))
        1 1 1 1 EEventType.CORE).2
      = (⟨⟨-1 / 2, 0, 0⟩, ⟨-1, 0, 0⟩, 0, 0⟩, ⟨⟨1 / 2, 0, 0⟩, ⟨1, 0, 0⟩, 1, 0⟩) ∧
    (CLNewton.SmoothSpheresColl BC.none (3 / 2)
        (⟨⟨-2, 0, 0⟩, ⟨1, 0, 0⟩, 0, 0⟩ : CParticle ℝ) ⟨⟨2, 0, 0⟩, ⟨-1, 0, 0⟩, 1, 0⟩
        1 1 1 1 EEventType.CORE).2
      = (⟨⟨-1 / 2, 0, 0⟩, ⟨-1, 0, 0⟩, 0, 3 / 2⟩, ⟨⟨1 / 2, 0, 0⟩, ⟨1, 0, 0⟩, 1, 3 / 2⟩) ∧
    pairKE 1 1 (⟨⟨-2, 0, 0⟩, ⟨1, 0, 0⟩, 0, 0⟩ : CParticle ℝ) ⟨⟨2, 0, 0⟩, ⟨-1, 0, 0⟩, 1, 0⟩ = 1 ∧
    pairKE 1 1 (⟨⟨-1 / 2, 0, 0⟩, ⟨-1, 0, 0⟩, 0, 0⟩ : CParticle ℝ)
      ⟨⟨1 / 2, 0, 0⟩, ⟨1, 0, 0⟩, 1, 0⟩ = 1 := by
  have h4 : Real.sqrt 4 = 2 := by
    rw [show (4 : ℝ) = 2 ^ 2 by norm_num]
    exact Real.sqrt_sq (by norm_num)
  have hroot : CLNewton.SphereSphereInRoot Real.sqrt
      (CPDData.ofPair BC.none (⟨⟨-2, 0, 0⟩, ⟨1, 0, 0⟩, 0, 0⟩ : CParticle ℝ)
        ⟨⟨2, 0, 0⟩, ⟨-1, 0, 0⟩, 1, 0⟩) 1
      = (true, ⟨⟨-4, 0, 0⟩, ⟨2, 0, 0⟩, -8, 16, 4, Dbl.fin (3 / 2)⟩) := by
    simp only [CLNewton.SphereSphereInRoot, CPDData.ofPair, BC.none, Vector.sub, Vector.dot,
      Vector.square]
    norm_num [h4]
  refine ⟨by rw [hroot], by rw [hroot], ?_, ?_, ?_, ?_, ?_, ?_, ?_⟩
  · have hu1 : CLNewton.updateParticle 0 (⟨⟨-2, 0, 0⟩, ⟨1, 0, 0⟩, 0, 0⟩ : CParticle ℝ)
        = ⟨⟨-2, 0, 0⟩, ⟨1, 0, 0⟩, 0, 0⟩ := by
      simp [CLNewton.updateParticle, CLNewton.streamParticle, Vector.add, Vector.smul]
    have hu2 : CLNewton.updateParticle 0 (⟨⟨2, 0, 0⟩, ⟨-1, 0, 0⟩, 1, 0⟩ : CParticle ℝ)
        = ⟨⟨2, 0, 0⟩, ⟨-1, 0, 0⟩, 1, 0⟩ := by
      simp [CLNewton.updateParticle, CLNewton.streamParticle, Vector.add, Vector.smul]
    simp only [CIHardSphere.getCollision, hu1, hu2, Scenario.hs, hroot]
    rfl
  · simp only [CLNewton.streamParticle, Vector.add, Vector.smul]
    norm_num
  · simp only [CLNewton.streamParticle, Vector.add, Vector.smul]
    norm_num
  · simp only [CLNewton.SmoothSpheresColl, CLNewton.updateParticle, CLNewton.streamParticle,
      CLNewton.C2ParticleData.mk0, BC.none, Vector.add, Vector.sub, Vector.smul, Vector.sdiv,
      Vector.dot, Vector.square]
    norm_num
  · simp only [CLNewton.SmoothSpheresColl, CLNewton.updateParticle, CLNewton.streamParticle,
      CLNewton.C2ParticleData.mk0, BC.none, Vector.add, Vector.sub, Vector.smul, Vector.sdiv,
      Vector.dot, Vector.square]
    norm_num
  · norm_num [pairKE, Vector.square, Vector.dot]
  · norm_num [pairKE, Vector.square, Vector.dot]

/-- C16, failing input: a dimer of two unit masses moving at `+1` hits a single
unit mass at rest (no boundary wrap, every particle up to date).  The total
momentum of the two ranges is `(2, 0, 0)` before `multibdyCollision` and
`(2/3, 0, 0)` after it; the velocities afterwards are `−1/3`, `−1/3` and
`4/3`. -/
theorem multibdyCollision_changes_momentum :
    rangeMomentum (fun _ => (1 : ℝ)) (Scenario.dimerAndMonomer ℝ) [0, 1, 2] = ⟨2, 0, 0⟩ ∧
    CLNewton.multibdyCollision BC.none 0 (fun _ => (1 : ℝ)) (Scenario.dimerAndMonomer ℝ)
        [0, 1] [2]
      = [⟨⟨0, 0, 0⟩, ⟨-1 / 3, 0, 0⟩, 0, 0⟩, ⟨⟨0, 1, 0⟩, ⟨-1 / 3, 0, 0⟩, 1, 0⟩,
          ⟨⟨2, 1 / 2, 0⟩, ⟨4 / 3, 0, 0⟩, 2, 0⟩] ∧
    rangeMomentum (fun _ => (1 : ℝ))
        (CLNewton.multibdyCollision BC.none 0 (fun _ => (1 : ℝ)) (Scenario.dimerAndMonomer ℝ)
          [0, 1] [2]) [0, 1, 2] = ⟨2 / 3, 0, 0⟩ := by
  have hcoll : CLNewton.multibdyCollision BC.none 0 (fun _ => (1 : ℝ))
      (Scenario.dimerAndMonomer ℝ) [0, 1] [2]
      = [⟨⟨0, 0, 0⟩, ⟨-1 / 3, 0, 0⟩, 0, 0⟩, ⟨⟨0, 1, 0⟩, ⟨-1 / 3, 0, 0⟩, 1, 0⟩,
          ⟨⟨2, 1 / 2, 0⟩, ⟨4 / 3, 0, 0⟩, 2, 0⟩] := by
    simp only [CLNewton.multibdyCollision, CLNewton.multibdyGather, Scenario.dimerAndMonomer,
      CLNewton.updateParticle, CLNewton.streamParticle, BC.none, List.foldl_cons,
      List.foldl_nil, List.modify, List.modifyTailIdx, List.modifyHead,
      Vector.add, Vector.sub, Vector.smul, Vector.sdiv, Vector.dot, Vector.square]
    norm_num
  refine ⟨?_, hcoll, ?_⟩
  · simp only [rangeMomentum, Scenario.dimerAndMonomer, List.foldl_cons, List.foldl_nil,
      Vector.add, Vector.smul]
    norm_num
  · rw [hcoll]
    simp only [rangeMomentum, List.foldl_cons, List.foldl_nil, Vector.add, Vector.smul]
    norm_num

end DynamicsMore

section SchedulerFailures

open Scheduler

/-- C11: when the event `runNextEvent` dispatches on (the top of the FEL after
`sort` and `lazyDeletionCleanup`) has kind NONE, `runNextEvent` throws, calls
no `runEvent`, and leaves the simulation as the cleanup left it, so the system
time is the one before the call. -/
theorem runNextEvent_NONE_raises {K σ δ : Type} [LinearOrderedField K]
    (env : Plugins K σ δ) (sim : Simulation K σ)
    (h : (dispatched sim).2.type = EEventType.NONE) :
    (runNextEvent env sim).threw = some "A NONE event has reached the top of the queue." ∧
    (runNextEvent env sim).ran = [] ∧
    (runNextEvent env sim).sim = opened sim ∧
    (runNextEvent env sim).sim.systemTime = sim.systemTime := by
  have e : runNextEvent env sim
      = ⟨opened sim, [], some "A NONE event has reached the top of the queue."⟩ := by
    simp only [dispatched] at h
    simp only [runNextEvent, h]
  rw [e]
  exact ⟨rfl, rfl, rfl, rfl⟩

/-- C11, at two spheres at rest whose PELs are all empty. -/
theorem runNextEvent_NONE_raises_witness :
    (runNextEvent (Scenario.env Real.sqrt) (Scenario.emptySim ℝ)).threw
        = some "A NONE event has reached the top of the queue." ∧
    (runNextEvent (Scenario.env Real.sqrt) (Scenario.emptySim ℝ)).ran = [] ∧
    (runNextEvent (Scenario.env Real.sqrt) (Scenario.emptySim ℝ)).sim
        = opened (Scenario.emptySim ℝ) ∧
    (runNextEvent (Scenario.env Real.sqrt) (Scenario.emptySim ℝ)).sim.systemTime
        = (Scenario.emptySim ℝ).systemTime :=
  runNextEvent_NONE_raises (Scenario.env Real.sqrt) (Scenario.emptySim ℝ)
    (by
      rw [show Scenario.emptySim ℝ = Scenario.sim 0 0 3 _ from rfl,
        Scenario.sched_dispatched 0 0 3 _ _ _ _ (by simp [Dbl.lt, Dbl.HUGE_VAL])
          (Or.inl (by simp))])

/-- C12 fails for RECALCULATE: with a RECALCULATE event of time `+∞` at the
top of the FEL, `runNextEvent` does not throw; it runs `fullUpdate` on the
owner and returns. -/
theorem runNextEvent_infinite_RECALCULATE_returns :
    (dispatched (Scenario.infiniteSim ℝ EEventType.RECALCULATE)).2.type
        = EEventType.RECALCULATE ∧
    (dispatched (Scenario.infiniteSim ℝ EEventType.RECALCULATE)).2.dt = Dbl.pinf ∧
    (runNextEvent (Scenario.env Real.sqrt)
        (Scenario.infiniteSim ℝ EEventType.RECALCULATE)).threw = none ∧
    (runNextEvent (Scenario.env Real.sqrt) (Scenario.infiniteSim ℝ EEventType.RECALCULATE))
      = ⟨fullUpdate (Scenario.env Real.sqrt)
          (Scenario.infiniteSim ℝ EEventType.RECALCULATE) 0, [], none⟩ := by
  have hd : dispatched (Scenario.infiniteSim ℝ EEventType.RECALCULATE)
      = (0, ⟨Dbl.HUGE_VAL, EEventType.RECALCULATE, 1, 0⟩) :=
    Scenario.sched_dispatched 0 1 3 _ _ _ _ (by simp [Dbl.lt, Dbl.HUGE_VAL]) (Or.inl (by simp))
  have ho : opened (Scenario.infiniteSim ℝ EEventType.RECALCULATE)
      = Scenario.infiniteSim ℝ EEventType.RECALCULATE :=
    Scenario.sched_opened 0 1 3 _ _ _ _ (by simp [Dbl.lt, Dbl.HUGE_VAL]) (Or.inl (by simp))
  have e : runNextEvent (Scenario.env Real.sqrt) (Scenario.infiniteSim ℝ EEventType.RECALCULATE)
      = ⟨fullUpdate (Scenario.env Real.sqrt)
          (Scenario.infiniteSim ℝ EEventType.RECALCULATE) 0, [], none⟩ := by
    have hd' := hd
    simp only [dispatched] at hd'
    rw [ho] at hd'
    simp only [runNextEvent, ho, hd']
  refine ⟨by rw [hd], by rw [hd]; rfl, by rw [e], e⟩

/-- C12, amended: when the event `runNextEvent` dispatches on is not a
RECALCULATE and its stored time is NaN or `+∞`, `runNextEvent` throws before
any `runEvent` call and leaves the simulation as the opening cleanup left it:
the event is still the top of the FEL and the system time is unchanged.  A
RECALCULATE event is never tested: whatever its time, `runNextEvent` returns
normally after `fullUpdate` of the owner, with no event executed and the
system time unchanged. -/
theorem runNextEvent_nonfinite_raises {K σ δ : Type} [LinearOrderedField K]
    (env : Plugins K σ δ) (sim : Simulation K σ) :
    ((dispatched sim).2.type ≠ EEventType.RECALCULATE →
      ((dispatched sim).2.dt = Dbl.nan ∨ (dispatched sim).2.dt = Dbl.pinf) →
      (runNextEvent env sim).threw.isSome = true ∧
      (runNextEvent env sim).ran = [] ∧
      (runNextEvent env sim).sim = opened sim ∧
      (runNextEvent env sim).sim.ptrScheduler.sorter.next = dispatched sim ∧
      (runNextEvent env sim).sim.systemTime = sim.systemTime) ∧
    ((dispatched sim).2.type = EEventType.RECALCULATE →
      (runNextEvent env sim).threw = none ∧
      (runNextEvent env sim).ran = [] ∧
      (runNextEvent env sim).sim = fullUpdate env (opened sim) (dispatched sim).1 ∧
      (runNextEvent env sim).sim.systemTime = sim.systemTime) := by
  constructor
  · intro htype hdt
    have key : (runNextEvent env sim).threw.isSome = true ∧
        (runNextEvent env sim).ran = [] ∧ (runNextEvent env sim).sim = opened sim := by
      simp only [dispatched] at htype hdt
      simp only [runNextEvent]
      generalize (opened sim).ptrScheduler.sorter.next = top at htype hdt ⊢
      obtain ⟨owner, dt, type, p2, cc⟩ := top
      simp only at htype hdt
      cases type <;>
        rcases hdt with hdt | hdt <;> subst hdt <;>
        simp [runNextEvent_INTERACTION, runNextEvent_GLOBAL, runNextEvent_LOCAL,
          runNextEvent_SYSTEM, Dbl.isfinite, Dbl.isnan, Dbl.HUGE_VAL] at htype ⊢
    refine ⟨key.1, key.2.1, key.2.2, ?_, ?_⟩
    · rw [key.2.2]; rfl
    · rw [key.2.2]; rfl
  · intro htype
    have e : runNextEvent env sim
        = ⟨fullUpdate env (opened sim) (dispatched sim).1, [], none⟩ := by
      simp only [dispatched] at htype
      simp only [runNextEvent, dispatched, htype]
    rw [e]
    exact ⟨rfl, rfl, rfl, (fullUpdate_sameClocks env (opened sim) (dispatched sim).1).1⟩

/-- C12, amended, at the approaching pair whose PEL holds an INTERACTION event
with the time `+∞`. -/
theorem runNextEvent_nonfinite_raises_witness :
    (runNextEvent (Scenario.env Real.sqrt)
        (Scenario.infiniteSim ℝ EEventType.INTERACTION)).threw.isSome = true ∧
    (runNextEvent (Scenario.env Real.sqrt)
        (Scenario.infiniteSim ℝ EEventType.INTERACTION)).ran = [] ∧
    (runNextEvent (Scenario.env Real.sqrt) (Scenario.infiniteSim ℝ EEventType.INTERACTION)).sim
        = opened (Scenario.infiniteSim ℝ EEventType.INTERACTION) ∧
    (runNextEvent (Scenario.env Real.sqrt)
        (Scenario.infiniteSim ℝ EEventType.INTERACTION)).sim.ptrScheduler.sorter.next
        = dispatched (Scenario.infiniteSim ℝ EEventType.INTERACTION) ∧
    (runNextEvent (Scenario.env Real.sqrt)
        (Scenario.infiniteSim ℝ EEventType.INTERACTION)).sim.systemTime
        = (Scenario.infiniteSim ℝ EEventType.INTERACTION).systemTime :=
  (runNextEvent_nonfinite_raises (Scenario.env Real.sqrt)
      (Scenario.infiniteSim ℝ EEventType.INTERACTION)).1
    (by
      rw [show Scenario.infiniteSim ℝ EEventType.INTERACTION = Scenario.sim 0 1 3 _ from rfl,
        Scenario.sched_dispatched 0 1 3 _ _ _ _ (by simp [Dbl.lt, Dbl.HUGE_VAL])
          (Or.inr (by simp [Scenario.sched]))]
      simp)
    (by
      rw [show Scenario.infiniteSim ℝ EEventType.INTERACTION = Scenario.sim 0 1 3 _ from rfl,
        Scenario.sched_dispatched 0 1 3 _ _ _ _ (by simp [Dbl.lt, Dbl.HUGE_VAL])
          (Or.inr (by simp [Scenario.sched]))]
      exact Or.inr rfl)

end SchedulerFailures

/-! ## The scheduler: an executed interaction -/

namespace Scheduler

variable {K σ δ : Type} [LinearOrderedField K]

/-- The run of `runNextEvent` that executes an INTERACTION event: the top is a
current INTERACTION of `p1` with `p2` at a finite time, the top after the pop
is not a stale INTERACTION and has a finite time, and the re-predicted event
`ev` is not NONE and not later than it. -/
theorem runNextEvent_executes_interaction (env : Plugins K σ δ) (sim : Simulation K σ)
    (p1 p2 cc : Nat) (d : K) (ev : IntEvent K) (data : δ) (parts : σ)
    (hns : ¬ staleTop sim.ptrScheduler)
    (htop : sim.ptrScheduler.sorter.next = (p1, ⟨Dbl.fin d, EEventType.INTERACTION, p2, cc⟩))
    (hns2 : ¬ staleTop { sim.ptrScheduler with sorter := sim.ptrScheduler.sorter.popNextEvent })
    (hev : env.getEvent (env.updateParticlePair sim.particles p1 p2) p1 p2 = ev)
    (hty : ev.type ≠ EEventType.NONE)
    (hgt : ev.dt.gt sim.ptrScheduler.sorter.popNextEvent.next.2.dt = false)
    (hfin : sim.ptrScheduler.sorter.popNextEvent.next.2.dt.isfinite = true)
    (hrun : env.runEvent ev.interactionID p1 p2 ev
      (env.stream (env.updateParticlePair sim.particles p1 p2) ev.dt) = some (data, parts)) :
    runNextEvent env sim
      = ⟨{ fullUpdatePair env
            ⟨env._sigParticleUpdate data parts, sim.systemTime.add ev.dt,
              Scheduler.stream { sim.ptrScheduler with
                sorter := sim.ptrScheduler.sorter.popNextEvent
                _interactionRejectionCounter := 0 } ev.dt⟩ p1 p2 with
          particles := env.outputPlugins.foldl (fun st Ptr => Ptr ev data st)
            (fullUpdatePair env
              ⟨env._sigParticleUpdate data parts, sim.systemTime.add ev.dt,
                Scheduler.stream { sim.ptrScheduler with
                  sorter := sim.ptrScheduler.sorter.popNextEvent
                  _interactionRejectionCounter := 0 } ev.dt⟩ p1 p2).particles },
        [Executed.ofInteraction p1 p2 ev], none⟩ := by
  have hop : opened sim = sim := by
    have h' : ¬ staleTop { sim.ptrScheduler with sorter := sim.ptrScheduler.sorter.sort } := hns
    simp only [opened]
    rw [lazyDeletionCleanup_of_not_stale _ h']
    rfl
  have hd : dispatched sim = (p1, ⟨Dbl.fin d, EEventType.INTERACTION, p2, cc⟩) := by
    rw [dispatched, hop, htop]
  have hready : sim.ptrScheduler.readyNextEvent p1
      = { sim.ptrScheduler with sorter := sim.ptrScheduler.sorter.popNextEvent } := by
    have h' : ¬ staleTop { sim.ptrScheduler with
        sorter := ((sim.ptrScheduler.sorter.popNextEvent).update p1).sort } := hns2
    rw [readyNextEvent, lazyDeletionCleanup_of_not_stale _ h']
    rfl
  rw [runNextEvent_of_INTERACTION env sim (by rw [hd]), hop, hd]
  have hf1 : (Dbl.fin d : Dbl K).isfinite = true := rfl
  simp only [runNextEvent_INTERACTION, hf1, Bool.not_true, Bool.false_eq_true,
    if_false, hready, hev, interactionRejected, if_neg hty, hgt, hfin, hrun]

end Scheduler

/-! ## Newton's cradle: lemmas -/

namespace Scenario

open Scheduler

variable {K : Type} [LinearOrderedField K]

theorem cradle_updateParticle (sqrt : K → K) (v0 v1 v2 v3 : K) (id : Nat) :
    (env sqrt).updateParticle (cradleParts v0 v1 v2 v3) id = cradleParts v0 v1 v2 v3 := by
  have hu : ∀ p : CParticle K, p.pecTime = 0 → CLNewton.updateParticle 0 p = p := by
    intro p hp
    obtain ⟨⟨x, y, z⟩, ⟨a, b, c⟩, i, t⟩ := p
    simp only at hp
    subst hp
    simp [CLNewton.updateParticle, CLNewton.streamParticle, Vector.add, Vector.smul]
  simp only [env, HardSphereSim.plugins, cradleParts]
  rcases id with _ | _ | _ | _ | id <;>
    simp [List.modify_succ_cons, List.modify_zero_cons, hu]

theorem cradle_updateParticlePair (sqrt : K → K) (v0 v1 v2 v3 : K) (p1 p2 : Nat) :
    (env sqrt).updateParticlePair (cradleParts v0 v1 v2 v3) p1 p2 = cradleParts v0 v1 v2 v3 := by
  have h1 := cradle_updateParticle sqrt v0 v1 v2 v3 p1
  have h2 := cradle_updateParticle sqrt v0 v1 v2 v3 p2
  simp only [env, HardSphereSim.plugins, cradleParts] at h1 h2 ⊢
  simp only [HardSphereSim.mk.injEq, and_true] at h1 h2 ⊢
  rw [h1, h2]

/-- The hard-sphere prediction for two up-to-date spheres on the `x` axis. -/
theorem getCollision_line (sqrt : K → K) (xa va xb vb : K) (ia ib : Nat) :
    (hs : CIHardSphere K).getCollision sqrt BC.none 0
        ⟨⟨xa, 0, 0⟩, ⟨va, 0, 0⟩, ia, 0⟩ ⟨⟨xb, 0, 0⟩, ⟨vb, 0, 0⟩, ib, 0⟩
      = if (xa - xb) * (va - vb) < 0 ∧
            (xa - xb) * (va - vb) * ((xa - xb) * (va - vb))
              - (va - vb) * (va - vb) * ((xa - xb) * (xa - xb) - 1) > 0 then
          { dt := Dbl.fin ((1 - (xa - xb) * (xa - xb)) /
              ((xa - xb) * (va - vb) - sqrt ((xa - xb) * (va - vb) * ((xa - xb) * (va - vb))
                - (va - vb) * (va - vb) * ((xa - xb) * (xa - xb) - 1)))),
            type := EEventType.CORE, particle1ID := ia, particle2ID := ib, interactionID := 0 }
        else
          { dt := Dbl.HUGE_VAL, type := EEventType.NONE, particle1ID := ia, particle2ID := ib,
            interactionID := 0 } := by
  simp only [CIHardSphere.getCollision,
    CLNewton.SphereSphereInRoot, CPDData.ofPair, BC.none, CLNewton.updateParticle,
    CLNewton.streamParticle, hs, Vector.add, Vector.sub, Vector.smul, Vector.dot, Vector.square]
  simp only [sub_self, mul_zero, add_zero, sub_zero, zero_mul]
  by_cases h1 : (xa - xb) * (va - vb) < 0
  · by_cases h2 : (xa - xb) * (va - vb) * ((xa - xb) * (va - vb))
        - (va - vb) * (va - vb) * ((xa - xb) * (xa - xb) - 1) > 0
    · simp [h1, h2]
    · simp [h1, h2]
  · simp [h1]

theorem addInteractionEvent_cradle (sqrt : K → K) (v0 v1 v2 v3 : K) (s : Scheduler K)
    (part id : Nat) :
    addInteractionEvent (env sqrt) (cradle v0 v1 v2 v3 s) part id
      = cradle v0 v1 v2 v3
          (if part = id then s
           else if ((env sqrt).getEvent (cradleParts v0 v1 v2 v3) part id).type
                ≠ EEventType.NONE then
             { s with sorter := (s.sorter.push
                (Event.ofIntEvent ((env sqrt).getEvent (cradleParts v0 v1 v2 v3) part id)
                  (s.eventCountAt id)) part) }
           else s) := by
  unfold addInteractionEvent
  by_cases h : part = id
  · rw [if_pos h, if_pos h]
  · rw [if_neg h, if_neg h]
    simp only [cradle, cradle_updateParticle]
    split <;> rfl

theorem addLocalEvent_cradle (sqrt : K → K) (v0 v1 v2 v3 : K) (s : Scheduler K)
    (part : Nat) :
    addLocalEvent (env sqrt) (cradle v0 v1 v2 v3 s) part 0
      = cradle v0 v1 v2 v3
          { s with sorter := (s.sorter.push
              ⟨CLNewton.getWallCollision BC.none ((cradleParts v0 v1 v2 v3).particle part)
                ⟨-100, 0, 0⟩ ⟨1, 0, 0⟩, EEventType.LOCAL, 0, 0⟩ part) } := by
  simp [addLocalEvent, localAt, env, HardSphereSim.plugins, cradle, Event.ofLocalEvent]

theorem addEvents_cradle (sqrt : K → K) (v0 v1 v2 v3 : K) (s : Scheduler K) (part : Nat) :
    addEvents (env sqrt) (cradle v0 v1 v2 v3 s) part
      = addInteractionEvent (env sqrt)
          (addInteractionEvent (env sqrt)
            (addInteractionEvent (env sqrt)
              (addInteractionEvent (env sqrt)
                (addLocalEvent (env sqrt) (cradle v0 v1 v2 v3 s) part 0) part 0) part 1)
            part 2) part 3 := by
  have hsim : ({ cradle v0 v1 v2 v3 s with
      particles := (env sqrt).updateParticle (cradle v0 v1 v2 v3 s).particles part } :
        Simulation K (HardSphereSim K)) = cradle v0 v1 v2 v3 s := by
    simp only [cradle, cradle_updateParticle]
  have hg : (env sqrt).globals = [] := rfl
  have hl : ∀ st, (env sqrt).getParticleLocals st part = [0] := fun _ => rfl
  unfold addEvents
  simp only [hsim, hg, hl, List.foldl_nil, List.foldl_cons]
  rw [addLocalEvent_cradle]
  rfl

theorem cradle_particles (v0 v1 v2 v3 : K) (s : Scheduler K) :
    (cradle v0 v1 v2 v3 s).particles = cradleParts v0 v1 v2 v3 := rfl

theorem cradle_systemTime (v0 v1 v2 v3 : K) (s : Scheduler K) :
    (cradle v0 v1 v2 v3 s).systemTime = Dbl.fin 0 := rfl

theorem cradle_ptrScheduler (v0 v1 v2 v3 : K) (s : Scheduler K) :
    (cradle v0 v1 v2 v3 s).ptrScheduler = s := rfl

theorem cradle_fold (v0 v1 v2 v3 : K) (s : Scheduler K) :
    (⟨cradleParts v0 v1 v2 v3, Dbl.fin 0, s⟩ : Simulation K (HardSphereSim K))
      = cradle v0 v1 v2 v3 s := rfl

/-- A cradle whose top event is not a stale INTERACTION is left alone by the
opening of `runNextEvent`. -/
theorem cradle_opened (v0 v1 v2 v3 : K) (s : Scheduler K) (h : ¬ staleTop s) :
    opened (cradle v0 v1 v2 v3 s) = cradle v0 v1 v2 v3 s := by
  have h' : ¬ staleTop { s with sorter := s.sorter.sort } := h
  simp only [opened, cradle]
  rw [lazyDeletionCleanup_of_not_stale _ h']
  rfl

/-- Popping the top event of a scheduler when the popped event is not a stale
INTERACTION afterwards. -/
theorem readyNextEvent_of_not_stale (s : Scheduler K) (owner : Nat)
    (h : ¬ staleTop { s with sorter := s.sorter.popNextEvent }) :
    s.readyNextEvent owner = { s with sorter := s.sorter.popNextEvent } := by
  have h' : ¬ staleTop { s with sorter := ((s.sorter.popNextEvent).update owner).sort } := h
  rw [readyNextEvent, lazyDeletionCleanup_of_not_stale _ h']
  rfl

/-- The elastic collision of two cradle spheres. -/
theorem cradle_runEvent (sqrt : K → K) (v0 v1 v2 v3 : K) (i p1 p2 : Nat) (ev : IntEvent K) :
    (env sqrt).runEvent i p1 p2 ev (cradleParts v0 v1 v2 v3)
      = some (((hs : CIHardSphere K).runCollision BC.none 0
            ((cradleParts v0 v1 v2 v3).particle p1) ((cradleParts v0 v1 v2 v3).particle p2)
            1 1).1,
          { cradleParts v0 v1 v2 v3 with
            particles := (((cradleParts v0 v1 v2 v3).particles.set p1
              ((hs : CIHardSphere K).runCollision BC.none 0
                ((cradleParts v0 v1 v2 v3).particle p1)
                ((cradleParts v0 v1 v2 v3).particle p2) 1 1).2.1).set p2
              ((hs : CIHardSphere K).runCollision BC.none 0
                ((cradleParts v0 v1 v2 v3).particle p1)
                ((cradleParts v0 v1 v2 v3).particle p2) 1 1).2.2) }) := rfl

theorem cradle_stream (sqrt : K → K) (v0 v1 v2 v3 : K) :
    (env sqrt).stream (cradleParts v0 v1 v2 v3) (Dbl.fin 0) = cradleParts v0 v1 v2 v3 := by
  simp [env, HardSphereSim.plugins, cradleParts]

theorem fullUpdatePair_cradle (sqrt : K → K) (v0 v1 v2 v3 : K) (s : Scheduler K)
    (p1 p2 : Nat) :
    fullUpdatePair (env sqrt) (cradle v0 v1 v2 v3 s) p1 p2
      = addEvents (env sqrt) (addEvents (env sqrt)
          (cradle v0 v1 v2 v3 ((s.invalidateEvents p1).invalidateEvents p2)) p1) p2 := rfl

/-- With velocities `(1, 0, 0, 0)`, the soonest event of sphere 0 is its collision with sphere 1 at time 0. -/
theorem cradle_addEvents_0_0 (sqrt : K → K) (hsqrt : sqrt 1 = 1) (a b : Nat)
    (e1 e2 e3 : Event K) (ec : List Nat) :
    addEvents (env sqrt) (cradle 1 0 0 0
        (cradleSched ⟨Dbl.pinf, EEventType.NONE, a, b⟩ e1 e2 e3 ec)) 0
      = cradle 1 0 0 0
          (cradleSched ⟨Dbl.fin 0, EEventType.INTERACTION, 1, ec.getD 1 0⟩ e1 e2 e3 ec) := by
  rw [addEvents_cradle, addLocalEvent_cradle, addInteractionEvent_cradle,
    addInteractionEvent_cradle, addInteractionEvent_cradle, addInteractionEvent_cradle]
  congr 1
  simp only [env, HardSphereSim.plugins, cradleParts, HardSphereSim.particle,
    List.getD_cons_succ, List.getD_cons_zero, getCollision_line, CLNewton.getWallCollision,
    BC.none, Vector.dot, Vector.sub, cradleSched, FEL.push, PELSingleEvent.push,
    List.modify_zero_cons, List.modify_succ_cons, Event.ofIntEvent, eventCountAt, Dbl.HUGE_VAL]
  norm_num [hsqrt, Dbl.lt]
  try simp [Dbl.lt]

/-- With velocities `(1, 0, 0, 0)`, the soonest event of sphere 1 is its collision with sphere 0 at time 0. -/
theorem cradle_addEvents_0_1 (sqrt : K → K) (hsqrt : sqrt 1 = 1) (a b : Nat)
    (e0 e2 e3 : Event K) (ec : List Nat) :
    addEvents (env sqrt) (cradle 1 0 0 0
        (cradleSched e0 ⟨Dbl.pinf, EEventType.NONE, a, b⟩ e2 e3 ec)) 1
      = cradle 1 0 0 0
          (cradleSched e0 ⟨Dbl.fin 0, EEventType.INTERACTION, 0, ec.getD 0 0⟩ e2 e3 ec) := by
  rw [addEvents_cradle, addLocalEvent_cradle, addInteractionEvent_cradle,
    addInteractionEvent_cradle, addInteractionEvent_cradle, addInteractionEvent_cradle]
  congr 1
  simp only [env, HardSphereSim.plugins, cradleParts, HardSphereSim.particle,
    List.getD_cons_succ, List.getD_cons_zero, getCollision_line, CLNewton.getWallCollision,
    BC.none, Vector.dot, Vector.sub, cradleSched, FEL.push, PELSingleEvent.push,
    List.modify_zero_cons, List.modify_succ_cons, Event.ofIntEvent, eventCountAt, Dbl.HUGE_VAL]
  norm_num [hsqrt, Dbl.lt]
  try simp [Dbl.lt]

/-- With velocities `(1, 0, 0, 0)`, the soonest event of sphere 2 is its collision with sphere 0 at time 1. -/
theorem cradle_addEvents_0_2 (sqrt : K → K) (hsqrt : sqrt 1 = 1) (a b : Nat)
    (e0 e1 e3 : Event K) (ec : List Nat) :
    addEvents (env sqrt) (cradle 1 0 0 0
        (cradleSched e0 e1 ⟨Dbl.pinf, EEventType.NONE, a, b⟩ e3 ec)) 2
      = cradle 1 0 0 0
          (cradleSched e0 e1 ⟨Dbl.fin 1, EEventType.INTERACTION, 0, ec.getD 0 0⟩ e3 ec) := by
  rw [addEvents_cradle, addLocalEvent_cradle, addInteractionEvent_cradle,
    addInteractionEvent_cradle, addInteractionEvent_cradle, addInteractionEvent_cradle]
  congr 1
  simp only [env, HardSphereSim.plugins, cradleParts, HardSphereSim.particle,
    List.getD_cons_succ, List.getD_cons_zero, getCollision_line, CLNewton.getWallCollision,
    BC.none, Vector.dot, Vector.sub, cradleSched, FEL.push, PELSingleEvent.push,
    List.modify_zero_cons, List.modify_succ_cons, Event.ofIntEvent, eventCountAt, Dbl.HUGE_VAL]
  norm_num [hsqrt, Dbl.lt]
  try simp [Dbl.lt]

/-- With velocities `(1, 0, 0, 0)`, the soonest event of sphere 3 is its collision with sphere 0 at time 2. -/
theorem cradle_addEvents_0_3 (sqrt : K → K) (hsqrt : sqrt 1 = 1) (a b : Nat)
    (e0 e1 e2 : Event K) (ec : List Nat) :
    addEvents (env sqrt) (cradle 1 0 0 0
        (cradleSched e0 e1 e2 ⟨Dbl.pinf, EEventType.NONE, a, b⟩ ec)) 3
      = cradle 1 0 0 0
          (cradleSched e0 e1 e2 ⟨Dbl.fin 2, EEventType.INTERACTION, 0, ec.getD 0 0⟩ ec) := by
  rw [addEvents_cradle, addLocalEvent_cradle, addInteractionEvent_cradle,
    addInteractionEvent_cradle, addInteractionEvent_cradle, addInteractionEvent_cradle]
  congr 1
  simp only [env, HardSphereSim.plugins, cradleParts, HardSphereSim.particle,
    List.getD_cons_succ, List.getD_cons_zero, getCollision_line, CLNewton.getWallCollision,
    BC.none, Vector.dot, Vector.sub, cradleSched, FEL.push, PELSingleEvent.push,
    List.modify_zero_cons, List.modify_succ_cons, Event.ofIntEvent, eventCountAt, Dbl.HUGE_VAL]
  norm_num [hsqrt, Dbl.lt]
  try simp [Dbl.lt]

/-- With velocities `(0, 1, 0, 0)`, no collision is predicted for sphere 0: its PEL holds the wall event at `+∞`. -/
theorem cradle_addEvents_1_0 (sqrt : K → K) (hsqrt : sqrt 1 = 1) (a b : Nat)
    (e1 e2 e3 : Event K) (ec : List Nat) :
    addEvents (env sqrt) (cradle 0 1 0 0
        (cradleSched ⟨Dbl.pinf, EEventType.NONE, a, b⟩ e1 e2 e3 ec)) 0
      = cradle 0 1 0 0
          (cradleSched ⟨Dbl.pinf, EEventType.LOCAL, 0, 0⟩ e1 e2 e3 ec) := by
  rw [addEvents_cradle, addLocalEvent_cradle, addInteractionEvent_cradle,
    addInteractionEvent_cradle, addInteractionEvent_cradle, addInteractionEvent_cradle]
  congr 1
  simp only [env, HardSphereSim.plugins, cradleParts, HardSphereSim.particle,
    List.getD_cons_succ, List.getD_cons_zero, getCollision_line, CLNewton.getWallCollision,
    BC.none, Vector.dot, Vector.sub, cradleSched, FEL.push, PELSingleEvent.push,
    List.modify_zero_cons, List.modify_succ_cons, Event.ofIntEvent, eventCountAt, Dbl.HUGE_VAL]
  norm_num [hsqrt, Dbl.lt]
  try simp [Dbl.lt]

/-- With velocities `(0, 1, 0, 0)`, the soonest event of sphere 1 is its collision with sphere 2 at time 0. -/
theorem cradle_addEvents_1_1 (sqrt : K → K) (hsqrt : sqrt 1 = 1) (a b : Nat)
    (e0 e2 e3 : Event K) (ec : List Nat) :
    addEvents (env sqrt) (cradle 0 1 0 0
        (cradleSched e0 ⟨Dbl.pinf, EEventType.NONE, a, b⟩ e2 e3 ec)) 1
      = cradle 0 1 0 0
          (cradleSched e0 ⟨Dbl.fin 0, EEventType.INTERACTION, 2, ec.getD 2 0⟩ e2 e3 ec) := by
  rw [addEvents_cradle, addLocalEvent_cradle, addInteractionEvent_cradle,
    addInteractionEvent_cradle, addInteractionEvent_cradle, addInteractionEvent_cradle]
  congr 1
  simp only [env, HardSphereSim.plugins, cradleParts, HardSphereSim.particle,
    List.getD_cons_succ, List.getD_cons_zero, getCollision_line, CLNewton.getWallCollision,
    BC.none, Vector.dot, Vector.sub, cradleSched, FEL.push, PELSingleEvent.push,
    List.modify_zero_cons, List.modify_succ_cons, Event.ofIntEvent, eventCountAt, Dbl.HUGE_VAL]
  norm_num [hsqrt, Dbl.lt]
  try simp [Dbl.lt]

/-- With velocities `(0, 0, 1, 0)`, no collision is predicted for sphere 1: its PEL holds the wall event at `+∞`. -/
theorem cradle_addEvents_2_1 (sqrt : K → K) (hsqrt : sqrt 1 = 1) (a b : Nat)
    (e0 e2 e3 : Event K) (ec : List Nat) :
    addEvents (env sqrt) (cradle 0 0 1 0
        (cradleSched e0 ⟨Dbl.pinf, EEventType.NONE, a, b⟩ e2 e3 ec)) 1
      = cradle 0 0 1 0
          (cradleSched e0 ⟨Dbl.pinf, EEventType.LOCAL, 0, 0⟩ e2 e3 ec) := by
  rw [addEvents_cradle, addLocalEvent_cradle, addInteractionEvent_cradle,
    addInteractionEvent_cradle, addInteractionEvent_cradle, addInteractionEvent_cradle]
  congr 1
  simp only [env, HardSphereSim.plugins, cradleParts, HardSphereSim.particle,
    List.getD_cons_succ, List.getD_cons_zero, getCollision_line, CLNewton.getWallCollision,
    BC.none, Vector.dot, Vector.sub, cradleSched, FEL.push, PELSingleEvent.push,
    List.modify_zero_cons, List.modify_succ_cons, Event.ofIntEvent, eventCountAt, Dbl.HUGE_VAL]
  norm_num [hsqrt, Dbl.lt]
  try simp [Dbl.lt]

/-- With velocities `(0, 0, 1, 0)`, the soonest event of sphere 2 is its collision with sphere 3 at time 0. -/
theorem cradle_addEvents_2_2 (sqrt : K → K) (hsqrt : sqrt 1 = 1) (a b : Nat)
    (e0 e1 e3 : Event K) (ec : List Nat) :
    addEvents (env sqrt) (cradle 0 0 1 0
        (cradleSched e0 e1 ⟨Dbl.pinf, EEventType.NONE, a, b⟩ e3 ec)) 2
      = cradle 0 0 1 0
          (cradleSched e0 e1 ⟨Dbl.fin 0, EEventType.INTERACTION, 3, ec.getD 3 0⟩ e3 ec) := by
  rw [addEvents_cradle, addLocalEvent_cradle, addInteractionEvent_cradle,
    addInteractionEvent_cradle, addInteractionEvent_cradle, addInteractionEvent_cradle]
  congr 1
  simp only [env, HardSphereSim.plugins, cradleParts, HardSphereSim.particle,
    List.getD_cons_succ, List.getD_cons_zero, getCollision_line, CLNewton.getWallCollision,
    BC.none, Vector.dot, Vector.sub, cradleSched, FEL.push, PELSingleEvent.push,
    List.modify_zero_cons, List.modify_succ_cons, Event.ofIntEvent, eventCountAt, Dbl.HUGE_VAL]
  norm_num [hsqrt, Dbl.lt]
  try simp [Dbl.lt]

/-- With velocities `(0, 0, 0, 1)`, no collision is predicted for sphere 2: its PEL holds the wall event at `+∞`. -/
theorem cradle_addEvents_3_2 (sqrt : K → K) (hsqrt : sqrt 1 = 1) (a b : Nat)
    (e0 e1 e3 : Event K) (ec : List Nat) :
    addEvents (env sqrt) (cradle 0 0 0 1
        (cradleSched e0 e1 ⟨Dbl.pinf, EEventType.NONE, a, b⟩ e3 ec)) 2
      = cradle 0 0 0 1
          (cradleSched e0 e1 ⟨Dbl.pinf, EEventType.LOCAL, 0, 0⟩ e3 ec) := by
  rw [addEvents_cradle, addLocalEvent_cradle, addInteractionEvent_cradle,
    addInteractionEvent_cradle, addInteractionEvent_cradle, addInteractionEvent_cradle]
  congr 1
  simp only [env, HardSphereSim.plugins, cradleParts, HardSphereSim.particle,
    List.getD_cons_succ, List.getD_cons_zero, getCollision_line, CLNewton.getWallCollision,
    BC.none, Vector.dot, Vector.sub, cradleSched, FEL.push, PELSingleEvent.push,
    List.modify_zero_cons, List.modify_succ_cons, Event.ofIntEvent, eventCountAt, Dbl.HUGE_VAL]
  norm_num [hsqrt, Dbl.lt]
  try simp [Dbl.lt]

/-- With velocities `(0, 0, 0, 1)`, no collision is predicted for sphere 3: its PEL holds the wall event at `+∞`. -/
theorem cradle_addEvents_3_3 (sqrt : K → K) (hsqrt : sqrt 1 = 1) (a b : Nat)
    (e0 e1 e2 : Event K) (ec : List Nat) :
    addEvents (env sqrt) (cradle 0 0 0 1
        (cradleSched e0 e1 e2 ⟨Dbl.pinf, EEventType.NONE, a, b⟩ ec)) 3
      = cradle 0 0 0 1
          (cradleSched e0 e1 e2 ⟨Dbl.pinf, EEventType.LOCAL, 0, 0⟩ ec) := by
  rw [addEvents_cradle, addLocalEvent_cradle, addInteractionEvent_cradle,
    addInteractionEvent_cradle, addInteractionEvent_cradle, addInteractionEvent_cradle]
  congr 1
  simp only [env, HardSphereSim.plugins, cradleParts, HardSphereSim.particle,
    List.getD_cons_succ, List.getD_cons_zero, getCollision_line, CLNewton.getWallCollision,
    BC.none, Vector.dot, Vector.sub, cradleSched, FEL.push, PELSingleEvent.push,
    List.modify_zero_cons, List.modify_succ_cons, Event.ofIntEvent, eventCountAt, Dbl.HUGE_VAL]
  norm_num [hsqrt, Dbl.lt]
  try simp [Dbl.lt]

/-- The collision of spheres 0 and 1: they exchange velocities. -/
theorem cradle_collide_0 :
    (((cradleParts (1 : K) 0 0 0).particles.set 0
        ((hs : CIHardSphere K).runCollision BC.none 0
          ((cradleParts (1 : K) 0 0 0).particle 0)
          ((cradleParts (1 : K) 0 0 0).particle 1) 1 1).2.1).set 1
        ((hs : CIHardSphere K).runCollision BC.none 0
          ((cradleParts (1 : K) 0 0 0).particle 0)
          ((cradleParts (1 : K) 0 0 0).particle 1) 1 1).2.2)
      = (cradleParts (0 : K) 1 0 0).particles := by
  simp only [cradleParts, HardSphereSim.particle, List.getD_cons_zero, List.getD_cons_succ,
    CIHardSphere.runCollision, CLNewton.SmoothSpheresColl, CLNewton.updateParticle,
    CLNewton.streamParticle, CLNewton.C2ParticleData.mk0, BC.none, hs,
    Vector.add, Vector.sub, Vector.smul, Vector.sdiv, Vector.dot, Vector.square,
    List.set_cons_zero, List.set_cons_succ]
  norm_num

/-- The collision of spheres 1 and 2: they exchange velocities. -/
theorem cradle_collide_1 :
    (((cradleParts (0 : K) 1 0 0).particles.set 1
        ((hs : CIHardSphere K).runCollision BC.none 0
          ((cradleParts (0 : K) 1 0 0).particle 1)
          ((cradleParts (0 : K) 1 0 0).particle 2) 1 1).2.1).set 2
        ((hs : CIHardSphere K).runCollision BC.none 0
          ((cradleParts (0 : K) 1 0 0).particle 1)
          ((cradleParts (0 : K) 1 0 0).particle 2) 1 1).2.2)
      = (cradleParts (0 : K) 0 1 0).particles := by
  simp only [cradleParts, HardSphereSim.particle, List.getD_cons_zero, List.getD_cons_succ,
    CIHardSphere.runCollision, CLNewton.SmoothSpheresColl, CLNewton.updateParticle,
    CLNewton.streamParticle, CLNewton.C2ParticleData.mk0, BC.none, hs,
    Vector.add, Vector.sub, Vector.smul, Vector.sdiv, Vector.dot, Vector.square,
    List.set_cons_zero, List.set_cons_succ]
  norm_num

/-- The collision of spheres 2 and 3: they exchange velocities. -/
theorem cradle_collide_2 :
    (((cradleParts (0 : K) 0 1 0).particles.set 2
        ((hs : CIHardSphere K).runCollision BC.none 0
          ((cradleParts (0 : K) 0 1 0).particle 2)
          ((cradleParts (0 : K) 0 1 0).particle 3) 1 1).2.1).set 3
        ((hs : CIHardSphere K).runCollision BC.none 0
          ((cradleParts (0 : K) 0 1 0).particle 2)
          ((cradleParts (0 : K) 0 1 0).particle 3) 1 1).2.2)
      = (cradleParts (0 : K) 0 0 1).particles := by
  simp only [cradleParts, HardSphereSim.particle, List.getD_cons_zero, List.getD_cons_succ,
    CIHardSphere.runCollision, CLNewton.SmoothSpheresColl, CLNewton.updateParticle,
    CLNewton.streamParticle, CLNewton.C2ParticleData.mk0, BC.none, hs,
    Vector.add, Vector.sub, Vector.smul, Vector.sdiv, Vector.dot, Vector.square,
    List.set_cons_zero, List.set_cons_succ]
  norm_num

/-- Call 1 of `runNextEvent` on the cradle executes the collision of spheres
0 and 1 at time 0. -/
theorem cradle_step_0 (sqrt : K → K) (hsqrt : sqrt 1 = 1) :
    runNextEvent (env sqrt) (cradle 1 0 0 0
        (cradleSched ⟨Dbl.fin 0, EEventType.INTERACTION, 1, 0⟩
        ⟨Dbl.fin 0, EEventType.INTERACTION, 0, 0⟩ ⟨Dbl.fin 1, EEventType.INTERACTION, 0, 0⟩
        ⟨Dbl.fin 2, EEventType.INTERACTION, 0, 0⟩ [0, 0, 0, 0, 0]))
      = ⟨cradle 0 1 0 0
          (cradleSched ⟨Dbl.pinf, EEventType.LOCAL, 0, 0⟩
        ⟨Dbl.fin 0, EEventType.INTERACTION, 2, 0⟩ ⟨Dbl.fin 1, EEventType.INTERACTION, 0, 0⟩
        ⟨Dbl.fin 2, EEventType.INTERACTION, 0, 0⟩ [1, 1, 0, 0, 0]),
         [Executed.ofInteraction 0 1 ⟨Dbl.fin 0, EEventType.CORE, 0, 1, 0⟩], none⟩ := by
  have htop : (cradleSched (⟨Dbl.fin 0, EEventType.INTERACTION, 1, 0⟩ : Event K)
        ⟨Dbl.fin 0, EEventType.INTERACTION, 0, 0⟩ ⟨Dbl.fin 1, EEventType.INTERACTION, 0, 0⟩
        ⟨Dbl.fin 2, EEventType.INTERACTION, 0, 0⟩ [0, 0, 0, 0, 0]).sorter.next
      = (0, ⟨Dbl.fin 0, EEventType.INTERACTION, 1, 0⟩) := by
    norm_num [cradleSched, FEL.next, FEL.topID, FEL.topFrom, PELSingleEvent.getdt,
      PELSingleEvent.top, PELSingleEvent.new, PELSingleEvent.clear, Dbl.HUGE_VAL, Dbl.lt]
  have hpop : (cradleSched (⟨Dbl.fin 0, EEventType.INTERACTION, 1, 0⟩ : Event K)
        ⟨Dbl.fin 0, EEventType.INTERACTION, 0, 0⟩ ⟨Dbl.fin 1, EEventType.INTERACTION, 0, 0⟩
        ⟨Dbl.fin 2, EEventType.INTERACTION, 0, 0⟩ [0, 0, 0, 0, 0]).sorter.popNextEvent
      = (cradleSched (⟨Dbl.fin 0, EEventType.RECALCULATE, 1, 0⟩ : Event K)
        ⟨Dbl.fin 0, EEventType.INTERACTION, 0, 0⟩ ⟨Dbl.fin 1, EEventType.INTERACTION, 0, 0⟩
        ⟨Dbl.fin 2, EEventType.INTERACTION, 0, 0⟩ [0, 0, 0, 0, 0]).sorter := by
    have h0 := congrArg Prod.fst htop
    simp only [FEL.next] at h0
    simp only [FEL.popNextEvent, h0]
    simp [cradleSched, PELSingleEvent.pop, PELSingleEvent.empty]
  have htop2 : (cradleSched (⟨Dbl.fin 0, EEventType.RECALCULATE, 1, 0⟩ : Event K)
        ⟨Dbl.fin 0, EEventType.INTERACTION, 0, 0⟩ ⟨Dbl.fin 1, EEventType.INTERACTION, 0, 0⟩
        ⟨Dbl.fin 2, EEventType.INTERACTION, 0, 0⟩ [0, 0, 0, 0, 0]).sorter.next
      = (0, ⟨Dbl.fin 0, EEventType.RECALCULATE, 1, 0⟩) := by
    norm_num [cradleSched, FEL.next, FEL.topID, FEL.topFrom, PELSingleEvent.getdt,
      PELSingleEvent.top, PELSingleEvent.new, PELSingleEvent.clear, Dbl.HUGE_VAL, Dbl.lt]
  have hev : (env sqrt).getEvent (cradleParts 1 0 0 0) 0 1
      = ⟨Dbl.fin 0, EEventType.CORE, 0, 1, 0⟩ := by
    simp only [env, HardSphereSim.plugins, cradleParts, HardSphereSim.particle,
      List.getD_cons_succ, List.getD_cons_zero, getCollision_line]
    norm_num [hsqrt]
  rw [runNextEvent_executes_interaction (env sqrt) _ 0 1 0 0
    ⟨Dbl.fin 0, EEventType.CORE, 0, 1, 0⟩ _ _
    (by rw [cradle_ptrScheduler]; unfold staleTop; rw [htop]; simp [eventCountAt, cradleSched])
    (by rw [cradle_ptrScheduler]; exact htop)
    (by
      rw [cradle_ptrScheduler]; unfold staleTop
      simp only [hpop, htop2]
      simp)
    (by rw [cradle_particles, cradle_updateParticlePair]; exact hev)
    (by simp)
    (by rw [cradle_ptrScheduler, hpop, htop2]; simp [Dbl.gt, Dbl.lt])
    (by rw [cradle_ptrScheduler, hpop, htop2]; rfl)
    (by
      rw [cradle_particles, cradle_updateParticlePair, cradle_stream]
      exact cradle_runEvent sqrt 1 0 0 0 0 0 1 _)]
  have hout : (env sqrt).outputPlugins = [] := rfl
  have hsig : ∀ (d : C2ParticleData K) (st : HardSphereSim K),
      (env sqrt)._sigParticleUpdate d st = st := fun _ _ => rfl
  have hstream : Scheduler.stream { cradleSched (⟨Dbl.fin 0, EEventType.INTERACTION, 1, 0⟩ : Event K)
        ⟨Dbl.fin 0, EEventType.INTERACTION, 0, 0⟩ ⟨Dbl.fin 1, EEventType.INTERACTION, 0, 0⟩
        ⟨Dbl.fin 2, EEventType.INTERACTION, 0, 0⟩ [0, 0, 0, 0, 0] with
      sorter := (cradleSched (⟨Dbl.fin 0, EEventType.RECALCULATE, 1, 0⟩ : Event K)
        ⟨Dbl.fin 0, EEventType.INTERACTION, 0, 0⟩ ⟨Dbl.fin 1, EEventType.INTERACTION, 0, 0⟩
        ⟨Dbl.fin 2, EEventType.INTERACTION, 0, 0⟩ [0, 0, 0, 0, 0]).sorter
      _interactionRejectionCounter := 0 } (Dbl.fin 0)
      = cradleSched (⟨Dbl.fin 0, EEventType.RECALCULATE, 1, 0⟩ : Event K)
        ⟨Dbl.fin 0, EEventType.INTERACTION, 0, 0⟩ ⟨Dbl.fin 1, EEventType.INTERACTION, 0, 0⟩
        ⟨Dbl.fin 2, EEventType.INTERACTION, 0, 0⟩ [0, 0, 0, 0, 0] := by
    simp [Scheduler.stream, FEL.stream, PELSingleEvent.stream, cradleSched, Dbl.sub, Dbl.add,
      Dbl.neg, PELSingleEvent.new, PELSingleEvent.clear, Dbl.HUGE_VAL]
  have hinv : ((cradleSched (⟨Dbl.fin 0, EEventType.RECALCULATE, 1, 0⟩ : Event K)
        ⟨Dbl.fin 0, EEventType.INTERACTION, 0, 0⟩ ⟨Dbl.fin 1, EEventType.INTERACTION, 0, 0⟩
        ⟨Dbl.fin 2, EEventType.INTERACTION, 0, 0⟩ [0, 0, 0, 0, 0]).invalidateEvents
          0).invalidateEvents 1
      = cradleSched (⟨Dbl.pinf, EEventType.NONE, 1, 0⟩ : Event K)
        ⟨Dbl.pinf, EEventType.NONE, 0, 0⟩ ⟨Dbl.fin 1, EEventType.INTERACTION, 0, 0⟩
        ⟨Dbl.fin 2, EEventType.INTERACTION, 0, 0⟩ [1, 1, 0, 0, 0] := by
    simp [invalidateEvents, FEL.clearPEL, PELSingleEvent.clear, cradleSched, Dbl.HUGE_VAL]
  simp only [hout, hsig, List.foldl_nil, cradle_systemTime, cradle_ptrScheduler, hpop,
    cradle_collide_0, hstream, Dbl.add, add_zero]
  rw [show ({ cradleParts (1 : K) 0 0 0 with
      particles := (cradleParts (0 : K) 1 0 0).particles } :
      HardSphereSim K) = cradleParts 0 1 0 0 from rfl, cradle_fold, fullUpdatePair_cradle, hinv,
    cradle_addEvents_1_0 sqrt hsqrt, cradle_addEvents_1_1 sqrt hsqrt]
  rfl

/-- Call 2 of `runNextEvent` on the cradle executes the collision of spheres
1 and 2 at time 0. -/
theorem cradle_step_1 (sqrt : K → K) (hsqrt : sqrt 1 = 1) :
    runNextEvent (env sqrt) (cradle 0 1 0 0
        (cradleSched ⟨Dbl.pinf, EEventType.LOCAL, 0, 0⟩
        ⟨Dbl.fin 0, EEventType.INTERACTION, 2, 0⟩ ⟨Dbl.fin 1, EEventType.INTERACTION, 0, 0⟩
        ⟨Dbl.fin 2, EEventType.INTERACTION, 0, 0⟩ [1, 1, 0, 0, 0]))
      = ⟨cradle 0 0 1 0
          (cradleSched ⟨Dbl.pinf, EEventType.LOCAL, 0, 0⟩
        ⟨Dbl.pinf, EEventType.LOCAL, 0, 0⟩ ⟨Dbl.fin 0, EEventType.INTERACTION, 3, 0⟩
        ⟨Dbl.fin 2, EEventType.INTERACTION, 0, 0⟩ [1, 2, 1, 0, 0]),
         [Executed.ofInteraction 1 2 ⟨Dbl.fin 0, EEventType.CORE, 1, 2, 0⟩], none⟩ := by
  have htop : (cradleSched (⟨Dbl.pinf, EEventType.LOCAL, 0, 0⟩ : Event K)
        ⟨Dbl.fin 0, EEventType.INTERACTION, 2, 0⟩ ⟨Dbl.fin 1, EEventType.INTERACTION, 0, 0⟩
        ⟨Dbl.fin 2, EEventType.INTERACTION, 0, 0⟩ [1, 1, 0, 0, 0]).sorter.next
      = (1, ⟨Dbl.fin 0, EEventType.INTERACTION, 2, 0⟩) := by
    norm_num [cradleSched, FEL.next, FEL.topID, FEL.topFrom, PELSingleEvent.getdt,
      PELSingleEvent.top, PELSingleEvent.new, PELSingleEvent.clear, Dbl.HUGE_VAL, Dbl.lt]
  have hpop : (cradleSched (⟨Dbl.pinf, EEventType.LOCAL, 0, 0⟩ : Event K)
        ⟨Dbl.fin 0, EEventType.INTERACTION, 2, 0⟩ ⟨Dbl.fin 1, EEventType.INTERACTION, 0, 0⟩
        ⟨Dbl.fin 2, EEventType.INTERACTION, 0, 0⟩ [1, 1, 0, 0, 0]).sorter.popNextEvent
      = (cradleSched (⟨Dbl.pinf, EEventType.LOCAL, 0, 0⟩ : Event K)
        ⟨Dbl.fin 0, EEventType.RECALCULATE, 2, 0⟩ ⟨Dbl.fin 1, EEventType.INTERACTION, 0, 0⟩
        ⟨Dbl.fin 2, EEventType.INTERACTION, 0, 0⟩ [1, 1, 0, 0, 0]).sorter := by
    have h0 := congrArg Prod.fst htop
    simp only [FEL.next] at h0
    simp only [FEL.popNextEvent, h0]
    simp [cradleSched, PELSingleEvent.pop, PELSingleEvent.empty]
  have htop2 : (cradleSched (⟨Dbl.pinf, EEventType.LOCAL, 0, 0⟩ : Event K)
        ⟨Dbl.fin 0, EEventType.RECALCULATE, 2, 0⟩ ⟨Dbl.fin 1, EEventType.INTERACTION, 0, 0⟩
        ⟨Dbl.fin 2, EEventType.INTERACTION, 0, 0⟩ [1, 1, 0, 0, 0]).sorter.next
      = (1, ⟨Dbl.fin 0, EEventType.RECALCULATE, 2, 0⟩) := by
    norm_num [cradleSched, FEL.next, FEL.topID, FEL.topFrom, PELSingleEvent.getdt,
      PELSingleEvent.top, PELSingleEvent.new, PELSingleEvent.clear, Dbl.HUGE_VAL, Dbl.lt]
  have hev : (env sqrt).getEvent (cradleParts 0 1 0 0) 1 2
      = ⟨Dbl.fin 0, EEventType.CORE, 1, 2, 0⟩ := by
    simp only [env, HardSphereSim.plugins, cradleParts, HardSphereSim.particle,
      List.getD_cons_succ, List.getD_cons_zero, getCollision_line]
    norm_num [hsqrt]
  rw [runNextEvent_executes_interaction (env sqrt) _ 1 2 0 0
    ⟨Dbl.fin 0, EEventType.CORE, 1, 2, 0⟩ _ _
    (by rw [cradle_ptrScheduler]; unfold staleTop; rw [htop]; simp [eventCountAt, cradleSched])
    (by rw [cradle_ptrScheduler]; exact htop)
    (by
      rw [cradle_ptrScheduler]; unfold staleTop
      simp only [hpop, htop2]
      simp)
    (by rw [cradle_particles, cradle_updateParticlePair]; exact hev)
    (by simp)
    (by rw [cradle_ptrScheduler, hpop, htop2]; simp [Dbl.gt, Dbl.lt])
    (by rw [cradle_ptrScheduler, hpop, htop2]; rfl)
    (by
      rw [cradle_particles, cradle_updateParticlePair, cradle_stream]
      exact cradle_runEvent sqrt 0 1 0 0 0 1 2 _)]
  have hout : (env sqrt).outputPlugins = [] := rfl
  have hsig : ∀ (d : C2ParticleData K) (st : HardSphereSim K),
      (env sqrt)._sigParticleUpdate d st = st := fun _ _ => rfl
  have hstream : Scheduler.stream { cradleSched (⟨Dbl.pinf, EEventType.LOCAL, 0, 0⟩ : Event K)
        ⟨Dbl.fin 0, EEventType.INTERACTION, 2, 0⟩ ⟨Dbl.fin 1, EEventType.INTERACTION, 0, 0⟩
        ⟨Dbl.fin 2, EEventType.INTERACTION, 0, 0⟩ [1, 1, 0, 0, 0] with
      sorter := (cradleSched (⟨Dbl.pinf, EEventType.LOCAL, 0, 0⟩ : Event K)
        ⟨Dbl.fin 0, EEventType.RECALCULATE, 2, 0⟩ ⟨Dbl.fin 1, EEventType.INTERACTION, 0, 0⟩
        ⟨Dbl.fin 2, EEventType.INTERACTION, 0, 0⟩ [1, 1, 0, 0, 0]).sorter
      _interactionRejectionCounter := 0 } (Dbl.fin 0)
      = cradleSched (⟨Dbl.pinf, EEventType.LOCAL, 0, 0⟩ : Event K)
        ⟨Dbl.fin 0, EEventType.RECALCULATE, 2, 0⟩ ⟨Dbl.fin 1, EEventType.INTERACTION, 0, 0⟩
        ⟨Dbl.fin 2, EEventType.INTERACTION, 0, 0⟩ [1, 1, 0, 0, 0] := by
    simp [Scheduler.stream, FEL.stream, PELSingleEvent.stream, cradleSched, Dbl.sub, Dbl.add,
      Dbl.neg, PELSingleEvent.new, PELSingleEvent.clear, Dbl.HUGE_VAL]
  have hinv : ((cradleSched (⟨Dbl.pinf, EEventType.LOCAL, 0, 0⟩ : Event K)
        ⟨Dbl.fin 0, EEventType.RECALCULATE, 2, 0⟩ ⟨Dbl.fin 1, EEventType.INTERACTION, 0, 0⟩
        ⟨Dbl.fin 2, EEventType.INTERACTION, 0, 0⟩ [1, 1, 0, 0, 0]).invalidateEvents
          1).invalidateEvents 2
      = cradleSched (⟨Dbl.pinf, EEventType.LOCAL, 0, 0⟩ : Event K)
        ⟨Dbl.pinf, EEventType.NONE, 2, 0⟩ ⟨Dbl.pinf, EEventType.NONE, 0, 0⟩
        ⟨Dbl.fin 2, EEventType.INTERACTION, 0, 0⟩ [1, 2, 1, 0, 0] := by
    simp [invalidateEvents, FEL.clearPEL, PELSingleEvent.clear, cradleSched, Dbl.HUGE_VAL]
  simp only [hout, hsig, List.foldl_nil, cradle_systemTime, cradle_ptrScheduler, hpop,
    cradle_collide_1, hstream, Dbl.add, add_zero]
  rw [show ({ cradleParts (0 : K) 1 0 0 with
      particles := (cradleParts (0 : K) 0 1 0).particles } :
      HardSphereSim K) = cradleParts 0 0 1 0 from rfl, cradle_fold, fullUpdatePair_cradle, hinv,
    cradle_addEvents_2_1 sqrt hsqrt, cradle_addEvents_2_2 sqrt hsqrt]
  rfl

/-- Call 3 of `runNextEvent` on the cradle executes the collision of spheres
2 and 3 at time 0. -/
theorem cradle_step_2 (sqrt : K → K) (hsqrt : sqrt 1 = 1) :
    runNextEvent (env sqrt) (cradle 0 0 1 0
        (cradleSched ⟨Dbl.pinf, EEventType.LOCAL, 0, 0⟩
        ⟨Dbl.pinf, EEventType.LOCAL, 0, 0⟩ ⟨Dbl.fin 0, EEventType.INTERACTION, 3, 0⟩
        ⟨Dbl.fin 2, EEventType.INTERACTION, 0, 0⟩ [1, 2, 1, 0, 0]))
      = ⟨cradle 0 0 0 1
          (cradleSched ⟨Dbl.pinf, EEventType.LOCAL, 0, 0⟩
        ⟨Dbl.pinf, EEventType.LOCAL, 0, 0⟩ ⟨Dbl.pinf, EEventType.LOCAL, 0, 0⟩
        ⟨Dbl.pinf, EEventType.LOCAL, 0, 0⟩ [1, 2, 2, 1, 0]),
         [Executed.ofInteraction 2 3 ⟨Dbl.fin 0, EEventType.CORE, 2, 3, 0⟩], none⟩ := by
  have htop : (cradleSched (⟨Dbl.pinf, EEventType.LOCAL, 0, 0⟩ : Event K)
        ⟨Dbl.pinf, EEventType.LOCAL, 0, 0⟩ ⟨Dbl.fin 0, EEventType.INTERACTION, 3, 0⟩
        ⟨Dbl.fin 2, EEventType.INTERACTION, 0, 0⟩ [1, 2, 1, 0, 0]).sorter.next
      = (2, ⟨Dbl.fin 0, EEventType.INTERACTION, 3, 0⟩) := by
    norm_num [cradleSched, FEL.next, FEL.topID, FEL.topFrom, PELSingleEvent.getdt,
      PELSingleEvent.top, PELSingleEvent.new, PELSingleEvent.clear, Dbl.HUGE_VAL, Dbl.lt]
  have hpop : (cradleSched (⟨Dbl.pinf, EEventType.LOCAL, 0, 0⟩ : Event K)
        ⟨Dbl.pinf, EEventType.LOCAL, 0, 0⟩ ⟨Dbl.fin 0, EEventType.INTERACTION, 3, 0⟩
        ⟨Dbl.fin 2, EEventType.INTERACTION, 0, 0⟩ [1, 2, 1, 0, 0]).sorter.popNextEvent
      = (cradleSched (⟨Dbl.pinf, EEventType.LOCAL, 0, 0⟩ : Event K)
        ⟨Dbl.pinf, EEventType.LOCAL, 0, 0⟩ ⟨Dbl.fin 0, EEventType.RECALCULATE, 3, 0⟩
        ⟨Dbl.fin 2, EEventType.INTERACTION, 0, 0⟩ [1, 2, 1, 0, 0]).sorter := by
    have h0 := congrArg Prod.fst htop
    simp only [FEL.next] at h0
    simp only [FEL.popNextEvent, h0]
    simp [cradleSched, PELSingleEvent.pop, PELSingleEvent.empty]
  have htop2 : (cradleSched (⟨Dbl.pinf, EEventType.LOCAL, 0, 0⟩ : Event K)
        ⟨Dbl.pinf, EEventType.LOCAL, 0, 0⟩ ⟨Dbl.fin 0, EEventType.RECALCULATE, 3, 0⟩
        ⟨Dbl.fin 2, EEventType.INTERACTION, 0, 0⟩ [1, 2, 1, 0, 0]).sorter.next
      = (2, ⟨Dbl.fin 0, EEventType.RECALCULATE, 3, 0⟩) := by
    norm_num [cradleSched, FEL.next, FEL.topID, FEL.topFrom, PELSingleEvent.getdt,
      PELSingleEvent.top, PELSingleEvent.new, PELSingleEvent.clear, Dbl.HUGE_VAL, Dbl.lt]
  have hev : (env sqrt).getEvent (cradleParts 0 0 1 0) 2 3
      = ⟨Dbl.fin 0, EEventType.CORE, 2, 3, 0⟩ := by
    simp only [env, HardSphereSim.plugins, cradleParts, HardSphereSim.particle,
      List.getD_cons_succ, List.getD_cons_zero, getCollision_line]
    norm_num [hsqrt]
  rw [runNextEvent_executes_interaction (env sqrt) _ 2 3 0 0
    ⟨Dbl.fin 0, EEventType.CORE, 2, 3, 0⟩ _ _
    (by rw [cradle_ptrScheduler]; unfold staleTop; rw [htop]; simp [eventCountAt, cradleSched])
    (by rw [cradle_ptrScheduler]; exact htop)
    (by
      rw [cradle_ptrScheduler]; unfold staleTop
      simp only [hpop, htop2]
      simp)
    (by rw [cradle_particles, cradle_updateParticlePair]; exact hev)
    (by simp)
    (by rw [cradle_ptrScheduler, hpop, htop2]; simp [Dbl.gt, Dbl.lt])
    (by rw [cradle_ptrScheduler, hpop, htop2]; rfl)
    (by
      rw [cradle_particles, cradle_updateParticlePair, cradle_stream]
      exact cradle_runEvent sqrt 0 0 1 0 0 2 3 _)]
  have hout : (env sqrt).outputPlugins = [] := rfl
  have hsig : ∀ (d : C2ParticleData K) (st : HardSphereSim K),
      (env sqrt)._sigParticleUpdate d st = st := fun _ _ => rfl
  have hstream : Scheduler.stream { cradleSched (⟨Dbl.pinf, EEventType.LOCAL, 0, 0⟩ : Event K)
        ⟨Dbl.pinf, EEventType.LOCAL, 0, 0⟩ ⟨Dbl.fin 0, EEventType.INTERACTION, 3, 0⟩
        ⟨Dbl.fin 2, EEventType.INTERACTION, 0, 0⟩ [1, 2, 1, 0, 0] with
      sorter := (cradleSched (⟨Dbl.pinf, EEventType.LOCAL, 0, 0⟩ : Event K)
        ⟨Dbl.pinf, EEventType.LOCAL, 0, 0⟩ ⟨Dbl.fin 0, EEventType.RECALCULATE, 3, 0⟩
        ⟨Dbl.fin 2, EEventType.INTERACTION, 0, 0⟩ [1, 2, 1, 0, 0]).sorter
      _interactionRejectionCounter := 0 } (Dbl.fin 0)
      = cradleSched (⟨Dbl.pinf, EEventType.LOCAL, 0, 0⟩ : Event K)
        ⟨Dbl.pinf, EEventType.LOCAL, 0, 0⟩ ⟨Dbl.fin 0, EEventType.RECALCULATE, 3, 0⟩
        ⟨Dbl.fin 2, EEventType.INTERACTION, 0, 0⟩ [1, 2, 1, 0, 0] := by
    simp [Scheduler.stream, FEL.stream, PELSingleEvent.stream, cradleSched, Dbl.sub, Dbl.add,
      Dbl.neg, PELSingleEvent.new, PELSingleEvent.clear, Dbl.HUGE_VAL]
  have hinv : ((cradleSched (⟨Dbl.pinf, EEventType.LOCAL, 0, 0⟩ : Event K)
        ⟨Dbl.pinf, EEventType.LOCAL, 0, 0⟩ ⟨Dbl.fin 0, EEventType.RECALCULATE, 3, 0⟩
        ⟨Dbl.fin 2, EEventType.INTERACTION, 0, 0⟩ [1, 2, 1, 0, 0]).invalidateEvents
          2).invalidateEvents 3
      = cradleSched (⟨Dbl.pinf, EEventType.LOCAL, 0, 0⟩ : Event K)
        ⟨Dbl.pinf, EEventType.LOCAL, 0, 0⟩ ⟨Dbl.pinf, EEventType.NONE, 3, 0⟩
        ⟨Dbl.pinf, EEventType.NONE, 0, 0⟩ [1, 2, 2, 1, 0] := by
    simp [invalidateEvents, FEL.clearPEL, PELSingleEvent.clear, cradleSched, Dbl.HUGE_VAL]
  simp only [hout, hsig, List.foldl_nil, cradle_systemTime, cradle_ptrScheduler, hpop,
    cradle_collide_2, hstream, Dbl.add, add_zero]
  rw [show ({ cradleParts (0 : K) 0 1 0 with
      particles := (cradleParts (0 : K) 0 0 1).particles } :
      HardSphereSim K) = cradleParts 0 0 0 1 from rfl, cradle_fold, fullUpdatePair_cradle, hinv,
    cradle_addEvents_3_2 sqrt hsqrt, cradle_addEvents_3_3 sqrt hsqrt]

/-- The event list `rebuildList` builds for the cradle. -/
theorem cradle_init (sqrt : K → K) (hsqrt : sqrt 1 = 1) :
    cradleSim sqrt = cradle 1 0 0 0
      (cradleSched ⟨Dbl.fin 0, EEventType.INTERACTION, 1, 0⟩
        ⟨Dbl.fin 0, EEventType.INTERACTION, 0, 0⟩ ⟨Dbl.fin 1, EEventType.INTERACTION, 0, 0⟩
        ⟨Dbl.fin 2, EEventType.INTERACTION, 0, 0⟩ [0, 0, 0, 0, 0]) := by
  have hN : (env sqrt).N (cradleStart K).particles = 4 := rfl
  have hr : List.range 4 = [0, 1, 2, 3] := rfl
  have hpre : ({ cradleStart K with ptrScheduler := { (cradleStart K).ptrScheduler with
      sorter := ((cradleStart K).ptrScheduler.sorter.clear).resize (4 + 1)
      eventCount := List.replicate (4 + 1) 0 } } : Simulation K (HardSphereSim K))
      = cradle 1 0 0 0 (cradleSched ⟨Dbl.pinf, EEventType.NONE, 0, 0⟩
          ⟨Dbl.pinf, EEventType.NONE, 0, 0⟩ ⟨Dbl.pinf, EEventType.NONE, 0, 0⟩
          ⟨Dbl.pinf, EEventType.NONE, 0, 0⟩ [0, 0, 0, 0, 0]) := rfl
  unfold cradleSim rebuildList
  simp only [hN, hr, hpre, List.foldl_cons, List.foldl_nil]
  rw [cradle_addEvents_0_0 sqrt hsqrt, cradle_addEvents_0_1 sqrt hsqrt,
    cradle_addEvents_0_2 sqrt hsqrt, cradle_addEvents_0_3 sqrt hsqrt]
  simp [rebuildSystemEvents, env, HardSphereSim.plugins, cradle, cradleParts, cradleSched,
    FEL.clearPEL, FEL.update, FEL.init, PELSingleEvent.new, PELSingleEvent.clear, Dbl.HUGE_VAL]

/-- With every PEL holding the wall event at `+∞`, `runNextEvent` throws before
any `runEvent` call. -/
theorem cradle_step_3 (sqrt : K → K) (ec : List Nat) :
    (runNextEvent (env sqrt) (cradle 0 0 0 1
        (cradleSched ⟨Dbl.pinf, EEventType.LOCAL, 0, 0⟩ ⟨Dbl.pinf, EEventType.LOCAL, 0, 0⟩
          ⟨Dbl.pinf, EEventType.LOCAL, 0, 0⟩ ⟨Dbl.pinf, EEventType.LOCAL, 0, 0⟩ ec))).ran = [] ∧
    (runNextEvent (env sqrt) (cradle 0 0 0 1
        (cradleSched ⟨Dbl.pinf, EEventType.LOCAL, 0, 0⟩ ⟨Dbl.pinf, EEventType.LOCAL, 0, 0⟩
          ⟨Dbl.pinf, EEventType.LOCAL, 0, 0⟩ ⟨Dbl.pinf, EEventType.LOCAL, 0, 0⟩ ec))).threw
      = some "Next event time is not finite!" := by
  have htop : (cradleSched (⟨Dbl.pinf, EEventType.LOCAL, 0, 0⟩ : Event K)
      ⟨Dbl.pinf, EEventType.LOCAL, 0, 0⟩ ⟨Dbl.pinf, EEventType.LOCAL, 0, 0⟩
      ⟨Dbl.pinf, EEventType.LOCAL, 0, 0⟩ ec).sorter.next
      = (0, ⟨Dbl.pinf, EEventType.LOCAL, 0, 0⟩) := by
    simp [cradleSched, FEL.next, FEL.topID, FEL.topFrom, PELSingleEvent.getdt,
      PELSingleEvent.top, PELSingleEvent.new, PELSingleEvent.clear, Dbl.HUGE_VAL, Dbl.lt]
  have hop := cradle_opened (0 : K) 0 0 1 (cradleSched (⟨Dbl.pinf, EEventType.LOCAL, 0, 0⟩ : Event K)
      ⟨Dbl.pinf, EEventType.LOCAL, 0, 0⟩ ⟨Dbl.pinf, EEventType.LOCAL, 0, 0⟩
      ⟨Dbl.pinf, EEventType.LOCAL, 0, 0⟩ ec)
      (by unfold staleTop; rw [htop]; simp)
  have hd : dispatched (cradle (0 : K) 0 0 1 (cradleSched (⟨Dbl.pinf, EEventType.LOCAL, 0, 0⟩ : Event K)
      ⟨Dbl.pinf, EEventType.LOCAL, 0, 0⟩ ⟨Dbl.pinf, EEventType.LOCAL, 0, 0⟩
      ⟨Dbl.pinf, EEventType.LOCAL, 0, 0⟩ ec)) = (0, ⟨Dbl.pinf, EEventType.LOCAL, 0, 0⟩) := by
    rw [dispatched, hop]; exact htop
  rw [runNextEvent_of_LOCAL _ _ (by rw [hd]), hd]
  simp [runNextEvent_LOCAL, Dbl.isfinite]

/-- In the cradle with only sphere 3 moving, at `+1`, no pair has a predicted
collision. -/
theorem cradle_final_predictions (sqrt : K → K) (i j : Nat) (hi : i < 4) (hj : j < 4) :
    (env sqrt).getEvent (cradleParts 0 0 0 1) i j
      = ⟨Dbl.HUGE_VAL, EEventType.NONE, i, j, 0⟩ := by
  interval_cases i <;> interval_cases j <;>
    (simp only [env, HardSphereSim.plugins, cradleParts, HardSphereSim.particle,
      List.getD_cons_succ, List.getD_cons_zero, getCollision_line]
     norm_num)

/-- The three calls of `runNextEvent` on the cradle. -/
theorem cradle_run (sqrt : K → K) (hsqrt : sqrt 1 = 1) :
    runNextEvent (env sqrt) (cradleAfter sqrt 0)
      = ⟨cradleAfter sqrt 1,
          [Executed.ofInteraction 0 1 ⟨Dbl.fin 0, EEventType.CORE, 0, 1, 0⟩], none⟩ ∧
    runNextEvent (env sqrt) (cradleAfter sqrt 1)
      = ⟨cradleAfter sqrt 2,
          [Executed.ofInteraction 1 2 ⟨Dbl.fin 0, EEventType.CORE, 1, 2, 0⟩], none⟩ ∧
    runNextEvent (env sqrt) (cradleAfter sqrt 2)
      = ⟨cradleAfter sqrt 3,
          [Executed.ofInteraction 2 3 ⟨Dbl.fin 0, EEventType.CORE, 2, 3, 0⟩], none⟩ ∧
    cradleAfter sqrt 3 = cradle 0 0 0 1
      (cradleSched ⟨Dbl.pinf, EEventType.LOCAL, 0, 0⟩ ⟨Dbl.pinf, EEventType.LOCAL, 0, 0⟩
        ⟨Dbl.pinf, EEventType.LOCAL, 0, 0⟩ ⟨Dbl.pinf, EEventType.LOCAL, 0, 0⟩
        [1, 2, 2, 1, 0]) := by
  have h0 := cradle_init sqrt hsqrt
  have h1 : cradleAfter sqrt 1 = cradle 0 1 0 0
      (cradleSched ⟨Dbl.pinf, EEventType.LOCAL, 0, 0⟩ ⟨Dbl.fin 0, EEventType.INTERACTION, 2, 0⟩
        ⟨Dbl.fin 1, EEventType.INTERACTION, 0, 0⟩ ⟨Dbl.fin 2, EEventType.INTERACTION, 0, 0⟩
        [1, 1, 0, 0, 0]) := by
    show (runNextEvent (env sqrt) (cradleSim sqrt)).sim = _
    rw [h0, cradle_step_0 sqrt hsqrt]
  have h2 : cradleAfter sqrt 2 = cradle 0 0 1 0
      (cradleSched ⟨Dbl.pinf, EEventType.LOCAL, 0, 0⟩ ⟨Dbl.pinf, EEventType.LOCAL, 0, 0⟩
        ⟨Dbl.fin 0, EEventType.INTERACTION, 3, 0⟩ ⟨Dbl.fin 2, EEventType.INTERACTION, 0, 0⟩
        [1, 2, 1, 0, 0]) := by
    show (runNextEvent (env sqrt) (cradleAfter sqrt 1)).sim = _
    rw [h1, cradle_step_1 sqrt hsqrt]
  have h3 : cradleAfter sqrt 3 = cradle 0 0 0 1
      (cradleSched ⟨Dbl.pinf, EEventType.LOCAL, 0, 0⟩ ⟨Dbl.pinf, EEventType.LOCAL, 0, 0⟩
        ⟨Dbl.pinf, EEventType.LOCAL, 0, 0⟩ ⟨Dbl.pinf, EEventType.LOCAL, 0, 0⟩
        [1, 2, 2, 1, 0]) := by
    show (runNextEvent (env sqrt) (cradleAfter sqrt 2)).sim = _
    rw [h2, cradle_step_2 sqrt hsqrt]
  refine ⟨?_, ?_, ?_, h3⟩
  · rw [h1]
    show runNextEvent (env sqrt) (cradleSim sqrt) = _
    rw [h0]; exact cradle_step_0 sqrt hsqrt
  · rw [h2, h1]; exact cradle_step_1 sqrt hsqrt
  · rw [h3, h2]; exact cradle_step_2 sqrt hsqrt

end Scenario

/-! ## Newton's cradle -/

section Cradle

open Scheduler

/-- C18: Newton's cradle (four unit spheres at `x = 0, 1, 2, 3`, unit masses,
`e = 1`, the leftmost moving at `+1`, event list built by `rebuildList`): the
first three calls of `runNextEvent` return normally and execute one event
each, the CORE collisions predicted by `getCollision` for the pairs (0,1),
(1,2) and (2,3) in this order, all at time 0; afterwards the spheres are at
their places with velocities `0, 0, 0, +1`, `getCollision` predicts no
collision for any pair, the event list holds no INTERACTION event, and a
fourth call executes nothing (real arithmetic). -/
theorem newtons_cradle :
    (Scenario.cradleAfter Real.sqrt 0).particles = Scenario.cradleParts 1 0 0 0 ∧
    runNextEvent (Scenario.env Real.sqrt) (Scenario.cradleAfter Real.sqrt 0)
      = ⟨Scenario.cradleAfter Real.sqrt 1,
          [Executed.ofInteraction 0 1 ⟨Dbl.fin 0, EEventType.CORE, 0, 1, 0⟩], none⟩ ∧
    runNextEvent (Scenario.env Real.sqrt) (Scenario.cradleAfter Real.sqrt 1)
      = ⟨Scenario.cradleAfter Real.sqrt 2,
          [Executed.ofInteraction 1 2 ⟨Dbl.fin 0, EEventType.CORE, 1, 2, 0⟩], none⟩ ∧
    runNextEvent (Scenario.env Real.sqrt) (Scenario.cradleAfter Real.sqrt 2)
      = ⟨Scenario.cradleAfter Real.sqrt 3,
          [Executed.ofInteraction 2 3 ⟨Dbl.fin 0, EEventType.CORE, 2, 3, 0⟩], none⟩ ∧
    (Scenario.cradleAfter Real.sqrt 3).particles = Scenario.cradleParts 0 0 0 1 ∧
    (Scenario.cradleAfter Real.sqrt 3).particles.particles.map (fun p => p.vel)
      = [⟨0, 0, 0⟩, ⟨0, 0, 0⟩, ⟨0, 0, 0⟩, ⟨1, 0, 0⟩] ∧
    (Scenario.cradleAfter Real.sqrt 3).systemTime = Dbl.fin 0 ∧
    (∀ i j : Fin 4,
      (Scenario.env Real.sqrt).getEvent (Scenario.cradleAfter Real.sqrt 3).particles i.val j.val
        = ⟨Dbl.HUGE_VAL, EEventType.NONE, i.val, j.val, 0⟩) ∧
    (Scenario.cradleAfter Real.sqrt 3).ptrScheduler.interactionCount = 0 ∧
    (runNextEvent (Scenario.env Real.sqrt) (Scenario.cradleAfter Real.sqrt 3)).ran = [] := by
  obtain ⟨h1, h2, h3, h4⟩ := Scenario.cradle_run Real.sqrt Real.sqrt_one
  have h0 : Scenario.cradleAfter Real.sqrt 0 = _ := Scenario.cradle_init Real.sqrt Real.sqrt_one
  refine ⟨by rw [h0]; rfl, h1, h2, h3, by rw [h4]; rfl, by rw [h4]; rfl, by rw [h4]; rfl,
    ?_, ?_, ?_⟩
  · intro i j
    rw [h4]
    exact Scenario.cradle_final_predictions Real.sqrt i.val j.val i.isLt j.isLt
  · rw [h4]
    simp [interactionCount, Scenario.cradle, Scenario.cradleSched, PELSingleEvent.top,
      PELSingleEvent.new, PELSingleEvent.clear]
  · rw [h4]
    exact (Scenario.cradle_step_3 Real.sqrt _).1

end Cradle

/-! ## Cell crossings: theorems -/

section CellCrossing

variable {K : Type} [LinearOrderedField K]

theorem Dbl.lt_imp_le {a b : Dbl K} (h : a.lt b = true) : a.le b = true := by
  cases a <;> cases b <;> simp_all [Dbl.lt, Dbl.le]
  exact le_of_lt h

theorem Dbl.not_lt_imp_le {a b : Dbl K} (ha : a.isnan = false) (hb : b.isnan = false)
    (h : a.lt b = false) : b.le a = true := by
  cases a <;> cases b <;> simp_all [Dbl.lt, Dbl.le, Dbl.isnan]

theorem Dbl.le_self {a : Dbl K} (ha : a.isnan = false) : a.le a = true := by
  cases a <;> simp_all [Dbl.le, Dbl.isnan]

theorem Dbl.le_chain {a b c : Dbl K} (h1 : a.le b = true) (h2 : b.le c = true) :
    a.le c = true := by
  cases a <;> cases b <;> cases c <;> simp_all [Dbl.le]
  exact le_trans h1 h2

theorem Dbl.lt_le_chain {a b c : Dbl K} (h1 : a.lt b = true) (h2 : b.le c = true) :
    a.lt c = true := by
  cases a <;> cases b <;> cases c <;> simp_all [Dbl.le, Dbl.lt]
  exact lt_of_lt_of_le h1 h2

theorem Dbl.lt_ne {a b : Dbl K} (h : a.lt b = true) : b ≠ a := by
  intro e
  subst e
  cases b <;> simp_all [Dbl.lt]

theorem Dbl.lt_isnan {a b : Dbl K} (h : a.lt b = true) :
    a.isnan = false ∧ b.isnan = false := by
  cases a <;> cases b <;> simp_all [Dbl.lt, Dbl.isnan]

theorem Dbl.ne_of_isnan {L : Type} {a b : Dbl L} (ha : a.isnan = true) (hb : b.isnan = false) :
    a ≠ b := by
  intro e
  subst e
  rw [ha] at hb
  exact Bool.noConfusion hb

/-- The two loops over three exit times.  The time kept by
`getSquareCellCollision2` is the time of the axis kept by
`getSquareCellCollision3`.  When the first exit time is NaN both loops keep
it, since no comparison with NaN holds.  Otherwise the time kept is not NaN,
it is at most every exit time that is not NaN, and the exit time of every
lower axis differs from it and, when not NaN, is above it. -/
theorem cell_loops (t : Nat → Dbl K) :
    ([1, 2].foldl (fun (st : Nat × Dbl K) iDim =>
        if (t iDim).lt st.2 then (iDim, t iDim) else st) (0, t 0)).1 < 3 ∧
    t ([1, 2].foldl (fun (st : Nat × Dbl K) iDim =>
        if (t iDim).lt st.2 then (iDim, t iDim) else st) (0, t 0)).1
      = [1, 2].foldl (fun retVal iDim =>
          if (t iDim).lt retVal then t iDim else retVal) (t 0) ∧
    ((t 0).isnan = true →
      [1, 2].foldl (fun retVal iDim =>
          if (t iDim).lt retVal then t iDim else retVal) (t 0) = t 0 ∧
      ([1, 2].foldl (fun (st : Nat × Dbl K) iDim =>
        if (t iDim).lt st.2 then (iDim, t iDim) else st) (0, t 0)).1 = 0) ∧
    ((t 0).isnan = false →
      ([1, 2].foldl (fun retVal iDim =>
          if (t iDim).lt retVal then t iDim else retVal) (t 0)).isnan = false ∧
      (∀ i, i < 3 → (t i).isnan = false → ([1, 2].foldl (fun retVal iDim =>
          if (t iDim).lt retVal then t iDim else retVal) (t 0)).le (t i) = true) ∧
      (∀ j, j < ([1, 2].foldl (fun (st : Nat × Dbl K) iDim =>
          if (t iDim).lt st.2 then (iDim, t iDim) else st) (0, t 0)).1 →
        t j ≠ [1, 2].foldl (fun retVal iDim =>
          if (t iDim).lt retVal then t iDim else retVal) (t 0) ∧
        ((t j).isnan = false → ([1, 2].foldl (fun retVal iDim =>
          if (t iDim).lt retVal then t iDim else retVal) (t 0)).lt (t j) = true))) := by
  simp only [List.foldl_cons, List.foldl_nil]
  cases h1 : (t 1).lt (t 0)
  · cases h2 : (t 2).lt (t 0)
    · simp only [h1, h2, Bool.false_eq_true, if_false]
      refine ⟨by norm_num, trivial, fun _ => ⟨trivial, trivial⟩, fun hn0 => ⟨hn0, ?_, ?_⟩⟩
      · intro i hi hni
        interval_cases i
        · exact Dbl.le_self hn0
        · exact Dbl.not_lt_imp_le hni hn0 h1
        · exact Dbl.not_lt_imp_le hni hn0 h2
      · intro j hj
        exact absurd hj (by norm_num)
    · have hn2 := (Dbl.lt_isnan h2).1
      have hn0 := (Dbl.lt_isnan h2).2
      simp only [h1, h2, Bool.false_eq_true, if_false, if_true]
      refine ⟨by norm_num, trivial, fun hnan => ?_, fun _ => ⟨hn2, ?_, ?_⟩⟩
      · rw [hnan] at hn0
        exact Bool.noConfusion hn0
      · intro i hi hni
        interval_cases i
        · exact Dbl.lt_imp_le h2
        · exact Dbl.le_chain (Dbl.lt_imp_le h2) (Dbl.not_lt_imp_le hni hn0 h1)
        · exact Dbl.le_self hn2
      · intro j hj
        interval_cases j
        · exact ⟨Dbl.lt_ne h2, fun _ => h2⟩
        · cases hn1 : (t 1).isnan
          · have hlt := Dbl.lt_le_chain h2 (Dbl.not_lt_imp_le hn1 hn0 h1)
            exact ⟨Dbl.lt_ne hlt, fun _ => hlt⟩
          · exact ⟨Dbl.ne_of_isnan hn1 hn2, fun h => Bool.noConfusion h⟩
  · have hn1 := (Dbl.lt_isnan h1).1
    have hn0 := (Dbl.lt_isnan h1).2
    cases h2 : (t 2).lt (t 1)
    · simp only [h1, h2, Bool.false_eq_true, if_false, if_true]
      refine ⟨by norm_num, trivial, fun hnan => ?_, fun _ => ⟨hn1, ?_, ?_⟩⟩
      · rw [hnan] at hn0
        exact Bool.noConfusion hn0
      · intro i hi hni
        interval_cases i
        · exact Dbl.lt_imp_le h1
        · exact Dbl.le_self hn1
        · exact Dbl.not_lt_imp_le hni hn1 h2
      · intro j hj
        interval_cases j
        exact ⟨Dbl.lt_ne h1, fun _ => h1⟩
    · have hn2 := (Dbl.lt_isnan h2).1
      simp only [h1, h2, if_true]
      refine ⟨by norm_num, trivial, fun hnan => ?_, fun _ => ⟨hn2, ?_, ?_⟩⟩
      · rw [hnan] at hn0
        exact Bool.noConfusion hn0
      · intro i hi hni
        interval_cases i
        · exact Dbl.lt_imp_le (Dbl.lt_le_chain h2 (Dbl.lt_imp_le h1))
        · exact Dbl.lt_imp_le h2
        · exact Dbl.le_self hn2
      · intro j hj
        interval_cases j
        · have hlt := Dbl.lt_le_chain h2 (Dbl.lt_imp_le h1)
          exact ⟨Dbl.lt_ne hlt, fun _ => hlt⟩
        · exact ⟨Dbl.lt_ne h2, fun _ => h2⟩

/-- C21 fails when the first exit time is NaN: a particle on the upper x face
of the unit cell (`rpos_0 = width_0 = 1`) with `v = (0, 1, 0)` has the exit
times `0/0`, `1/2` and `+∞`; no comparison with NaN holds, so
`getSquareCellCollision2` returns NaN, which is not at most `1/2`, and
`getSquareCellCollision3` returns axis 0, although the particle leaves through
the y face at time `1/2`. -/
theorem getSquareCellCollision_nan_first_axis :
    CLNewton.cellExitTime (⟨1, 1 / 2, 1 / 2⟩ : Vector ℚ) ⟨0, 1, 0⟩ ⟨1, 1, 1⟩
        (fun _ => false) 0 = Dbl.nan ∧
    CLNewton.cellExitTime (⟨1, 1 / 2, 1 / 2⟩ : Vector ℚ) ⟨0, 1, 0⟩ ⟨1, 1, 1⟩
        (fun _ => false) 1 = Dbl.fin (1 / 2) ∧
    CLNewton.cellExitTime (⟨1, 1 / 2, 1 / 2⟩ : Vector ℚ) ⟨0, 1, 0⟩ ⟨1, 1, 1⟩
        (fun _ => false) 2 = Dbl.pinf ∧
    CLNewton.getSquareCellCollision2 BC.none
        (⟨⟨1, 1 / 2, 1 / 2⟩, ⟨0, 1, 0⟩, 0, 0⟩ : CParticle ℚ) ⟨0, 0, 0⟩ ⟨1, 1, 1⟩
        (fun _ => false) = Dbl.nan ∧
    CLNewton.getSquareCellCollision3 BC.none
        (⟨⟨1, 1 / 2, 1 / 2⟩, ⟨0, 1, 0⟩, 0, 0⟩ : CParticle ℚ) ⟨0, 0, 0⟩ ⟨1, 1, 1⟩
        (fun _ => false) = 0 ∧
    (Dbl.nan : Dbl ℚ).le (Dbl.fin (1 / 2)) = false := by
  refine ⟨?_, ?_, ?_, ?_, ?_, ?_⟩
  · norm_num [CLNewton.cellExitTime, Dbl.ofDiv, Vector.get]
  · norm_num [CLNewton.cellExitTime, Dbl.ofDiv, Vector.get]
  · norm_num [CLNewton.cellExitTime, Dbl.ofDiv, Vector.get]
  · norm_num [CLNewton.getSquareCellCollision2, CLNewton.cellExitTime, Dbl.ofDiv, Vector.get,
      BC.none, Vector.sub, Dbl.lt]
  · norm_num [CLNewton.getSquareCellCollision3, CLNewton.cellExitTime, Dbl.ofDiv, Vector.get,
      BC.none, Vector.sub, Dbl.lt]
  · rfl

/-- C21, amended: with `t_i` the exit time of axis `i` (for `v_i ≠ 0` the number
`−rpos_i/v_i` if `v_i < 0`, else `(width_i − rpos_i)/v_i`; for `v_i = 0` it is
`+∞` or `−∞` after the signs of `width_i − rpos_i` and of the zero, and NaN
exactly when `rpos_i = width_i`), the axis returned by
`getSquareCellCollision3` is below 3 and its exit time is the time returned by
`getSquareCellCollision2`.  When `t_0` is NaN the two functions return NaN and
axis 0.  Otherwise the time returned is not NaN and is at most every `t_i`
that is not NaN, so it is their minimum, and every axis `j` lower than the
returned one has an exit time other than the time returned (above it, when
not NaN), so the returned axis is the lowest one whose exit time equals the
minimum. -/
theorem getSquareCellCollision_min_axis {K : Type} [LinearOrderedField K] (bc : BC K)
    (part : CParticle K) (origin width : Vector K) (negZero : Nat → Bool) :
    let rpos := (bc (part.pos.sub origin) part.vel).1
    let vel := (bc (part.pos.sub origin) part.vel).2
    let t := CLNewton.cellExitTime rpos vel width negZero
    let dt := CLNewton.getSquareCellCollision2 bc part origin width negZero
    let axis := CLNewton.getSquareCellCollision3 bc part origin width negZero
    axis < 3 ∧ t axis = dt ∧
    (∀ i, vel.get i ≠ 0 →
      t i = Dbl.fin (if vel.get i < 0 then -(rpos.get i) / vel.get i
        else (width.get i - rpos.get i) / vel.get i)) ∧
    (∀ i, vel.get i = 0 →
      (rpos.get i < width.get i → t i = if negZero i then Dbl.ninf else Dbl.pinf) ∧
      (width.get i < rpos.get i → t i = if negZero i then Dbl.pinf else Dbl.ninf)) ∧
    (∀ i, (t i).isnan = true ↔ (vel.get i = 0 ∧ rpos.get i = width.get i)) ∧
    ((t 0).isnan = true → dt = t 0 ∧ axis = 0) ∧
    ((t 0).isnan = false →
      dt.isnan = false ∧
      (∀ i, i < 3 → (t i).isnan = false → dt.le (t i) = true) ∧
      (∀ j, j < axis → t j ≠ dt ∧ ((t j).isnan = false → dt.lt (t j) = true))) := by
  intro rpos vel t dt axis
  obtain ⟨h1, h2, h3, h4⟩ := cell_loops t
  refine ⟨h1, h2, ?_, ?_, ?_, h3, h4⟩
  · intro i hi
    simp only [t, CLNewton.cellExitTime, Dbl.ofDiv, if_neg hi]
    split <;> rfl
  · intro i hi
    constructor
    · intro hlt
      have hpos : 0 < width.get i - rpos.get i := sub_pos.mpr hlt
      simp [t, CLNewton.cellExitTime, Dbl.ofDiv, hi, hpos]
    · intro hlt
      have hneg : width.get i - rpos.get i < 0 := sub_neg.mpr hlt
      have hpos : ¬ 0 < width.get i - rpos.get i := not_lt.mpr hneg.le
      simp [t, CLNewton.cellExitTime, Dbl.ofDiv, hi, hpos, hneg]
  · intro i
    simp only [t, CLNewton.cellExitTime, Dbl.ofDiv]
    by_cases hv : vel.get i < 0
    · have hne : vel.get i ≠ 0 := ne_of_lt hv
      simp [hv, hne, Dbl.isnan]
    · by_cases h0 : vel.get i = 0
      · rcases lt_trichotomy (width.get i - rpos.get i) 0 with h | h | h
        · have h' : ¬ 0 < width.get i - rpos.get i := not_lt.mpr h.le
          have hne : rpos.get i ≠ width.get i := by
            intro e; rw [e, sub_self] at h; exact lt_irrefl _ h
          cases negZero i <;> simp [hv, h0, h, h', hne, Dbl.isnan]
        · have hne : rpos.get i = width.get i := (sub_eq_zero.mp h).symm
          simp [hv, h0, h, hne, Dbl.isnan]
        · have hne : rpos.get i ≠ width.get i := by
            intro e; rw [e, sub_self] at h; exact lt_irrefl _ h
          cases negZero i <;> simp [hv, h0, h, hne, Dbl.isnan]
      · simp [hv, h0, Dbl.isnan]

/-- C21, amended, at a particle at `(1/4, 1/2, 1/2)` of the unit cell moving
with velocity `(-1, 1, 0)`: the exit times are `1/4`, `1/2` and `+∞`; the time
is `1/4`, at most each of them, and the axis is 0. -/
theorem getSquareCellCollision_min_axis_witness :
    CLNewton.getSquareCellCollision2 BC.none
        (⟨⟨1 / 4, 1 / 2, 1 / 2⟩, ⟨-1, 1, 0⟩, 0, 0⟩ : CParticle ℚ) ⟨0, 0, 0⟩ ⟨1, 1, 1⟩
        (fun _ => false) = Dbl.fin (1 / 4) ∧
    CLNewton.getSquareCellCollision3 BC.none
        (⟨⟨1 / 4, 1 / 2, 1 / 2⟩, ⟨-1, 1, 0⟩, 0, 0⟩ : CParticle ℚ) ⟨0, 0, 0⟩ ⟨1, 1, 1⟩
        (fun _ => false) = 0 ∧
    ∀ i, i < 3 →
      (CLNewton.getSquareCellCollision2 BC.none
        (⟨⟨1 / 4, 1 / 2, 1 / 2⟩, ⟨-1, 1, 0⟩, 0, 0⟩ : CParticle ℚ) ⟨0, 0, 0⟩ ⟨1, 1, 1⟩
        (fun _ => false)).le
        (CLNewton.cellExitTime (⟨1 / 4, 1 / 2, 1 / 2⟩ : Vector ℚ) ⟨-1, 1, 0⟩ ⟨1, 1, 1⟩
          (fun _ => false) i)
        = true := by
  have ht : ∀ i, i < 3 →
      (CLNewton.cellExitTime (⟨1 / 4, 1 / 2, 1 / 2⟩ : Vector ℚ) ⟨-1, 1, 0⟩ ⟨1, 1, 1⟩
        (fun _ => false) i).isnan = false := by
    intro i hi
    interval_cases i <;>
      norm_num [CLNewton.cellExitTime, Dbl.ofDiv, Vector.get, Dbl.isnan]
  have h := (getSquareCellCollision_min_axis BC.none
    (⟨⟨1 / 4, 1 / 2, 1 / 2⟩, ⟨-1, 1, 0⟩, 0, 0⟩ : CParticle ℚ) ⟨0, 0, 0⟩ ⟨1, 1, 1⟩
    (fun _ => false)).2.2.2.2.2.2
    (by simpa [BC.none, Vector.sub] using ht 0 (by norm_num))
  refine ⟨?_, ?_, ?_⟩
  · norm_num [CLNewton.getSquareCellCollision2, CLNewton.cellExitTime, Dbl.ofDiv, Vector.get,
      BC.none, Vector.sub, Dbl.lt]
  · norm_num [CLNewton.getSquareCellCollision3, CLNewton.cellExitTime, Dbl.ofDiv, Vector.get,
      BC.none, Vector.sub, Dbl.lt]
  · intro i hi
    have := h.2.1 i hi (by simpa [BC.none, Vector.sub] using ht i hi)
    simpa [BC.none, Vector.sub] using this

/-- The negative zero: a particle in the middle of the unit cell whose only
non-zero velocity component is `v_1 = 1`, with `v_0 = -0.0`, has the exit time
`(1 - 1/2) / -0.0 = −∞` along x, which the two functions return with axis 0;
with `v_0 = +0.0` they return `1/2` and axis 1. -/
theorem getSquareCellCollision_negative_zero :
    CLNewton.getSquareCellCollision2 BC.none
        (⟨⟨1 / 2, 1 / 2, 1 / 2⟩, ⟨0, 1, 0⟩, 0, 0⟩ : CParticle ℚ) ⟨0, 0, 0⟩ ⟨1, 1, 1⟩
        (fun i => decide (i = 0)) = Dbl.ninf ∧
    CLNewton.getSquareCellCollision3 BC.none
        (⟨⟨1 / 2, 1 / 2, 1 / 2⟩, ⟨0, 1, 0⟩, 0, 0⟩ : CParticle ℚ) ⟨0, 0, 0⟩ ⟨1, 1, 1⟩
        (fun i => decide (i = 0)) = 0 ∧
    CLNewton.getSquareCellCollision2 BC.none
        (⟨⟨1 / 2, 1 / 2, 1 / 2⟩, ⟨0, 1, 0⟩, 0, 0⟩ : CParticle ℚ) ⟨0, 0, 0⟩ ⟨1, 1, 1⟩
        (fun _ => false) = Dbl.fin (1 / 2) ∧
    CLNewton.getSquareCellCollision3 BC.none
        (⟨⟨1 / 2, 1 / 2, 1 / 2⟩, ⟨0, 1, 0⟩, 0, 0⟩ : CParticle ℚ) ⟨0, 0, 0⟩ ⟨1, 1, 1⟩
        (fun _ => false) = 1 := by
  refine ⟨?_, ?_, ?_, ?_⟩ <;>
    norm_num [CLNewton.getSquareCellCollision2, CLNewton.getSquareCellCollision3,
      CLNewton.cellExitTime, Dbl.ofDiv, Vector.get, BC.none, Vector.sub, Dbl.lt]

end CellCrossing

section ShearingCellsMove

/-- The step of a cell coordinate by one cell in `size_t` arithmetic. -/
theorem size_t_step_mod (old count : Nat) (step : Int) (hs : step = 1 ∨ step = -1)
    (hc : 0 < count) (hb : old + count + 1 < 2 ^ 64) :
    ((size_t ((old : Int) + (count : Int) + step) % count : Nat) : Int)
      = ((old : Int) + step) % (count : Int) := by
  have h0 : 0 ≤ (old : Int) + (count : Int) + step := by rcases hs with h | h <;> omega
  have h1 : (old : Int) + (count : Int) + step < 2 ^ 64 := by rcases hs with h | h <;> omega
  have e : size_t ((old : Int) + (count : Int) + step)
      = ((old : Int) + (count : Int) + step).toNat := by
    unfold size_t
    rw [Int.emod_eq_of_lt h0 h1]
  rw [e, Int.natCast_mod, Int.toNat_of_nonneg h0]
  have : (old : Int) + (count : Int) + step = ((old : Int) + step) + (count : Int) := by ring
  rw [this, Int.add_emod_self]

theorem MortonNumber.get_set_same (m : MortonNumber) (i v : Nat) (hi : i < 3) :
    (m.set i v).get i = v := by
  interval_cases i <;> rfl

theorem MortonNumber.get_set_ne (m : MortonNumber) (i j v : Nat) (h : j ≠ i) :
    (m.set i v).get j = m.get j := by
  rcases i with _ | _ | _ | i <;> rcases j with _ | _ | _ | j <;>
    first | rfl | exact absurd rfl h

/-- The value of `abs(cellDirectionInt) - 1` as a `size_t` for the six
directions. -/
theorem size_t_direction (c : Int)
    (hc : c = 1 ∨ c = -1 ∨ c = 2 ∨ c = -2 ∨ c = 3 ∨ c = -3) :
    size_t (|c| - 1) = c.natAbs - 1 ∧ c.natAbs - 1 < 3 := by
  rcases hc with h | h | h | h | h | h <;> subst h <;>
    exact ⟨by norm_num [size_t] <;> decide, by decide⟩

/-- The cell a particle enters, in terms of the branch taken by `runEvent`. -/
theorem runEvent_endCell_eq (self : GCellsShearing) (part : Nat) (c : Int)
    (wrapped : MortonNumber)
    (hc : c = 1 ∨ c = -1 ∨ c = 2 ∨ c = -2 ∨ c = 3 ∨ c = -3) :
    (self.runEvent part c wrapped).1
      = self.moveTo (self.getCellID part) (self.runEvent part c wrapped).2 part ∧
    (self.runEvent part c wrapped).2
      = if c.natAbs - 1 = 1 ∧ (self.getCellID part).get 1
            = (if c < 0 then 0 else size_t ((self.cellCount.get 1 : Int) - 1)) then
          ((self.getCellID part).set 1
            (size_t (((self.getCellID part).get 1 : Int) + (self.cellCount.get 1 : Int)
              + Int.sign c) % self.cellCount.get 1)).set 0 (wrapped.get 0)
        else
          (self.getCellID part).set (c.natAbs - 1)
            (size_t (((self.getCellID part).get (c.natAbs - 1) : Int)
              + (self.cellCount.get (c.natAbs - 1) : Int) + Int.sign c)
              % self.cellCount.get (c.natAbs - 1)) := by
  obtain ⟨hd, -⟩ := size_t_direction c hc
  have hs1 : (if c < 0 then (-1 : Int) else 1) = Int.sign c := by
    rcases hc with h | h | h | h | h | h <;> subst h <;> decide
  have hs2 : (if c > 0 then (1 : Int) else -1) = Int.sign c := by
    rcases hc with h | h | h | h | h | h <;> subst h <;> decide
  simp only [GCellsShearing.runEvent, hd, hs1, hs2, ite_self]
  by_cases hA : c.natAbs - 1 = 1 ∧ (self.getCellID part).get 1
      = (if c < 0 then 0 else size_t ((self.cellCount.get 1 : Int) - 1))
  · rw [if_pos hA, if_pos hA]
    exact ⟨rfl, rfl⟩
  · rw [if_neg hA, if_neg hA]
    exact ⟨rfl, rfl⟩

/-- C22: for a crossing direction `c ∈ {±1, ±2, ±3}` with axis `a = |c| − 1`,
a non-empty row of cells along `a` and cell numbers far from the end of
`size_t`, `GCellsShearing::runEvent` moves the particle to the cell whose
coordinate along `a` is `(old_a + sign(c)) mod cellCount[a]`; when the move
wraps across the `y` boundary (`a = 1` and `old_y` is 0 moving down or
`cellCount[1] − 1` moving up) the `x` coordinate is that of the wrapped
predicted crossing position and `z` is unchanged; otherwise every other
coordinate is unchanged; the cells of the other particles are unchanged. -/
theorem GCellsShearing_runEvent_endCell (self : GCellsShearing) (part : Nat) (c : Int)
    (wrapped : MortonNumber)
    (hc : c = 1 ∨ c = -1 ∨ c = 2 ∨ c = -2 ∨ c = 3 ∨ c = -3)
    (hcount : 0 < self.cellCount.get (c.natAbs - 1))
    (hbound : (self.getCellID part).get (c.natAbs - 1)
      + self.cellCount.get (c.natAbs - 1) + 1 < 2 ^ 64) :
    let a := c.natAbs - 1
    let old := self.getCellID part
    let endCell := (self.runEvent part c wrapped).2
    ((endCell.get a : Int) = ((old.get a : Int) + Int.sign c) % (self.cellCount.get a : Int)) ∧
    ((a = 1 ∧ ((c < 0 ∧ old.get 1 = 0) ∨ (0 < c ∧ old.get 1 = self.cellCount.get 1 - 1))) →
      endCell.get 0 = wrapped.get 0 ∧ endCell.get 2 = old.get 2) ∧
    (¬ (a = 1 ∧ ((c < 0 ∧ old.get 1 = 0) ∨ (0 < c ∧ old.get 1 = self.cellCount.get 1 - 1))) →
      ∀ i, i ≠ a → endCell.get i = old.get i) ∧
    (self.runEvent part c wrapped).1 = self.moveTo old endCell part ∧
    (part < self._cellData.length →
      (self.runEvent part c wrapped).1.getCellID part = endCell) ∧
    (∀ q, q ≠ part → (self.runEvent part c wrapped).1.getCellID q = self.getCellID q) := by
  intro a old endCell
  obtain ⟨hmove, hend⟩ := runEvent_endCell_eq self part c wrapped hc
  obtain ⟨-, ha⟩ := size_t_direction c hc
  have hsgn : Int.sign c = 1 ∨ Int.sign c = -1 := by
    rcases hc with h | h | h | h | h | h <;> subst h <;> decide
  have hstep := size_t_step_mod (old.get a) (self.cellCount.get a) (Int.sign c) hsgn hcount
    hbound
  -- the test of the first branch is the wrap across the y boundary
  have hcond : (a = 1 ∧ old.get 1
        = (if c < 0 then 0 else size_t ((self.cellCount.get 1 : Int) - 1)))
      ↔ (a = 1 ∧ ((c < 0 ∧ old.get 1 = 0) ∨
          (0 < c ∧ old.get 1 = self.cellCount.get 1 - 1))) := by
    constructor
    · rintro ⟨h1, h2⟩
      refine ⟨h1, ?_⟩
      have hc1 : 0 < self.cellCount.get 1 := h1 ▸ hcount
      have hb1 : self.cellCount.get 1 < 2 ^ 64 := by
        have := hbound
        rw [show c.natAbs - 1 = 1 from h1] at this
        omega
      have hsz : size_t ((self.cellCount.get 1 : Int) - 1) = self.cellCount.get 1 - 1 := by
        unfold size_t
        rw [Int.emod_eq_of_lt (by omega) (by omega)]
        omega
      by_cases hneg : c < 0
      · rw [if_pos hneg] at h2
        exact Or.inl ⟨hneg, h2⟩
      · rw [if_neg hneg, hsz] at h2
        have hpos : 0 < c := by
          rcases hc with h | h | h | h | h | h <;> subst h <;> first | decide | exact absurd (by decide) hneg
        exact Or.inr ⟨hpos, h2⟩
    · rintro ⟨h1, h2⟩
      refine ⟨h1, ?_⟩
      have hc1 : 0 < self.cellCount.get 1 := h1 ▸ hcount
      have hb1 : self.cellCount.get 1 < 2 ^ 64 := by
        have := hbound
        rw [show c.natAbs - 1 = 1 from h1] at this
        omega
      have hsz : size_t ((self.cellCount.get 1 : Int) - 1) = self.cellCount.get 1 - 1 := by
        unfold size_t
        rw [Int.emod_eq_of_lt (by omega) (by omega)]
        omega
      rcases h2 with ⟨hneg, h3⟩ | ⟨hpos, h3⟩
      · rw [if_pos hneg]; exact h3
      · rw [if_neg (by omega), hsz]; exact h3
  have hend2 : endCell
      = if a = 1 ∧ old.get 1
            = (if c < 0 then 0 else size_t ((self.cellCount.get 1 : Int) - 1)) then
          (old.set 1 (size_t ((old.get 1 : Int) + (self.cellCount.get 1 : Int) + Int.sign c)
            % self.cellCount.get 1)).set 0 (wrapped.get 0)
        else
          old.set a (size_t ((old.get a : Int) + (self.cellCount.get a : Int) + Int.sign c)
            % self.cellCount.get a) := hend
  refine ⟨?_, ?_, ?_, hmove, ?_, ?_⟩
  · by_cases hA : a = 1 ∧ old.get 1
        = (if c < 0 then 0 else size_t ((self.cellCount.get 1 : Int) - 1))
    · rw [hend2, if_pos hA]
      have ha1 : a = 1 := hA.1
      rw [ha1] at hstep ⊢
      rw [MortonNumber.get_set_ne _ 0 1 _ (by decide), MortonNumber.get_set_same _ 1 _ (by decide)]
      exact hstep
    · rw [hend2, if_neg hA, MortonNumber.get_set_same _ a _ ha]
      exact hstep
  · intro hW
    have hA := hcond.mpr hW
    rw [hend2, if_pos hA]
    refine ⟨MortonNumber.get_set_same _ 0 _ (by decide), ?_⟩
    rw [MortonNumber.get_set_ne _ 0 2 _ (by decide), MortonNumber.get_set_ne _ 1 2 _ (by decide)]
  · intro hW i hi
    have hA : ¬ (a = 1 ∧ old.get 1
        = (if c < 0 then 0 else size_t ((self.cellCount.get 1 : Int) - 1))) :=
      fun h => hW (hcond.mp h)
    rw [hend2, if_neg hA, MortonNumber.get_set_ne _ a i _ hi]
  · intro hp
    rw [hmove]
    simp [GCellsShearing.moveTo, GCellsShearing.getCellID, List.getD_eq_getElem?_getD, hp]
  · intro q hq
    rw [hmove]
    simp [GCellsShearing.moveTo, GCellsShearing.getCellID, List.getD_eq_getElem?_getD,
      List.getElem?_set, Ne.symm hq]

/-- C22, at a particle in the cell `(1, 3, 2)` of a `4 × 4 × 4` grid leaving
upwards in `y` (`c = +2`): the move wraps, the new `y` is `(3 + 1) mod 4 = 0`,
the new `x` is the one of the wrapped crossing position and `z` stays. -/
theorem GCellsShearing_runEvent_endCell_witness :
    ((⟨0, 1, ⟨4, 4, 4⟩, ⟨3, 3, 3⟩, [⟨1, 3, 2⟩]⟩ : GCellsShearing).runEvent 0 2 ⟨2, 0, 2⟩).2
      = ⟨2, 0, 2⟩ ∧
    ((((⟨0, 1, ⟨4, 4, 4⟩, ⟨3, 3, 3⟩, [⟨1, 3, 2⟩]⟩ : GCellsShearing).runEvent 0 2
          ⟨2, 0, 2⟩).2.get 1 : Nat) : Int)
      = ((3 : Int) + 1) % 4 ∧
    ((⟨0, 1, ⟨4, 4, 4⟩, ⟨3, 3, 3⟩, [⟨1, 3, 2⟩]⟩ : GCellsShearing).runEvent 0 2
        ⟨2, 0, 2⟩).2.get 0 = 2 ∧
    ((⟨0, 1, ⟨4, 4, 4⟩, ⟨3, 3, 3⟩, [⟨1, 3, 2⟩]⟩ : GCellsShearing).runEvent 0 2
        ⟨2, 0, 2⟩).2.get 2 = 2 := by
  have h := GCellsShearing_runEvent_endCell
    ⟨0, 1, ⟨4, 4, 4⟩, ⟨3, 3, 3⟩, [⟨1, 3, 2⟩]⟩ 0 2 ⟨2, 0, 2⟩ (by decide) (by decide) (by decide)
  have hw := h.2.1 ⟨by decide, Or.inr ⟨by decide, by decide⟩⟩
  exact ⟨by decide, h.1, hw.1, hw.2⟩

end ShearingCellsMove

section ShearingCellsStrip

/-- The inner loop of `getAdditionalLEParticleNeighbourhood`: a walk along `x`
from `x = 0`. -/
theorem leStrip_inner (f : MortonNumber → List Nat) (y z n : Nat) (l : List Nat) :
    (List.range n).foldl
        (fun (st : MortonNumber × List Nat) _j =>
          let neighbours := f st.1
          (st.1.set 0 (st.1.get 0 + 1), st.2 ++ neighbours))
        (⟨0, y, z⟩, l)
      = (⟨n, y, z⟩, l ++ (List.range n).flatMap (fun j => f ⟨j, y, z⟩)) := by
  induction n with
  | zero => simp
  | succ n ih =>
    rw [List.range_succ, List.foldl_append, ih]
    simp [List.flatMap_append, MortonNumber.set, MortonNumber.get]

/-- The outer loop of `getAdditionalLEParticleNeighbourhood`: the walk along
`z`, modulo the number of cells. -/
theorem leStrip_outer (f : MortonNumber → List Nat) (count0 count2 y z0 m : Nat)
    (l : List Nat) :
    ∃ Z, Z % count2 = (z0 + m) % count2 ∧
      (List.range m).foldl
        (fun (st : MortonNumber × List Nat) _i =>
          let cellCoords := st.1.set 2 (st.1.get 2 % count2)
          let st := (List.range count0).foldl
            (fun (st : MortonNumber × List Nat) _j =>
              let neighbours := f st.1
              (st.1.set 0 (st.1.get 0 + 1), st.2 ++ neighbours))
            (cellCoords, st.2)
          let cellCoords := st.1.set 2 (st.1.get 2 + 1)
          (cellCoords.set 0 0, st.2))
        (⟨0, y, z0⟩, l)
      = (⟨0, y, Z⟩, l ++ (List.range m).flatMap (fun k =>
          (List.range count0).flatMap (fun j => f ⟨j, y, (z0 + k) % count2⟩))) := by
  induction m with
  | zero => exact ⟨z0, rfl, by simp⟩
  | succ m ih =>
    obtain ⟨Z, hZ, hfold⟩ := ih
    refine ⟨Z % count2 + 1, ?_, ?_⟩
    · rw [Nat.add_mod, Nat.mod_mod, ← Nat.add_mod, ← Nat.add_assoc, Nat.add_mod Z 1, hZ,
        ← Nat.add_mod]
    · rw [List.range_succ, List.foldl_append, hfold]
      simp only [List.foldl_cons, List.foldl_nil]
      have hset : (⟨0, y, Z⟩ : MortonNumber).set 2 ((⟨0, y, Z⟩ : MortonNumber).get 2 % count2)
          = ⟨0, y, Z % count2⟩ := rfl
      rw [hset, leStrip_inner f y (Z % count2) count0, hZ]
      simp [List.flatMap_append, MortonNumber.set, MortonNumber.get]

/-- The `z` coordinate of the `k`-th row of the strip in `size_t` arithmetic. -/
theorem leStrip_z (z count2 overlink k : Nat) (hover : overlink ≤ z + count2)
    (hbound : z + count2 < 2 ^ 64) :
    (size_t ((z : Int) + (count2 : Int) - (overlink : Int)) % count2 + k) % count2
      = (((z : Int) - (overlink : Int) + (k : Int)) % (count2 : Int)).toNat := by
  have e : size_t ((z : Int) + (count2 : Int) - (overlink : Int)) = z + count2 - overlink := by
    unfold size_t
    rw [Int.emod_eq_of_lt (by omega) (by omega)]
    omega
  rw [e, Nat.add_mod, Nat.mod_mod, ← Nat.add_mod]
  have h2 : ((z : Int) - (overlink : Int) + (k : Int)) % (count2 : Int)
      = ((z + count2 - overlink + k : Nat) : Int) % (count2 : Int) := by
    have : ((z + count2 - overlink + k : Nat) : Int)
        = ((z : Int) - (overlink : Int) + (k : Int)) + (count2 : Int) := by
      omega
    rw [this, Int.add_emod_self]
  rw [h2, ← Int.natCast_mod, Int.toNat_natCast]

/-- C23: `getAdditionalLEParticleNeighbourhood` appends to `retlist`, in this
order, the contents of the cells `(x', y_opp, (z − overlink + k) mod
cellCount[2])` for `k = 0 … 2·overlink` and `x' = 0 … cellCount[0] − 1`, where
`y_opp` is the other `y` boundary (the maximum `y` index when `y = 0`, else 0);
these are `cellCount[0]·(2·overlink + 1)` cell visits, and the entries already
in the list stay in front (for a non-empty row of cells along `z` and
`overlink ≤ z + cellCount[2] < 2^64`). -/
theorem getAdditionalLEParticleNeighbourhood_strip (self : GCellsShearing)
    (cellCoords : MortonNumber) (retlist : List Nat)
    (hcount : 0 < self.cellCount.get 2)
    (hover : self.overlink ≤ cellCoords.z + self.cellCount.get 2)
    (hbound : cellCoords.z + self.cellCount.get 2 < 2 ^ 64) :
    self.getAdditionalLEParticleNeighbourhood cellCoords retlist
      = retlist ++ (self.leStrip cellCoords).flatMap self.getCellContents ∧
    (self.leStrip cellCoords).length = self.cellCount.get 0 * (2 * self.overlink + 1) ∧
    (∀ c ∈ self.leStrip cellCoords,
      c.x < self.cellCount.get 0 ∧
      c.y = (if cellCoords.y = 0 then self.dilatedCellMax.get 1 else 0) ∧
      ∃ k, k ≤ 2 * self.overlink ∧
        (c.z : Int) = ((cellCoords.z : Int) - (self.overlink : Int) + (k : Int))
          % (self.cellCount.get 2 : Int)) := by
  refine ⟨?_, ?_, ?_⟩
  · obtain ⟨Z, -, hfold⟩ := leStrip_outer self.getCellContents (self.cellCount.get 0)
      (self.cellCount.get 2) (if cellCoords.y > 0 then 0 else self.dilatedCellMax.get 1)
      (size_t ((cellCoords.z : Int) + (self.cellCount.get 2 : Int) - (self.overlink : Int))
        % self.cellCount.get 2) (2 * self.overlink + 1) retlist
    have hres : self.getAdditionalLEParticleNeighbourhood cellCoords retlist
        = retlist ++ (List.range (2 * self.overlink + 1)).flatMap (fun k =>
          (List.range (self.cellCount.get 0)).flatMap (fun j => self.getCellContents
            ⟨j, if cellCoords.y > 0 then 0 else self.dilatedCellMax.get 1,
              (size_t ((cellCoords.z : Int) + (self.cellCount.get 2 : Int)
                - (self.overlink : Int)) % self.cellCount.get 2 + k)
                % self.cellCount.get 2⟩)) :=
      congrArg Prod.snd hfold
    rw [hres]
    congr 1
    simp only [GCellsShearing.leStrip, List.flatMap_assoc, List.flatMap_map]
    congr 1
    funext k
    congr 1
    funext j
    rw [leStrip_z _ _ _ k hover hbound]
    by_cases hy : cellCoords.y = 0
    · simp [hy]
    · have : cellCoords.y > 0 := Nat.pos_of_ne_zero hy
      simp [hy, this]
  · simp [GCellsShearing.leStrip, List.length_flatMap, Function.comp_def, Nat.mul_comm]
  · intro c hc
    simp only [GCellsShearing.leStrip, List.mem_flatMap, List.mem_map, List.mem_range] at hc
    obtain ⟨k, hk, x', hx, rfl⟩ := hc
    refine ⟨hx, rfl, k, by omega, ?_⟩
    simp only []
    rw [Int.toNat_of_nonneg (Int.emod_nonneg _ (by omega))]

/-- C23, at the cell `(1, 0, 0)` of a `2 × 3 × 3` grid with `overlink = 1`
holding particle 0, the cells `(0, 2, 2)` and `(1, 2, 0)` of the top row
holding particles 1 and 2: the strip is visited row by row from `z = 2`. -/
theorem getAdditionalLEParticleNeighbourhood_strip_witness :
    (⟨0, 1, ⟨2, 3, 3⟩, ⟨1, 2, 2⟩, [⟨1, 0, 0⟩, ⟨0, 2, 2⟩, ⟨1, 2, 0⟩]⟩ :
        GCellsShearing).getAdditionalLEParticleNeighbourhood ⟨1, 0, 0⟩ [7]
      = [7] ++ ((⟨0, 1, ⟨2, 3, 3⟩, ⟨1, 2, 2⟩, [⟨1, 0, 0⟩, ⟨0, 2, 2⟩, ⟨1, 2, 0⟩]⟩ :
          GCellsShearing).leStrip ⟨1, 0, 0⟩).flatMap
        (⟨0, 1, ⟨2, 3, 3⟩, ⟨1, 2, 2⟩, [⟨1, 0, 0⟩, ⟨0, 2, 2⟩, ⟨1, 2, 0⟩]⟩ :
          GCellsShearing).getCellContents ∧
    ((⟨0, 1, ⟨2, 3, 3⟩, ⟨1, 2, 2⟩, [⟨1, 0, 0⟩, ⟨0, 2, 2⟩, ⟨1, 2, 0⟩]⟩ :
        GCellsShearing).leStrip ⟨1, 0, 0⟩).length = 2 * (2 * 1 + 1) :=
  ⟨(getAdditionalLEParticleNeighbourhood_strip
      ⟨0, 1, ⟨2, 3, 3⟩, ⟨1, 2, 2⟩, [⟨1, 0, 0⟩, ⟨0, 2, 2⟩, ⟨1, 2, 0⟩]⟩ ⟨1, 0, 0⟩ [7]
      (by decide) (by decide) (by decide)).1,
   (getAdditionalLEParticleNeighbourhood_strip
      ⟨0, 1, ⟨2, 3, 3⟩, ⟨1, 2, 2⟩, [⟨1, 0, 0⟩, ⟨0, 2, 2⟩, ⟨1, 2, 0⟩]⟩ ⟨1, 0, 0⟩ [7]
      (by decide) (by decide) (by decide)).2.1⟩

/-- The same strip, evaluated: particles 1 and 2 are appended after the entry
already in the list. -/
theorem getAdditionalLEParticleNeighbourhood_example :
    (⟨0, 1, ⟨2, 3, 3⟩, ⟨1, 2, 2⟩, [⟨1, 0, 0⟩, ⟨0, 2, 2⟩, ⟨1, 2, 0⟩]⟩ :
        GCellsShearing).getAdditionalLEParticleNeighbourhood ⟨1, 0, 0⟩ [7] = [7, 1, 2] := by
  decide

end ShearingCellsStrip

/-! ## The shearing cell list: theorems -/

section ShearingCells

/-- C24 fails at `overlink = 0`: `initialise` throws although the overlink is
not above 1. -/
theorem GCellsShearing_initialise_rejects_zero_overlink :
    (⟨0, 0, ⟨4, 4, 4⟩, ⟨3, 3, 3⟩, []⟩ : GCellsShearing).overlink ≤ 1 ∧
    (⟨0, 0, ⟨4, 4, 4⟩, ⟨3, 3, 3⟩, []⟩ : GCellsShearing).initialise Except.ok 0
      = Except.error "Cannot shear with overlinking yet" := by
  exact ⟨by decide, rfl⟩

/-- C24, amended: `GCellsShearing::initialise` throws "Cannot shear with
overlinking yet" exactly when `overlink ≠ 1`, so for every overlink above 1 and
also for `overlink = 0`; for `overlink = 1` it sets the ID and goes on to
`reinitialise`. -/
theorem GCellsShearing_initialise_overlink (self : GCellsShearing)
    (reinitialise : GCellsShearing → Except String GCellsShearing) (nID : Nat) :
    (self.overlink ≠ 1 →
      self.initialise reinitialise nID = Except.error "Cannot shear with overlinking yet") ∧
    (self.overlink > 1 →
      self.initialise reinitialise nID = Except.error "Cannot shear with overlinking yet") ∧
    (self.overlink = 1 →
      self.initialise reinitialise nID = reinitialise { self with ID := nID }) := by
  refine ⟨?_, ?_, ?_⟩
  · intro h
    simp [GCellsShearing.initialise, h]
  · intro h
    have h' : self.overlink ≠ 1 := by omega
    simp [GCellsShearing.initialise, h']
  · intro h
    simp [GCellsShearing.initialise, h]

/-- C24, amended, at the overlinks 2 and 1. -/
theorem GCellsShearing_initialise_overlink_witness :
    (⟨0, 2, ⟨4, 4, 4⟩, ⟨3, 3, 3⟩, []⟩ : GCellsShearing).initialise Except.ok 7
      = Except.error "Cannot shear with overlinking yet" ∧
    (⟨0, 1, ⟨4, 4, 4⟩, ⟨3, 3, 3⟩, []⟩ : GCellsShearing).initialise Except.ok 7
      = Except.ok ⟨7, 1, ⟨4, 4, 4⟩, ⟨3, 3, 3⟩, []⟩ :=
  ⟨(GCellsShearing_initialise_overlink ⟨0, 2, ⟨4, 4, 4⟩, ⟨3, 3, 3⟩, []⟩ Except.ok 7).2.1
      (by decide),
   (GCellsShearing_initialise_overlink ⟨0, 1, ⟨4, 4, 4⟩, ⟨3, 3, 3⟩, []⟩ Except.ok 7).2.2 rfl⟩

end ShearingCells

/-! ## The validation pass: theorems -/

section Validation

/-- A fold keeps what each of its steps keeps. -/
theorem foldl_keeps {α β : Type} (P : α → Prop) (f : α → β → α) (l : List β) (a : α)
    (ha : P a) (hf : ∀ a b, P a → P (f a b)) : P (l.foldl f a) := by
  induction l generalizing a with
  | nil => exact ha
  | cons b l ih => exact ih (f a b) (hf a b ha)

/-- A call made with the flag `warnings < 101` keeps the counter counted. -/
theorem Scheduler.counted_step (w : Nat × List (Nat × ValidateCall)) (c : ValidateCall)
    (ht : c.textoutput = decide (w.1 < 101)) (h : Scheduler.Counted w) :
    Scheduler.Counted ((w.1 + c.count) % 2 ^ 64, w.2 ++ [(w.1, c)]) := by
  obtain ⟨h1, h2⟩ := h
  refine ⟨?_, ?_⟩
  · simp only [List.map_append, List.sum_append, List.map_cons, List.map_nil, List.sum_cons,
      List.sum_nil, Nat.add_zero]
    conv_lhs => rw [h1]
    exact Nat.mod_add_mod _ _ _
  · intro pre e post heq
    simp only at heq
    rcases List.append_eq_append_iff.mp heq with ⟨a, ha, hb⟩ | ⟨c1, ha, hb⟩
    · cases a with
      | nil =>
        simp only [List.nil_append, List.cons.injEq] at hb
        obtain ⟨hb, -⟩ := hb
        subst hb
        simp only [List.append_nil] at ha
        subst ha
        exact ⟨h1, ht⟩
      | cons x a =>
        simp only [List.cons_append, List.cons.injEq] at hb
        obtain ⟨-, hb⟩ := hb
        cases a <;> simp at hb
    · cases c1 with
      | nil =>
        simp only [List.nil_append, List.cons.injEq] at hb
        obtain ⟨hb, -⟩ := hb
        subst hb
        simp only [List.append_nil] at ha
        rw [← ha]
        exact ⟨h1, ht⟩
      | cons x c1 =>
        simp only [List.cons_append, List.cons.injEq] at hb
        obtain ⟨hb, -⟩ := hb
        subst hb
        exact h2 pre e c1 ha

/-- The first loop of `Scheduler::initialise` keeps the counter counted. -/
theorem Scheduler.counted_validateInteraction {σ : Type} (val : Validators σ) (st : σ)
    (w : Nat × List (Nat × ValidateCall)) (id : Nat) (h : Scheduler.Counted w) :
    Scheduler.Counted (Scheduler.validateInteraction val st w id) :=
  Scheduler.counted_step w
    (ValidateCall.ofInteraction id (decide (w.1 < 101)) (size_t (101 - (w.1 : Int)))
      (val.validateState id st (decide (w.1 < 101)) (size_t (101 - (w.1 : Int))))) rfl h

/-- The second loop of `Scheduler::initialise` keeps the counter counted. -/
theorem Scheduler.counted_validatePair {σ : Type} (val : Validators σ) (st : σ) (id1 : Nat)
    (w : Nat × List (Nat × ValidateCall)) (id2 : Nat) (h : Scheduler.Counted w) :
    Scheduler.Counted (Scheduler.validatePair val st id1 w id2) := by
  unfold Scheduler.validatePair
  by_cases hid : id2 > id1
  · simp only [hid, if_true]
    have := Scheduler.counted_step w
      (ValidateCall.ofPair id1 id2 (decide (w.1 < 101))
        (val.pairValidateState st id1 id2 (decide (w.1 < 101)))) rfl h
    cases hr : val.pairValidateState st id1 id2 (decide (w.1 < 101))
    · simp only [hr, ValidateCall.count, Bool.false_eq_true, if_false, Nat.add_zero] at this ⊢
      rwa [Nat.mod_eq_of_lt (by rw [h.1]; exact Nat.mod_lt _ (by norm_num))] at this
    · simpa only [hr, ValidateCall.count, if_true] using this
  · simpa only [hid, if_false] using h

/-- The third loop of `Scheduler::initialise` keeps the counter counted. -/
theorem Scheduler.counted_validateLocal {K σ δ : Type} (env : Plugins K σ δ) (val : Validators σ) (st : σ)
    (part : Nat) (w : Nat × List (Nat × ValidateCall)) (id : Nat)
    (h : Scheduler.Counted w) :
    Scheduler.Counted (Scheduler.validateLocal env val st part w id) := by
  unfold Scheduler.validateLocal
  cases hid : (Scheduler.localAt env id).isInteraction st part
  · simpa only [Bool.false_eq_true, if_false] using h
  · simp only [if_true]
    have := Scheduler.counted_step w
      (ValidateCall.ofLocal id part (decide (w.1 < 101))
        (val.localValidateState id st part (decide (w.1 < 101)))) rfl h
    cases hr : val.localValidateState id st part (decide (w.1 < 101))
    · simp only [hr, ValidateCall.count, Bool.false_eq_true, if_false, Nat.add_zero] at this ⊢
      rwa [Nat.mod_eq_of_lt (by rw [h.1]; exact Nat.mod_lt _ (by norm_num))] at this
    · simpa only [hr, ValidateCall.count, if_true] using this

/-- The three loops of `Scheduler::initialise` leave the counter counted. -/
theorem Scheduler.counted_validate {K σ δ : Type} [LinearOrderedField K] (env : Plugins K σ δ) (val : Validators σ) (st : σ) :
    Scheduler.Counted (Scheduler.validate env val st) := by
  unfold Scheduler.validate
  refine foldl_keeps Scheduler.Counted _ _ _ ?_ ?_
  · refine foldl_keeps Scheduler.Counted _ _ _ ?_ ?_
    · refine foldl_keeps Scheduler.Counted _ _ _ ?_ ?_
      · exact ⟨rfl, fun pre e post h => by simp at h⟩
      · exact fun w id h => Scheduler.counted_validateInteraction val st w id h
    · exact fun w id1 h => foldl_keeps Scheduler.Counted _ _ _ h
        (fun w id2 h => Scheduler.counted_validatePair val st id1 w id2 h)
  · exact fun w part h => foldl_keeps Scheduler.Counted _ _ _ h
      (fun w id h => Scheduler.counted_validateLocal env val st part w id h)

/-- C25, as stated, fails at the hundredth warning: when the interaction's own
check has found 100 invalid states, the pair check of particles 0 and 1 is
still called with the text-output flag true, and so 101 warnings are reported;
the flag is false from the next call on. -/
theorem Scheduler_initialise_reports_with_100_warnings :
    (Scheduler.initialise (Scenario.env (fun x => x)) (Scenario.warningValidators 100)
        (Scenario.overlapSim ℚ)).calls
      = [(0, ValidateCall.ofInteraction 0 true 101 100),
         (100, ValidateCall.ofPair 0 1 true true),
         (101, ValidateCall.ofLocal 0 0 false false),
         (101, ValidateCall.ofLocal 0 1 false false)] := by
  decide

/-- C25, amended: in `Scheduler::initialise` the text-output flag of every
`validateState` call is true if and only if at most 100 warnings have been
counted so far (`warnings < 101`), the warnings counted so far being those of
all earlier calls; the final counter is the number of warnings of all calls
(as a `size_t`), the message on suppressed output is written when it is above
100, and the simulation afterwards is the one `rebuildList` builds. -/
theorem Scheduler_initialise_warnings {K σ δ : Type} [LinearOrderedField K]
    (env : Plugins K σ δ) (val : Validators σ)
    (sim : Simulation K σ) :
    (∀ pre e post, (Scheduler.initialise env val sim).calls = pre ++ e :: post →
        e.1 = ((pre.map (fun e => e.2.count)).sum) % 2 ^ 64
          ∧ (e.2.textoutput = true ↔ e.1 < 101))
      ∧ (Scheduler.initialise env val sim).warnings
          = (((Scheduler.initialise env val sim).calls.map (fun e => e.2.count)).sum) % 2 ^ 64
      ∧ ((Scheduler.initialise env val sim).suppressed = true
          ↔ (Scheduler.initialise env val sim).warnings > 100)
      ∧ (Scheduler.initialise env val sim).sim = Scheduler.rebuildList env sim := by
  have h := Scheduler.counted_validate env val sim.particles
  refine ⟨?_, h.1, ?_, rfl⟩
  · intro pre e post heq
    obtain ⟨h1, h2⟩ := h.2 pre e post heq
    exact ⟨h1, by simp [h2]⟩
  · simp [Scheduler.initialise]

/-- C25, amended, on the run with 100 invalid states found by the interaction:
the pair call is made with 100 warnings counted and the flag true, 101
warnings are counted in all, and the message on suppressed output is
written. -/
theorem Scheduler_initialise_warnings_witness :
    (Scheduler.initialise (Scenario.env (fun x => x)) (Scenario.warningValidators 100)
        (Scenario.overlapSim ℚ)).calls
        = [(0, ValidateCall.ofInteraction 0 true 101 100)]
          ++ (100, ValidateCall.ofPair 0 1 true true)
            :: [(101, ValidateCall.ofLocal 0 0 false false),
                (101, ValidateCall.ofLocal 0 1 false false)]
      ∧ (100 : Nat)
          = (([(0, ValidateCall.ofInteraction 0 true 101 100)].map
              (fun e => e.2.count)).sum) % 2 ^ 64
      ∧ ((ValidateCall.ofPair 0 1 true true).textoutput = true ↔ 100 < 101)
      ∧ (Scheduler.initialise (Scenario.env (fun x => x)) (Scenario.warningValidators 100)
          (Scenario.overlapSim ℚ)).warnings = 101
      ∧ (Scheduler.initialise (Scenario.env (fun x => x)) (Scenario.warningValidators 100)
          (Scenario.overlapSim ℚ)).suppressed = true := by
  have hc : (Scheduler.initialise (Scenario.env (fun x => x)) (Scenario.warningValidators 100)
        (Scenario.overlapSim ℚ)).calls
        = [(0, ValidateCall.ofInteraction 0 true 101 100)]
          ++ (100, ValidateCall.ofPair 0 1 true true)
            :: [(101, ValidateCall.ofLocal 0 0 false false),
                (101, ValidateCall.ofLocal 0 1 false false)] := by decide
  have h := Scheduler_initialise_warnings (Scenario.env (fun x => x))
    (Scenario.warningValidators 100) (Scenario.overlapSim ℚ)
  obtain ⟨h1, h2⟩ := h.1 _ _ _ hc
  exact ⟨hc, h1, h2, by decide, by decide⟩

end Validation

/-! ## The sleep global: theorems -/

section Sleep

/-- C26: `GSleep::getEvent(p)` is `dt = 0` with type SLEEP when `p` is marked in
`stateChange` and DYNAMIC, `dt = 0` with type WAKEUP when `p` is marked and not
DYNAMIC, `dt = 0.5` units of time with type WAKEUP when `p` is not marked and
not DYNAMIC, and type NONE with `dt = +∞` when `p` is not marked and
DYNAMIC. -/
theorem GSleep_getEvent_cases {K : Type} [LinearOrderedField K] (self : GSleep K)
    (unitTime : K) (p : Particle K) :
    (p.ID ∈ self.stateChange → p.dynamic = true →
      self.getEvent unitTime p = ⟨Dbl.fin 0, EEventType.SLEEP, p.ID, self.ID⟩) ∧
    (p.ID ∈ self.stateChange → p.dynamic = false →
      self.getEvent unitTime p = ⟨Dbl.fin 0, EEventType.WAKEUP, p.ID, self.ID⟩) ∧
    (p.ID ∉ self.stateChange → p.dynamic = false →
      self.getEvent unitTime p
        = ⟨Dbl.fin (1 / 2 * unitTime), EEventType.WAKEUP, p.ID, self.ID⟩) ∧
    (p.ID ∉ self.stateChange → p.dynamic = true →
      self.getEvent unitTime p = ⟨Dbl.pinf, EEventType.NONE, p.ID, self.ID⟩) := by
  refine ⟨?_, ?_, ?_, ?_⟩ <;> intro hm hd <;>
    simp [GSleep.getEvent, hm, hd, Dbl.HUGE_VAL]

/-- C26, at a sleeping particle 3 that is not marked, with the unit of time 1:
a WAKEUP check after `1/2`. -/
theorem GSleep_getEvent_cases_witness :
    (⟨0, 1 / 10, [1, 2]⟩ : GSleep ℚ).getEvent 1
        ⟨⟨⟨0, 0, 0⟩, ⟨0, 0, 0⟩, 3, 0⟩, false⟩
      = ⟨Dbl.fin (1 / 2 * 1), EEventType.WAKEUP, 3, 0⟩ :=
  (GSleep_getEvent_cases (⟨0, 1 / 10, [1, 2]⟩ : GSleep ℚ) 1
    ⟨⟨⟨0, 0, 0⟩, ⟨0, 0, 0⟩, 3, 0⟩, false⟩).2.2.1 (by decide) rfl

end Sleep

/-! ## The dumbbell interaction: theorems -/

section Dumbbells

/-- The capture key does not depend on the order of the pair. -/
theorem IDumbbells.key_comm (p1 p2 : Nat) : IDumbbells.key p1 p2 = IDumbbells.key p2 p1 := by
  simp [IDumbbells.key, min_comm, max_comm]

/-- C27: `IDumbbells::runEvent(p1, p2, iEvent)` with an NBHOOD_IN event returns
with the pair added to the capture map, with an NBHOOD_OUT event with the pair
removed, and with a VIRTUAL event with the capture map as it was; in all three
cases the simulation (velocities, angular velocities, `eventCount`) is the one
it was called with, the returned data has type VIRTUAL and no impulse, and the
event is retyped VIRTUAL; an event type other than CORE, NBHOOD_IN, NBHOOD_OUT
and VIRTUAL raises "Unknown collision type". -/
theorem IDumbbells_runEvent_neighbourhood {K : Type} [LinearOrderedField K]
    (self : IDumbbells K) (sqrt : K → K) (env : DumbbellEnv K) (sim : DumbbellSim K)
    (p1 p2 : Nat) (iEvent : IntEvent K) :
    (iEvent.type = EEventType.NBHOOD_IN →
      ∃ retval : C2ParticleData K,
        self.runEvent sqrt env sim p1 p2 iEvent
            = Except.ok (retval, { iEvent with type := EEventType.VIRTUAL },
                self.add p1 p2, sim)
          ∧ retval.type = EEventType.VIRTUAL ∧ retval.dP = ⟨0, 0, 0⟩
          ∧ (self.add p1 p2).isCaptured p1 p2 = true
          ∧ (self.add p1 p2).isCaptured p2 p1 = true
          ∧ (self.add p1 p2).captureMap = insert (IDumbbells.key p1 p2) self.captureMap) ∧
    (iEvent.type = EEventType.NBHOOD_OUT →
      ∃ retval : C2ParticleData K,
        self.runEvent sqrt env sim p1 p2 iEvent
            = Except.ok (retval, { iEvent with type := EEventType.VIRTUAL },
                self.remove p1 p2, sim)
          ∧ retval.type = EEventType.VIRTUAL ∧ retval.dP = ⟨0, 0, 0⟩
          ∧ (self.remove p1 p2).isCaptured p1 p2 = false
          ∧ (self.remove p1 p2).isCaptured p2 p1 = false
          ∧ (self.remove p1 p2).captureMap
              = self.captureMap.erase (IDumbbells.key p1 p2)) ∧
    (iEvent.type = EEventType.VIRTUAL →
      ∃ retval : C2ParticleData K,
        self.runEvent sqrt env sim p1 p2 iEvent
            = Except.ok (retval, { iEvent with type := EEventType.VIRTUAL }, self, sim)
          ∧ retval.type = EEventType.VIRTUAL ∧ retval.dP = ⟨0, 0, 0⟩) ∧
    (iEvent.type ≠ EEventType.CORE → iEvent.type ≠ EEventType.NBHOOD_IN →
      iEvent.type ≠ EEventType.NBHOOD_OUT → iEvent.type ≠ EEventType.VIRTUAL →
      self.runEvent sqrt env sim p1 p2 iEvent = Except.error "Unknown collision type") := by
  refine ⟨?_, ?_, ?_, ?_⟩
  · intro h
    refine ⟨CLNewton.C2ParticleData.mk0 (IDumbbells.particle sim p1)
      (IDumbbells.particle sim p2) EEventType.VIRTUAL, ?_, rfl, rfl, ?_, ?_, rfl⟩
    · simp only [IDumbbells.runEvent, h]
    · simp [IDumbbells.isCaptured, IDumbbells.add]
    · simp [IDumbbells.isCaptured, IDumbbells.add, IDumbbells.key_comm p2 p1]
  · intro h
    refine ⟨CLNewton.C2ParticleData.mk0 (IDumbbells.particle sim p1)
      (IDumbbells.particle sim p2) EEventType.VIRTUAL, ?_, rfl, rfl, ?_, ?_, rfl⟩
    · simp only [IDumbbells.runEvent, h]
    · simp [IDumbbells.isCaptured, IDumbbells.remove]
    · simp [IDumbbells.isCaptured, IDumbbells.remove, IDumbbells.key_comm p2 p1]
  · intro h
    refine ⟨CLNewton.C2ParticleData.mk0 (IDumbbells.particle sim p1)
      (IDumbbells.particle sim p2) EEventType.VIRTUAL, ?_, rfl, rfl⟩
    simp only [IDumbbells.runEvent, h]
  · intro h1 h2 h3 h4
    cases ht : iEvent.type <;> simp_all [IDumbbells.runEvent]

/-- C27, at two dumbbells at rest three apart, not yet captured: the NBHOOD_IN
event of the pair (0, 1) captures it and leaves the simulation, with its 5
events counted, as it was. -/
theorem IDumbbells_runEvent_neighbourhood_witness :
    ∃ retval : C2ParticleData ℚ,
      Scenario.dumbbells.runEvent (fun x => x) (Scenario.dumbbellEnv none)
          (Scenario.dumbbellSim 3 0) 0 1 ⟨Dbl.fin 0, EEventType.NBHOOD_IN, 0, 1, 0⟩
        = Except.ok (retval, ⟨Dbl.fin 0, EEventType.VIRTUAL, 0, 1, 0⟩,
            Scenario.dumbbells.add 0 1, Scenario.dumbbellSim 3 0)
        ∧ retval.type = EEventType.VIRTUAL ∧ retval.dP = ⟨0, 0, 0⟩
        ∧ (Scenario.dumbbells.add 0 1).isCaptured 0 1 = true
        ∧ (Scenario.dumbbells.add 0 1).isCaptured 1 0 = true
        ∧ (Scenario.dumbbells.add 0 1).captureMap
            = insert (IDumbbells.key 0 1) Scenario.dumbbells.captureMap :=
  (IDumbbells_runEvent_neighbourhood Scenario.dumbbells (fun x => x)
    (Scenario.dumbbellEnv none) (Scenario.dumbbellSim 3 0) 0 1
    ⟨Dbl.fin 0, EEventType.NBHOOD_IN, 0, 1, 0⟩).1 rfl

/-- For contrast with C27: the CORE event of the same pair in contact counts
one event more. -/
theorem IDumbbells_runEvent_CORE_counts :
    (Scenario.dumbbells.runEvent (fun x => x) (Scenario.dumbbellEnv none)
        (Scenario.dumbbellSim 3 0) 0 1 ⟨Dbl.fin 0, EEventType.CORE, 0, 1, 0⟩).toOption.map
      (fun r => r.2.2.2.eventCount) = some 6 := by
  simp [IDumbbells.runEvent, Scenario.dumbbellEnv, Scenario.dumbbellSim,
    IDumbbells.runEvent_CORE, IDumbbells.store, Except.toOption]

end Dumbbells

section WellEnergy

end WellEnergy

/-! ## The dumbbell capture distance: theorems -/

section DumbbellRange

end DumbbellRange

/-! ## The lazy-deletion loop: theorems -/

section LazyDeletion

/-- Popping the PEL at index `i` whose event is an INTERACTION leaves one
INTERACTION event less in the list. -/
theorem countP_modify_pop {K : Type} [LinearOrderedField K] (l : List (PELSingleEvent K))
    (i : Nat) (a : PELSingleEvent K) (ha : l[i]? = some a)
    (hI : a.top.type = EEventType.INTERACTION) :
    (l.modify PELSingleEvent.pop i).countP
        (fun p => decide (p.top.type = EEventType.INTERACTION)) + 1
      = l.countP (fun p => decide (p.top.type = EEventType.INTERACTION)) := by
  induction l generalizing i with
  | nil => simp at ha
  | cons b l ih =>
    cases i with
    | zero =>
      simp only [List.getElem?_cons_zero, Option.some.injEq] at ha
      subst ha
      simp only [PELSingleEvent.top] at hI
      simp [List.countP_cons, PELSingleEvent.pop, PELSingleEvent.empty, PELSingleEvent.top, hI]
    | succ j =>
      simp only [List.getElem?_cons_succ] at ha
      have := ih j ha
      simp only [List.modify_succ_cons, List.countP_cons]
      omega

/-- A turn of the loop of `lazyDeletionCleanup` on a stale top leaves one
INTERACTION event less in the FEL. -/
theorem Scheduler.interactionCount_body {K : Type} [LinearOrderedField K] (s : Scheduler K)
    (h : s.staleTop) :
    s.lazyDeletionCleanup_body.interactionCount + 1 = s.interactionCount := by
  obtain ⟨a, ha, haI, -⟩ := Scheduler.staleTop_getElem? s h
  simpa [Scheduler.lazyDeletionCleanup_body, Scheduler.interactionCount, FEL.sort, FEL.update,
    FEL.popNextEvent] using countP_modify_pop s.sorter.pels s.sorter.topID a ha haI

/-- The loop of `lazyDeletionCleanup` run for as many turns as there are
INTERACTION events in the FEL, or more, has ended, with the result of
`lazyDeletionCleanup`. -/
theorem Scheduler.lazyDeletionCleanup_turns_eq {K : Type} [LinearOrderedField K]
    (fuel : Nat) (s : Scheduler K) (h : s.interactionCount ≤ fuel) :
    Scheduler.lazyDeletionCleanup_turns fuel s = some s.lazyDeletionCleanup := by
  induction fuel generalizing s with
  | zero =>
    have hs : ¬ s.staleTop := by
      intro hst
      have := Scheduler.interactionCount_body s hst
      omega
    simp [Scheduler.lazyDeletionCleanup_turns, hs,
      Scheduler.lazyDeletionCleanup_of_not_stale s hs]
  | succ n ih =>
    by_cases hst : s.staleTop
    · have := Scheduler.interactionCount_body s hst
      rw [Scheduler.lazyDeletionCleanup_turns, if_pos hst, ih _ (by omega),
        Scheduler.lazyDeletionCleanup_of_stale s hst]
      rfl
    · simp [Scheduler.lazyDeletionCleanup_turns, hst,
        Scheduler.lazyDeletionCleanup_of_not_stale s hst]

/-- The loop of `lazyDeletionCleanup` creates no INTERACTION event. -/
theorem Scheduler.interactionCount_lazyDeletionCleanup {K : Type} [LinearOrderedField K]
    (s : Scheduler K) : s.lazyDeletionCleanup.interactionCount ≤ s.interactionCount := by
  induction s using Scheduler.lazyDeletionCleanup.induct with
  | case1 s h ih =>
    rw [Scheduler.lazyDeletionCleanup_of_stale s h]
    have := Scheduler.interactionCount_body s h
    simp only [Scheduler.lazyDeletionCleanup_body] at this
    omega
  | case2 s h => rw [Scheduler.lazyDeletionCleanup_of_not_stale s h]

/-- C30: `PELSingleEvent::pop` on a non-empty slot keeps `dt` (and the secondary
id and counter) and sets the type to RECALCULATE, and changes nothing on an
empty slot; a turn of the loop of `Scheduler::lazyDeletionCleanup`, taken when
the top is a stale INTERACTION event, turns that event into a RECALCULATE
event, leaves every other PEL as it is and so leaves one INTERACTION event
less in the FEL; the loop run for as many turns as there are INTERACTION
events in the FEL has ended, with a top that is not stale and no more
INTERACTION events than before. -/
theorem lazyDeletionCleanup_terminates {K : Type} [LinearOrderedField K] (s : Scheduler K)
    (p : PELSingleEvent K) :
    (p.empty = false →
        p.pop._event = { p._event with type := EEventType.RECALCULATE }
          ∧ p.pop.getdt = p.getdt) ∧
    (p.empty = true → p.pop = p) ∧
    (s.staleTop →
      (∃ a, s.sorter.pels[s.sorter.next.1]? = some a
          ∧ a.top.type = EEventType.INTERACTION
          ∧ s.lazyDeletionCleanup_body.sorter.pels[s.sorter.next.1]? = some a.pop
          ∧ a.pop.top.type = EEventType.RECALCULATE ∧ a.pop.getdt = a.getdt)
        ∧ (∀ i, i ≠ s.sorter.next.1 →
            s.lazyDeletionCleanup_body.sorter.pels[i]? = s.sorter.pels[i]?)
        ∧ s.lazyDeletionCleanup_body.interactionCount + 1 = s.interactionCount) ∧
    (∀ fuel, s.interactionCount ≤ fuel →
      Scheduler.lazyDeletionCleanup_turns fuel s = some s.lazyDeletionCleanup) ∧
    ¬ s.lazyDeletionCleanup.staleTop ∧
    s.lazyDeletionCleanup.interactionCount ≤ s.interactionCount := by
  refine ⟨?_, ?_, ?_, fun fuel h => Scheduler.lazyDeletionCleanup_turns_eq fuel s h,
    Scheduler.not_staleTop_lazyDeletionCleanup s,
    Scheduler.interactionCount_lazyDeletionCleanup s⟩
  · intro hp
    simp [PELSingleEvent.pop, hp, PELSingleEvent.getdt]
  · intro hp
    simp [PELSingleEvent.pop, hp]
  · intro h
    obtain ⟨a, ha, haI, -⟩ := Scheduler.staleTop_getElem? s h
    have hpop : a.pop
        = { a with _event := { a._event with type := EEventType.RECALCULATE } } := by
      simp only [PELSingleEvent.top] at haI
      simp [PELSingleEvent.pop, PELSingleEvent.empty, haI]
    refine ⟨⟨a, ha, haI, ?_, by rw [hpop]; rfl, by rw [hpop]; rfl⟩, ?_,
      Scheduler.interactionCount_body s h⟩
    · simp only [Scheduler.lazyDeletionCleanup_body, FEL.sort, FEL.update, FEL.popNextEvent,
        FEL.next]
      rw [List.getElem?_modify_eq, ha]
      rfl
    · intro i hi
      simp only [Scheduler.lazyDeletionCleanup_body, FEL.sort, FEL.update, FEL.popNextEvent,
        FEL.next] at hi ⊢
      exact List.getElem?_modify_ne _ _ (Ne.symm hi)

/-- C30, on the FEL of two particles whose top event, for the pair (0, 1) at
time 2, is stale: one turn ends the loop, the event is a RECALCULATE event at
time 2 afterwards, and one INTERACTION event is left. -/
theorem lazyDeletionCleanup_terminates_witness :
    (Scenario.staleSim ℚ).ptrScheduler.staleTop
      ∧ (Scenario.staleSim ℚ).ptrScheduler.interactionCount = 2
      ∧ Scheduler.lazyDeletionCleanup_turns 2 (Scenario.staleSim ℚ).ptrScheduler
          = some (Scenario.staleSim ℚ).ptrScheduler.lazyDeletionCleanup
      ∧ (Scenario.staleSim ℚ).ptrScheduler.lazyDeletionCleanup_body.interactionCount + 1
          = (Scenario.staleSim ℚ).ptrScheduler.interactionCount := by
  have hs : (Scenario.staleSim ℚ).ptrScheduler.staleTop := by
    norm_num [Scheduler.staleTop, Scenario.staleSim, Scenario.sim, Scenario.sched, FEL.next,
      FEL.topID, FEL.topFrom, PELSingleEvent.getdt, PELSingleEvent.top, PELSingleEvent.new,
      PELSingleEvent.clear, Dbl.lt, Dbl.HUGE_VAL, Scheduler.eventCountAt]
  have hc : (Scenario.staleSim ℚ).ptrScheduler.interactionCount = 2 := by
    simp [Scheduler.interactionCount, Scenario.staleSim, Scenario.sim, Scenario.sched,
      PELSingleEvent.top, PELSingleEvent.new, PELSingleEvent.clear]
  have h := lazyDeletionCleanup_terminates (Scenario.staleSim ℚ).ptrScheduler PELSingleEvent.new
  exact ⟨hs, hc, h.2.2.2.1 2 (by rw [hc]), (h.2.2.1 hs).2.2⟩

end LazyDeletion

end DynamO
